import Mathlib

/-!
Verification of the command interpreter and world-state machine of the text
adventure "Monsters Aliens Fame And Glory" (Beta 0.15), against its
natural-language specification.

The Python source keeps the whole world state in module-level globals and
mutates them from a chain of handler functions driven by a read-eval loop.
The embedding models that state as the structure `Globals` and each handler as
a function `Globals → Except PyErr Globals` (`PyErr` stands for an uncaught
Python exception: `KeyError` from a missing dict key, `ValueError` from
`int(...)`, `NameError` from an undefined variable).  Python string and dict
operations (`str.find`, slicing with negative indices, `str.split`,
`int(...)`, insertion-ordered dicts) are reproduced by the `py*` helpers
below.

Modelling conventions, stated once here:
* Python `set` iteration order is implementation defined; wherever the source
  iterates over a set of phrases, the model iterates over the list of elements
  in the order they appear in the source's literal (duplicates dropped).
* `print` output is appended to `Globals.output`; `input(...)` pops
  `Globals.inputs` (returning "" when exhausted, which no theorem relies on).
* The textwrap utility (`fill`, `indent`) is declared out of scope by the
  spec (§1: a pure formatting function); `fill` is modelled as the identity
  on the paragraph text and `indent` as prefixing two spaces.
* `random.randint` draws (spec §1: random flavor-text selection is out of
  scope) are passed in explicitly: the five flavour strings via `RandText`,
  the one in-handler draw via the `randNums` field.
-/

namespace MAFG

/-- Uncaught Python exceptions the source can raise. -/
inductive PyErr where
  | keyError (k : String)
  | valueError (s : String)
  | nameError (n : String)
  deriving Repr, DecidableEq

/-! ## Python string primitives -/

/-- Search for `p` starting at offset `i` of `s`: the core of `str.find`. -/
def pfGo (p : List Char) : List Char → Nat → Int
  | [], i => if p = [] then (i : Int) else -1
  | s@(_ :: t), i => if p.isPrefixOf s then (i : Int) else pfGo p t (i + 1)

/-- Python `s.find(p)`: first index of substring `p` in `s`, `-1` if absent. -/
def lFind (s p : List Char) : Int := pfGo p s 0

def pyFind (s p : String) : Int := lFind s.data p.data

/-- Python substring containment `p in s`. -/
def pyIn (p s : String) : Bool := 0 ≤ pyFind s p

/-- Normalize a Python slice index against a length (negative counts from the
end, out-of-range clamps). -/
def pyIdx (len : Nat) (i : Int) : Nat :=
  if i < 0 then ((len : Int) + i).toNat else min i.toNat len

def lSlice (l : List Char) (a b : Int) : List Char :=
  let a' := pyIdx l.length a
  let b' := pyIdx l.length b
  (l.drop a').take (b' - a')

/-- Python `s[a:b]`. -/
def pySlice (s : String) (a b : Int) : String := ⟨lSlice s.data a b⟩

/-- Python `s[a:]`. -/
def pySliceFrom (s : String) (a : Int) : String := pySlice s a (s.data.length : Int)

def lowerCh (c : Char) : Char :=
  if 'A' ≤ c ∧ c ≤ 'Z' then Char.ofNat (c.toNat + 32) else c

/-- Python `s.lower()` (ASCII letters, all this program ever reads). -/
def pyLower (s : String) : String := ⟨s.data.map lowerCh⟩

def isWs (c : Char) : Bool := c == ' '

/-- Python `s.strip()` (the program's strings only carry spaces). -/
def pyStrip (s : String) : String :=
  ⟨((s.data.dropWhile isWs).reverse.dropWhile isWs).reverse⟩

/-- Whitespace splitter underlying Python `s.split()`. -/
def swGo : List Char → List Char → List (List Char)
  | [], acc => if acc = [] then [] else [acc.reverse]
  | c :: t, acc =>
    if isWs c then (if acc = [] then swGo t [] else acc.reverse :: swGo t [])
    else swGo t (c :: acc)

/-- Python `s.split()` with no argument: split on whitespace runs, no empties. -/
def pySplit (s : String) : List String := (swGo s.data []).map fun l => ⟨l⟩

def digVal? (c : Char) : Option Nat :=
  if '0' ≤ c ∧ c ≤ '9' then some (c.toNat - 48) else none

def digsVal : List Char → Option Nat
  | [] => none
  | l => l.foldl (fun acc c => do pure ((← acc) * 10 + (← digVal? c))) (some 0)

/-- Python `int(s)`: optional sign and decimal digits after stripping
whitespace; anything else raises `ValueError`. -/
def pyInt (s : String) : Except PyErr Int :=
  let t := ((s.data.dropWhile isWs).reverse.dropWhile isWs).reverse
  if t.head? = some '-' then
    match digsVal t.tail with
    | some n => .ok (-(n : Int))
    | none => .error (.valueError s)
  else
    match digsVal t with
    | some n => .ok (n : Int)
    | none => .error (.valueError s)

/-! ## Python dicts (insertion ordered) and sets of strings -/

abbrev PyDict := List (String × Int)

/-- Python `d[k]`: `KeyError` when absent. -/
def dGet (d : PyDict) (k : String) : Except PyErr Int :=
  match d.find? (fun kv => kv.1 == k) with
  | some kv => .ok kv.2
  | none => .error (.keyError k)

/-- Python `d[k] = v`: update in place, else append (insertion order kept). -/
def dSet (d : PyDict) (k : String) (v : Int) : PyDict :=
  if d.any (fun kv => kv.1 == k) then
    d.map (fun kv => if kv.1 == k then (kv.1, v) else kv)
  else d ++ [(k, v)]

/-- Python `set.add` on the model's insertion-ordered set of strings. -/
def setAdd (l : List String) (x : String) : List String :=
  if l.contains x then l else l ++ [x]

/-! ## The world state: the source's module-level globals -/

structure Globals where
  action : String := ""
  action2 : String := ""
  actiontype : List String := []
  printd : Nat := 0
  description : Nat := 1
  generalpart : String := "base_universe"
  part : String := "grassy_field"
  previouspart : List String := ["grassy_field"]
  done : Nat := 0
  dialogcharacter : String := ""
  dialogpart : String := ""
  dialogspecificpart : Nat := 0
  indialog : Nat := 0
  choosedialog : Nat := 0
  dialogschosen : List Nat := []
  yesornotype : String := ""
  yesornoaction : Nat := 0
  isfloornumberaction : Nat := 0
  isjustfloornumberaction : Nat := 0
  specificaction : Nat := 0
  isjustspecificaction : Nat := 0
  placesdiscovered : List String := ["grassy_field"]
  printplacesdiscovered : List String := ["Grassy Field"]
  inventory : PyDict :=
    [("cabin_key", 1), ("cabin_upstairs_bedroom_key", 0), ("water_bucket", 1),
     ("bucket", 0), ("unlit_torch", 0), ("lit_torch", 0), ("ladder", 0),
     ("portal_gun", 1)]
  questlist : PyDict :=
    [("get_rick_duff_beer", 1), ("get_bart_slingshot", 0), ("get_bart_skateboard", 0)]
  lockeddoors : PyDict := [("cabin_front_door", 1), ("cabin_attic_hatch", 1)]
  changableobjects : PyDict :=
    [("lit_cabin_fireplace", 1), ("cabin_upstairs_bedroom_key_on_table", 1),
     ("ladder_on_side_of_cabin", 1), ("cabin_attic_ladder_placed", 1)]
  beento : PyDict := [("grassy_field", 0), ("cavepart1", 0), ("cavepart2", 0)]
  enemiesalive : PyDict := [("cavepart2_r1_imp", 1)]
  npc_stats : PyDict :=
    [("health_cavepart2_r1_imp", 10), ("attack_cavepart2_r1_imp", 2),
     ("defence_cavepart2_r1_imp", 1)]
  paratype : Int := 1
  developermode : Int := 0
  healthpoints : Int := 20
  attackpoints : Int := 0
  defencepoints : Int := 0
  random_require_string : String := ""
  random_need_to_string : String := ""
  random_unlock_string : String := ""
  random_seems_to_be_string : String := ""
  random_there_is_string : String := ""
  output : List String := []
  inputs : List String := []
  randNums : List Nat := []
  deriving Repr, DecidableEq

/-- The state at process start (source lines 492-525). -/
def initialGlobals : Globals := {}

/-- Append one printed line. -/
def emit (g : Globals) (s : String) : Globals := {g with output := g.output ++ [s]}

/-- Pop one line of `input(...)`. -/
def takeInput (g : Globals) : String × Globals :=
  match g.inputs with
  | [] => ("", g)
  | h :: t => (h, {g with inputs := t})

/-- Pop one `random.randint` draw (defaulting to 1). -/
def takeRand (g : Globals) : Nat × Globals :=
  match g.randNums with
  | [] => (1, g)
  | h :: t => (h, {g with randNums := t})

/-- Modelled as the identity: the spec (§1) places the duplicated textwrap
utility out of scope and treats it as a pure formatting function; `fill` only
reflows a paragraph's whitespace. -/
def fill (s : String) : String := s

/-- The textwrap `indent` with the source's two-space prefix, on the
single-paragraph strings the source passes it. -/
def indent (s : String) : String := "  " ++ s

/-! ## Vocabulary tables (source lines 527-557) -/

def cabin_dict : List String := ["cabin", "log cabin", "creepy log cabin"]
def bathroom_dict : List String := ["bathroom", "bath room", "washroom", "wash room"]
def bedroom_dict : List String := ["bedroom", "bed room"]
def living_room_dict : List String := ["living room", "livingroom", "main room", "lobby"]
def grassy_field_dict : List String := ["grassy field", "field", "open field"]
def mineshaft_dict : List String := ["mineshaft", "mine shaft", "mine", "cave", "mine cave"]
def forest_dict : List String := ["forest", "woods", "tree forest"]

def nesw_dict : List String :=
  ["n", "north", "e", "east", "s", "south", "w", "west",
   "ne", "n e", "n-e", "northeast", "north east", "north-east",
   "se", "s e", "s-e", "southeast", "south east", "south-east",
   "sw", "s w", "s-w", "southwest", "south west", "south-west",
   "nw", "n w", "n-w", "northwest", "north west", "north-west"]

def floor1_dict : List String := ["1st floor", "1stfloor", "floor 1", "first floor"]
def floor2_dict : List String := ["2nd floor", "2ndfloor", "floor 2", "second floor"]
def floor3_dict : List String := ["3rd floor", "3rdfloor", "floor 3", "third floor"]

def go_to_upstairs_dict : List String :=
  ["upstairs", "up stairs", "upper floor", "up a level", "up", "u", "next floor up"]
def go_to_downstairs_dict : List String :=
  ["downstairs", "down stairs", "lower floor", "down a level", "down", "d", "next floor down"]

def open_curtains_dict : List String :=
  ["pull back curtain", "pull back curtains", "open curtain", "open curtains",
   "draw back curtain", "draw back curtains"]
def fire_place_dict : List String := ["fireplace", "fire place"]
def take_object_dict : List String := ["take", "grab", "snatch", "pick up"]

def space_after_action_dict : List String := [" ", ""]

def abilities : List String := ["pick up"]

/-! ## Command classifier (source `calculateactiontype`, lines 621-753) -/

def look_around_dict : List String := ["look around", "check surroundings"]
def save_game_dict : List String := ["save", "save game"]
def left_dict : List String := ["left", "l"]
def right_dict : List String := ["right", "r"]
def go_back_dict : List String := ["go back", "go to previous part"]
def load_game_dict : List String := ["load game", "load"]
def examine_dict : List String := ["examine", "x", "inspect", "describe", "check"]
def tp_to_dict : List String := ["tp to", "tp"]
def enter_dict : List String := ["enter", "go inside", "go in"]
def leave_dict : List String := ["leave", "exit"]
def goto_dict : List String := ["go to", "go"]
def fight_dict : List String := ["beat up", "fight", "pick a fight with", "battle"]

/-- The combined verb-phrase set both classifier passes scan, in the source's
literal concatenation order (set iteration order fixed as documented above). -/
def verb_scan_list : List String :=
  load_game_dict ++ examine_dict ++ tp_to_dict ++ enter_dict ++ leave_dict ++
  goto_dict ++ take_object_dict ++ fight_dict

/-- One step of the first scan (count verb phrases present anywhere in the
input, each with a following space-or-end boundary, stripping as it goes). -/
def scanCountStep (p : String × Nat) (item : String) : String × Nat :=
  let a2 := p.1
  let index := pyFind a2 item
  if pyIn item a2 &&
      space_after_action_dict.contains
        (pySlice a2 (index + (item.data.length : Int)) (index + (item.data.length : Int) + 1)) then
    (pySlice a2 0 index ++ pySliceFrom a2 (index + (item.data.length : Int) + 1), p.2 + 1)
  else (a2, p.2)

/-- One step of the second scan: a verb phrase matching at position 0 with a
space-or-end boundary is stripped and classifies the command. -/
def scanClassifyStep (g : Globals) (item : String) : Globals :=
  if pyFind g.action item == 0 &&
      space_after_action_dict.contains
        (pySlice g.action (item.data.length : Int) ((item.data.length : Int) + 1)) then
    let g :=
      if item == "go" && (pyFind g.action "go inside" == 0 || pyFind g.action "go in" == 0 ||
          pyFind g.action "go to" == 0) then g
      else {g with action := pyStrip (pySliceFrom g.action ((item.data.length : Int) + 1))}
    let g :=
      if g.action == "" && !((leave_dict ++ enter_dict).contains item) then
        let g :=
          if load_game_dict.contains item then emit g "Enter save game data to load save:"
          else if examine_dict.contains item then emit g "What do you want to examine?"
          else if tp_to_dict.contains item then emit g "Where do you want to teleport to?"
          else if goto_dict.contains item then emit g ("Where would you like to " ++ item ++ "?")
          else if (take_object_dict ++ fight_dict).contains item then
            emit g ("What do you want to " ++ item ++ "?")
          else g
        let (inp, g) := takeInput g
        {g with action := pyStrip (pyLower inp)}
      else if g.action == "" && enter_dict.contains item && g.part != "cabin_front" &&
          g.part != "simpsons_house_front" then
        let g := emit g ("What would you like to " ++ item ++ "?")
        let (inp, g) := takeInput g
        {g with action := pyStrip (pyLower inp)}
      else g
    if load_game_dict.contains item then {g with actiontype := ["load", "save"]}
    else if examine_dict.contains item then {g with actiontype := ["examine"]}
    else if tp_to_dict.contains item then {g with actiontype := ["teleport"]}
    else if enter_dict.contains item then {g with actiontype := ["enter"]}
    else if leave_dict.contains item then {g with actiontype := ["leave"]}
    else if goto_dict.contains item then
      if nesw_dict.contains g.action then {g with actiontype := ["move"]}
      else if left_dict.contains g.action then {g with actiontype := ["left"]}
      else if right_dict.contains g.action then {g with actiontype := ["right"]}
      else {g with actiontype := ["go to"]}
    else if fight_dict.contains item then {g with actiontype := ["fight"], action2 := item}
    else if take_object_dict.contains item then {g with actiontype := ["take"], action2 := item}
    else g
  else g

/-- The two verb-phrase passes at the end of `calculateactiontype` (source
lines 692-753): the counting pass (`amountofactions`, assigning the stripped
residue to `action2`), the too-many-actions failure, and the classifying
pass.  The source binds the counting pass's result once; the model repeats
the pure expression. -/
def classifyVerbScan (g : Globals) : Globals :=
  if (verb_scan_list.foldl scanCountStep (g.action, 0)).2 > 1 then
    emit {g with action2 := (verb_scan_list.foldl scanCountStep (g.action, 0)).1, done := 1} "You typed to many actions."
  else
    verb_scan_list.foldl scanClassifyStep {g with action2 := (verb_scan_list.foldl scanCountStep (g.action, 0)).1}

/-- The body of `calculateactiontype` after its leading `action.strip()`
(source line 630); split out so the strip shows as one explicit update. -/
def calculateactiontypeCore (g : Globals) : Globals :=
  if look_around_dict.contains g.action then {g with actiontype := ["look around"]}
  else if g.action == "print d" || g.action == "print description" then
    {g with actiontype := ["printd"]}
  else if g.action == "settings" || g.action == "list settings" then
    {g with actiontype := ["settings"]}
  else if save_game_dict.contains g.action then {g with actiontype := ["save"]}
  else if nesw_dict.contains g.action then {g with actiontype := ["move"]}
  else if left_dict.contains g.action then {g with actiontype := ["left"]}
  else if right_dict.contains g.action then {g with actiontype := ["right"]}
  else if go_back_dict.contains g.action then {g with actiontype := ["go back"]}
  else
    classifyVerbScan g

def calculateactiontype (g : Globals) : Globals :=
  calculateactiontypeCore {g with action := pyStrip g.action}

/-! ## Settings handler (source lines 981-1010) -/

def settings (g : Globals) : Globals :=
  if g.action == "settings" || g.action == "list settings" then
    let g := emit g "Settings:"
    let g := emit g (" - paratype = " ++ toString g.paratype ++ " (default: 1) [1,2]")
    let g := emit g (" - developer mode = " ++ toString g.developermode ++ " (default: 0) [0,1]")
    {g with done := 1}
  else if g.action == "paratype = 1" then
    let g := {g with paratype := 1}
    {emit g (" - paratype = " ++ toString g.paratype ++ " (default: 1) [1,2]") with done := 1}
  else if g.action == "paratype = 2" then
    let g := {g with paratype := 2}
    {emit g (" - paratype = " ++ toString g.paratype ++ " (default: 1) [1,2]") with done := 1}
  else if g.action == "developer mode = 0" then
    let g := {g with developermode := 0}
    {emit g (" - developer mode = " ++ toString g.developermode ++ " (default: 0) [0,1]") with done := 1}
  else if g.action == "developer mode = 1" then
    let g := {g with developermode := 1}
    {emit g (" - developer mode = " ++ toString g.developermode ++ " (default: 0) [0,1]") with done := 1}
  else g

/-! ## Persistence codec: save (source lines 1013-1066) and load (1068-1176) -/

/-- The decimal digit characters. -/
def digCh (d : Nat) : Char :=
  if d = 0 then '0' else if d = 1 then '1' else if d = 2 then '2' else if d = 3 then '3'
  else if d = 4 then '4' else if d = 5 then '5' else if d = 6 then '6' else if d = 7 then '7'
  else if d = 8 then '8' else '9'

/-- Decimal digits of `n`, most significant first, onto `acc`; `fuel` bounds
the recursion (any `fuel > n` is enough). -/
def natDigsF : Nat → Nat → List Char → List Char
  | 0, _, acc => acc
  | fuel + 1, n, acc =>
    if n < 10 then digCh n :: acc
    else natDigsF fuel (n / 10) (digCh (n % 10) :: acc)

def natStr (n : Nat) : String := ⟨natDigsF (n + 1) n []⟩

/-- Python `str` of an int: decimal digits with a `-` sign when negative. -/
def intStr (v : Int) : String := if v < 0 then "-" ++ natStr (-v).toNat else natStr v.toNat

def joinCommaSp : List String → String
  | [] => ""
  | [x] => x
  | x :: t => x ++ ", " ++ joinCommaSp t

/-- Python's ordered-dict construction from a literal with possibly repeated
keys: first occurrence keeps its position, a repeat overwrites the value. -/
def pyDictPairs (l : List (String × Nat)) : List (String × Nat) :=
  l.foldl (fun acc kv =>
    if acc.any (fun kv2 => kv2.1 == kv.1) then
      acc.map (fun kv2 => if kv2.1 == kv.1 then (kv2.1, kv.2) else kv2)
    else acc ++ [kv]) []

/-- Python `str` of a dict with string keys and int values (the keys this
program saves never need repr escaping). -/
def pyDictStr (l : List (String × Nat)) : String :=
  "\x7b" ++ joinCommaSp ((pyDictPairs l).map fun kv => "'" ++ kv.1 ++ "': " ++ toString kv.2) ++ "\x7d"

/-- A mapping-valued field's save blob: `" k1:v1 k2:v2 ... "`. -/
def mapBlob (d : PyDict) : String :=
  d.foldl (fun acc kv => acc ++ kv.1 ++ ":" ++ intStr kv.2 ++ " ") " "

/-- The settings save blob `" paratype:1 developermode:2 "`. -/
def settingsBlob (g : Globals) : String :=
  " " ++ intStr g.paratype ++ ":1 " ++ intStr g.developermode ++ ":2 "

/-- The places-discovered save blob `" p1 p2 ... "`. -/
def placesBlob (g : Globals) : String :=
  g.placesdiscovered.foldl (fun acc item => acc ++ item ++ " ") " "

/-- The save handler's `str(savefile)` string (the braced pseudo-map literal). -/
def savefileStr (g : Globals) : String :=
  pyDictStr
    [(settingsBlob g, 0), (g.part, 1), (placesBlob g, 2), (mapBlob g.inventory, 3),
     (mapBlob g.lockeddoors, 4), (mapBlob g.changableobjects, 5), (mapBlob g.beento, 6),
     (mapBlob g.enemiesalive, 7), (mapBlob g.npc_stats, 8)]

def save (g : Globals) : Globals :=
  if g.actiontype.contains "save" then
    let g := emit g ""
    let g := emit g "Type:"
    let g := emit g ""
    let g := emit g ("load " ++ savefileStr g)
    let g := emit g ""
    let g :=
      if g.actiontype.contains "load" then
        {emit g "In order to load your game if save data is corupt." with
          actiontype := g.actiontype.erase "save"}
      else {emit g "In order to load your game." with done := 1}
    emit g "You saved the game."
  else g

/-- Parse one `key:value` token of a mapping blob the way load's inner loops
do (`word[:word.find(":")]` and `int(word[word.find(":") + 1:])`). -/
def parseWord (w : String) : Except PyErr (String × Int) := do
  let index3 := pyFind w ":"
  pure (pySlice w 0 index3, ← pyInt (pySliceFrom w (index3 + 1)))

/-- Rebuild a mapping field from its blob slice: `d = {}` then one
`d[k] = v` per whitespace token. -/
def parseMap (s : String) : Except PyErr PyDict :=
  (pySplit s).foldlM (fun d w => do
    let kv ← parseWord w
    pure (dSet d kv.1 kv.2)) []

/-- The settings part of `load` (source lines 1084-1105): two `int(...)`
reads off the slice before `': 0`; each `find`/slice the source keeps in a
reused variable is written out in full. -/
def loadSettings (action : String) : Except PyErr (Int × Int) := do
  let para ← pyInt (pySlice (pySlice action 3 (pyFind action "': 0")) 0
    (pyFind (pySlice action 3 (pyFind action "': 0")) ":1 "))
  let dev ← pyInt (pySlice (pySlice action 3 (pyFind action "': 0"))
    (pyFind (pySlice action 3 (pyFind action "': 0")) ":1 " + 3)
    (pyFind (pySlice action 3 (pyFind action "': 0")) ":2 "))
  pure (para, dev)

/-- The part slice of `load` (source lines 1107-1110). -/
def loadPart (action : String) : String :=
  pySlice action (pyFind action "': 0" + 7) (pyFind action "': 1")

/-- The places-discovered merge of `load` (source lines 1112-1117): one
`set.add` per whitespace token of the slice. -/
def loadPlaces (action : String) (places : List String) : List String :=
  (pySplit (pySlice action (pyFind action "': 1" + 8) (pyFind action "': 2"))).foldl setAdd places

/-- One mapping reload of `load` (source lines 1119-1176): the slice between
the `': j` markers rebuilt pair by pair. -/
def loadMapSeg (action : String) (p1 p2 : String) : Except PyErr PyDict :=
  parseMap (pySlice action (pyFind action p1 + 8) (pyFind action p2))

/-! `load`'s single body is staged, as with `dosomethingwithsomething`: each
stage recomputes its `find` indices exactly as the source lines do (the
recomputed `index`/`index2` values coincide with the ones the source carries
over between steps). -/

def load (g : Globals) : Except PyErr Globals := do
  if g.actiontype.contains "load" then
    let g := emit g ""
    let action := g.action
    if pySlice action 0 1 == "\x7b" && pySliceFrom action (-1) == "\x7d" then do
      let pd ← loadSettings action
      let g := {g with paratype := pd.1, developermode := pd.2}
      let g := {g with part := loadPart action}
      let g := {g with placesdiscovered := loadPlaces action g.placesdiscovered}
      let inv ← loadMapSeg action "': 2" "': 3"
      let g := {g with inventory := inv}
      let ld ← loadMapSeg action "': 3" "': 4"
      let g := {g with lockeddoors := ld}
      let co ← loadMapSeg action "': 4" "': 5"
      let g := {g with changableobjects := co}
      let bt ← loadMapSeg action "': 5" "': 6"
      let g := {g with beento := bt}
      let ea ← loadMapSeg action "': 6" "': 7"
      let g := {g with enemiesalive := ea}
      let ns ← loadMapSeg action "': 7" "': 8"
      let g := {g with npc_stats := ns}
      let g := emit g ">You loaded the game from your savefile."
      pure {g with description := 1, done := 1}
    else pure g
  else pure g

/-! ## Examine handler (source lines 1181-1255) -/

def examine (g : Globals) : Except PyErr Globals := do
  if g.actiontype.contains "examine" then
    let g ←
      if g.part == "grassy_field" then
        pure <|
          if g.action == "grass" || g.action == "field" || g.action == "brush" then
            emit g (fill "There seems to be purple particles emanating from the grass.")
          else if mineshaft_dict.contains g.action then
            emit g (fill "You would have to get closer to see it.")
          else emit g (fill "We don't know what you are trying to examine.")
      else if g.part == "cabin_living_room" then
        pure <|
          if fire_place_dict.contains g.action then
            emit g (fill "It seems odd that fireplace was lit before you got here.")
          else if g.action == "table" || g.action == "dining table" then
            emit g (fill "You notice a key on the table.")
          else emit g (fill "We don't know what you are trying to examine.")
      else if g.part == "cabin_1st_floor_bathroom" then
        pure <|
          if g.action == "shower" then
            emit g (fill "The shower curtains appear to be closed. You can see a silhouette of a person behind the curtain.")
          else emit g (fill "We don't know what you are trying to examine.")
      else if g.part == "cavepart1" then
        pure <|
          if g.action == "light" || g.action == "feint light" || g.action == "glow" ||
              g.action == "feint glow" || g.action == "glowing light" then
            let g :=
              if g.paratype == 1 then
                emit g (fill "The feint white light continues to grow brighter as you continue down the tunnel.")
              else g
            if g.paratype == 2 then
              emit g " The feint white light continues to grow brighter as you continue down the tunnel."
            else g
          else if g.action == "sulfur" || g.action == "smell of sulfur" ||
              g.action == "smell sulfur" || g.action == "sulfur smell" then
            emit g (fill "There is a smell of sulfur in the air coming from down the tunnel.")
          else emit g (fill "We don't know what you are trying to examine.")
      else if g.part == "cavepart2" then
        pure <|
          if g.action == "torch" || g.action == "flame" || g.action == "fire" ||
              g.action == "light" then
            let g :=
              if g.paratype == 1 then
                emit g (fill "The wood burning torch seems to be perfectly block shaped and the flame is red with tiny white sparks flying off and little particles of smoke.")
              else g
            if g.paratype == 2 then
              emit g " The wood burning torch seems to be perfectly block shaped and the flame is red with tiny white sparks flying off and little particles of smoke."
            else g
          else emit g (fill "We don't know what you are trying to examine.")
      else if g.part == "cavepart2" then
        -- This arm is dead in the source too: the elif chain already matched
        -- part == "cavepart2" above, so the imp stats below never print.
        if g.action == "imp" then do
          let alive ← dGet g.enemiesalive "cavepart2_r1_imp"
          if alive == 1 then do
            let h ← dGet g.npc_stats "health_cavepart2_r1_imp"
            let a ← dGet g.npc_stats "attack_cavepart2_r1_imp"
            let d ← dGet g.npc_stats "defence_cavepart2_r1_imp"
            let g := emit g (fill ("HP: " ++ toString h))
            let g := emit g (fill ("Attack: " ++ toString a))
            pure (emit g (fill ("Defence: " ++ toString d)))
          else pure g
        else pure g
      else pure (emit g "There is nothing to examine here.")
    pure {g with done := 1}
  else pure g

/-! ## Movement handlers (source class `movement`, lines 1258-1744) -/

def tp (g : Globals) : Except PyErr Globals := do
  let pg ← dGet g.inventory "portal_gun"
  if pg == 1 then
    if g.actiontype.contains "teleport" then
      let g :=
        if grassy_field_dict.contains g.action then {g with part := "grassy_field", description := 1}
        else g
      let g :=
        if cabin_dict.contains g.action then {g with part := "cabin_front", description := 1}
        else g
      let g :=
        if g.action == "attic" then {g with part := "cabin_attic", description := 1} else g
      let g :=
        if g.action == "cave" then {g with part := "mineshaft_entrance", description := 1} else g
      let g :=
        if g.action == "simpsons" then
          {g with generalpart := "simpsons_house", part := "simpsons_house_front", description := 1}
        else g
      pure {g with done := 1}
    else pure g
  else pure g

def northeast_dict : List String := ["ne", "n e", "n-e", "northeast", "north east", "north-east"]
def southeast_dict : List String := ["se", "s e", "s-e", "southeast", "south east", "south-east"]
def southwest_dict : List String := ["sw", "s w", "s-w", "southwest", "south west", "south-west"]
def northwest_dict : List String := ["nw", "n w", "n-w", "northwest", "north west", "north-west"]

def move (g : Globals) : Globals :=
  if g.actiontype.contains "move" then
    let g :=
      if g.action == "n" || g.action == "north" then
        let g :=
          if g.part == "grassy_field" then {g with part := "forestpart1", description := 1}
          else emit g "You cant go that way!"
        {g with done := 1}
      else if g.action == "e" || g.action == "east" then
        let g :=
          if g.part == "mineshaft_entrance" then {g with part := "grassy_field", description := 1}
          else if g.part == "cavepart1" then {g with part := "mineshaft_entrance", description := 1}
          else if g.part == "cavepart2" then {g with part := "cavepart1", description := 1}
          else emit g "You cant go that way!"
        {g with done := 1}
      else if g.action == "s" || g.action == "south" then
        let g :=
          if g.part == "forestpart1" then {g with part := "grassy_field", description := 1}
          else emit g "You cant go that way!"
        {g with done := 1}
      else if g.action == "w" || g.action == "west" then
        let g :=
          if g.part == "grassy_field" then {g with part := "mineshaft_entrance", description := 1}
          else if g.part == "mineshaft_entrance" then
            {g with part := "cavepart1", yesornoaction := 0, description := 1}
          else if g.part == "cavepart1" then {g with part := "cavepart2", description := 1}
          else emit g "You cant go that way!"
        {g with done := 1}
      else g
    let g :=
      if northeast_dict.contains g.action then {emit g "You cant go that way!" with done := 1}
      else g
    let g :=
      if southeast_dict.contains g.action then
        let g :=
          if g.part == "grassy_field" then {g with part := "cabin_front", description := 1}
          else emit g "You cant go that way!"
        {g with done := 1}
      else g
    let g :=
      if southwest_dict.contains g.action then {emit g "You cant go that way!" with done := 1}
      else g
    let g :=
      if northwest_dict.contains g.action then
        let g :=
          if g.part == "cabin_front" then {g with part := "grassy_field", description := 1}
          else emit g "You cant go that way!"
        {g with done := 1}
      else g
    g
  else g

def leftright (g : Globals) : Globals :=
  if g.actiontype.contains "left" then
    let g :=
      if g.part == "cavepart2" then {g with part := "cavepart2_l1", description := 1}
      else emit g "You cant go that way!"
    {g with done := 1}
  else if g.actiontype.contains "right" then
    let g :=
      if g.part == "cavepart2" then {g with part := "cavepart2_r1", description := 1}
      else emit g "You cant go that way!"
    {g with done := 1}
  else g

def floor_scan_list : List String := floor1_dict ++ floor2_dict ++ floor3_dict

/-- The floor-qualifier stripping loop shared verbatim by `enter` and `goto`
(source lines 1426-1437 and 1551-1562). -/
def floorScanStep (g : Globals) (item : String) : Globals :=
  if pyIn item g.action then
    let g :=
      if floor1_dict.contains item then {g with isfloornumberaction := 1}
      else if floor2_dict.contains item then {g with isfloornumberaction := 2}
      else if floor3_dict.contains item then {g with isfloornumberaction := 3}
      else g
    let newact := pySlice g.action 0 (pyFind g.action item) ++
        pySliceFrom g.action (pyFind g.action item + (item.data.length : Int) + 1)
    let g := {g with action := newact}
    let g := if g.action == "" then {g with isjustfloornumberaction := 1} else g
    {g with done := g.done + 1}
  else g

/-- The cabin-qualifier stripping loop shared verbatim by `enter` and `goto`
(source lines 1443-1450 and 1568-1575); it breaks after the first match. -/
def cabinScan : List String → Globals → Globals
  | [], g => g
  | item :: rest, g =>
    if pyFind g.action item == 0 &&
        space_after_action_dict.contains
          (pySlice g.action (item.data.length : Int) ((item.data.length : Int) + 1)) then
      let g := if cabin_dict.contains item then {g with specificaction := 1} else g
      let newact := pySlice g.action 0 (pyFind g.action item) ++
          pySliceFrom g.action (pyFind g.action item + (item.data.length : Int) + 1)
      let g := {g with action := newact}
      if g.action == "" then {g with isjustspecificaction := 1} else g
    else cabinScan rest g

def entererror (g : Globals) : Globals :=
  emit g "We dont know what your trying to enter."

def enter (g : Globals) : Except PyErr Globals := do
  if g.actiontype.contains "enter" then
    let g := floor_scan_list.foldl floorScanStep g
    if g.done > 1 then pure (emit g "You typed to many floors.")
    else
      let g := {g with done := 0}
      let g := cabinScan cabin_dict g
      let g ←
        if g.part != "cabin_front" && g.part != "simpsons_house_front" && g.action == "building" then
          pure (emit g "We don't know what building your tring to enter.")
        else if g.part == "cabin_front" then
          if g.action == "" || g.action == "building" ||
              (g.specificaction == 1 && g.isjustspecificaction == 1) then do
            let ck ← dGet g.inventory "cabin_key"
            let arm1 ←
              if ck == 1 then do pure ((← dGet g.lockeddoors "cabin_front_door") == 1)
              else pure false
            if arm1 then pure (emit g (fill "You will have to unlock the door first."))
            else do
              let ck2 ← dGet g.inventory "cabin_key"
              let arm2 ←
                if ck2 == 0 then do pure ((← dGet g.lockeddoors "cabin_front_door") == 1)
                else pure false
              if arm2 then
                pure (emit g (fill "It seems to be locked. You will require a key to unlock the door."))
              else do
                let ld ← dGet g.lockeddoors "cabin_front_door"
                if ld == 0 then pure {g with part := "cabin_living_room", description := 1}
                else pure g
          else pure (entererror g)
        else if g.part == "cabin_living_room" then
          pure <|
            if bathroom_dict.contains g.action && g.isfloornumberaction < 2 &&
                g.specificaction < 2 then
              {g with part := "cabin_1st_floor_bathroom", description := 1}
            else if bedroom_dict.contains g.action && g.isfloornumberaction < 2 &&
                g.specificaction < 2 then
              {g with part := "cabin_1st_floor_bedroom", description := 1}
            else entererror g
        else if g.part == "cabin_1st_floor_bathroom" || g.part == "cabin_1st_floor_bedroom" then
          pure <|
            if living_room_dict.contains g.action && g.isfloornumberaction < 2 &&
                g.specificaction < 2 then
              {g with part := "cabin_living_room", description := 1}
            else entererror g
        else if g.specificaction == 1 then pure (emit g "There is no cabin here.")
        else if g.part == "simpsons_house_front" then
          pure <|
            if living_room_dict.contains g.action then {g with part := "simpsons_house_living_room"}
            else g
        else pure (entererror g)
      -- the source's `elif done == 0` arm is dead: the branch above is guarded
      -- by `if 1 == 1`, which always holds
      pure {g with done := 1}
  else pure g

def leave (g : Globals) : Globals :=
  if g.actiontype.contains "leave" then
    let g :=
      if g.part == "cabin_living_room" &&
          (living_room_dict.contains g.action || cabin_dict.contains g.action ||
            g.action == "") then
        {g with part := "cabin_front", description := 1}
      else if g.part == "cabin_1st_floor_bathroom" &&
          (bathroom_dict.contains g.action || g.action == "") then
        {g with part := "cabin_living_room", description := 1}
      else if g.part == "cabin_1st_floor_bedroom" &&
          (bedroom_dict.contains g.action || g.action == "") then
        {g with part := "cabin_living_room", description := 1}
      else emit g "We dont know what your trying to exit."
    {g with done := 1}
  else g

def gotoerror (g : Globals) : Globals :=
  if go_to_upstairs_dict.contains g.action then emit g "You can't go upstairs here."
  else if go_to_downstairs_dict.contains g.action then emit g "You can't go downstairs here."
  else emit g "We don't know where your trying to go to."

def goto (g : Globals) : Except PyErr Globals := do
  if g.actiontype.contains "go to" then
    let g := floor_scan_list.foldl floorScanStep g
    if g.done > 1 then pure (emit g "You typed to many floors.")
    else
      let g := {g with done := 0}
      let g := cabinScan cabin_dict g
      let g ←
        if (g.part == "cabin_front" || g.part == "mineshaft_entrance" ||
              g.part == "forestpart1") &&
            grassy_field_dict.contains g.action && g.specificaction == 0 then
          pure {g with part := "grassy_field", description := 1}
        else if g.part == "grassy_field" && g.specificaction == 1 &&
            g.isjustspecificaction == 1 then
          pure {g with part := "cabin_front", description := 1}
        else if g.part == "grassy_field" && g.specificaction == 0 then
          pure <|
            if grassy_field_dict.contains g.action then
              emit g "You are already at the grassy field."
            else if mineshaft_dict.contains g.action then
              {g with part := "mineshaft_entrance", description := 1}
            else if forest_dict.contains g.action then
              {g with part := "forestpart1", description := 1}
            else gotoerror g
        else if g.part == "cabin_living_room" || g.part == "cabin_1st_floor_bathroom" ||
            g.part == "cabin_1st_floor_bedroom" || g.part == "cabin_kitchen" then
          pure <|
            if living_room_dict.contains g.action && g.isfloornumberaction < 2 &&
                g.specificaction < 2 then
              if g.part != "cabin_living_room" then
                {g with part := "cabin_living_room", description := 1}
              else emit g ("You are already in the " ++ g.action ++ ".")
            else if bathroom_dict.contains g.action && g.isfloornumberaction < 2 &&
                g.specificaction < 2 then
              if g.part != "cabin_1st_floor_bathroom" then
                {g with part := "cabin_1st_floor_bathroom", description := 1}
              else emit g ("You are already in the " ++ g.action ++ ".")
            else if bedroom_dict.contains g.action && g.isfloornumberaction < 2 &&
                g.specificaction < 2 then
              if g.part != "cabin_1st_floor_bedroom" then
                {g with part := "cabin_1st_floor_bedroom", description := 1}
              else emit g ("You are already in the " ++ g.action ++ ".")
            else if (g.isfloornumberaction == 2 && g.isjustfloornumberaction == 1 &&
                  g.specificaction < 2) ||
                (go_to_upstairs_dict.contains g.action && g.isfloornumberaction == 0 &&
                  g.specificaction == 0) then
              {g with part := "cabin_2nd_floor_bedroom_connecter", description := 1}
            else gotoerror g
        else if g.part == "cabin_2nd_floor_bedroom_connecter" then
          if (g.isfloornumberaction < 2 && (living_room_dict.contains g.action ||
                (pySlice g.action 0 6 == "cabin " &&
                  living_room_dict.contains (pySliceFrom g.action 6)))) ||
              (g.isfloornumberaction == 1 && g.isjustfloornumberaction == 1) ||
              go_to_downstairs_dict.contains g.action ||
              g.actiontype.contains "go downstairs" then
            pure {g with part := "cabin_living_room", description := 1}
          else if g.isfloornumberaction == 1 && bathroom_dict.contains g.action then
            pure {g with part := "cabin_1st_floor_bathroom", description := 1}
          else if g.isfloornumberaction == 1 && bedroom_dict.contains g.action then
            pure {g with part := "cabin_1st_floor_bedroom", description := 1}
          else if g.isfloornumberaction == 1 then
            -- `action in kitchen_dict`: the name kitchen_dict is never
            -- defined anywhere in the source, so evaluating it raises
            .error (.nameError "kitchen_dict")
          else if g.action == "attic" then do
            let lp ← dGet g.changableobjects "cabin_attic_ladder_placed"
            let c1 ←
              if lp == 1 then do pure ((← dGet g.lockeddoors "cabin_attic_hatch") == 0)
              else pure false
            if c1 then
              -- `part = cabin_attic`: the bare (unquoted) name cabin_attic is
              -- undefined in the source, so the assignment raises
              .error (.nameError "cabin_attic")
            else do
              let c2 ←
                if lp == 1 then do pure ((← dGet g.lockeddoors "cabin_attic_hatch") == 1)
                else pure false
              if c2 then
                let (rn, g) := takeRand g
                if rn == 1 then
                  pure (emit g (fill ("You will " ++ g.random_require_string ++ " a key to " ++
                    g.random_unlock_string ++ " the cabin attic hatch.")))
                else if rn == 2 then
                  pure (emit g (fill ("You will " ++ g.random_need_to_string ++
                    " to unlock the cabin attic hatch first.")))
                else pure g
              else if lp == 0 then
                pure (emit g (fill ("You will " ++ g.random_require_string ++
                  " a ladder to reach the attic.")))
              else do
                let lad ← dGet g.inventory "ladder"
                if lad == 1 then
                  pure (emit g (fill ("You will " ++ g.random_need_to_string ++
                    " to place a ladder to access the attic.")))
                else pure g
          else pure (gotoerror g)
        else if g.generalpart == "simpsons_house" && g.action == "simpsons home" then
          pure (emit g "You are already at the Simpsons home.")
        else if g.generalpart == "springfield_school" && g.action == "simpsons school" then
          pure (emit g "You are already at the Springfield Elementary School.")
        else if g.generalpart == "kwik_e_mart" && g.action == "kwik_e_mart" then
          pure (emit g "You are already at the Kwik-E-Mart.")
        else if g.part == "simpsons_house_front" || g.part == "springfield_school" ||
            g.part == "kwik_e_mart" then
          pure <|
            if g.action == "simpsons home" then
              {g with generalpart := "simpsons_house", part := "simpsons_house_front", description := 1}
            else if g.action == "simpsons school" then
              {g with generalpart := "springfield_school", part := "springfield_school_front", description := 1}
            else if g.action == "kwik-e-mart" then
              {g with generalpart := "kwik_e_mart", part := "kwik_e_mart_front", description := 1}
            else gotoerror g
        else if g.actiontype.contains "go upstairs" then
          pure (emit g "You can't go upstairs here.")
        else if g.actiontype.contains "go downstairs" then
          pure (emit g "You can't go downstairs here.")
        else pure (gotoerror g)
      pure {g with done := 1}
  else pure g

def goback (g : Globals) : Globals :=
  if g.actiontype.contains "go back" then
    if g.previouspart.length > 1 then
      {g with part := (g.previouspart.dropLast.getLast?).getD "", previouspart := g.previouspart.dropLast, description := 1, done := 1}
    else {emit g "There is nothing to go back to." with done := 1}
  else g

/-- Source `gobackto` (lines 1716-1718): run at the top of every loop
iteration, it pushes the current part when it differs from the stack's top.
(On an empty stack the source's `previouspart[-1]` would raise; the stack is
seeded non-empty and never emptied.) -/
def gobackto (g : Globals) : Globals :=
  if g.previouspart.getLast? != some g.part then
    {g with previouspart := g.previouspart ++ [g.part]}
  else g

/-! ## Use-item handler (source `dosomethingwithsomething`, lines 1749-1923)

The Python function is one linear body with early `return`s; the model splits
it at the `return` boundaries into sequential stages
(`dosomethingwithsomething` → `dsws_putout` → `dsws_use` → `dsws_dispatch`),
each stage either ending the turn like the corresponding `return` or handing
the threaded locals (`itemtouse`, `useitemonaction`) to the next stage. -/

def key_dict : List String := ["key"]
def water_bucket_dict : List String := ["bucket", "water bucket"]
def items_to_use_dict : List String := key_dict ++ water_bucket_dict
def things_to_use_keys_on_dict : List String := ["door", "to unlock door"]
def things_to_use_water_on_dict : List String := fire_place_dict
def things_to_use_items_on_dict : List String := things_to_use_keys_on_dict ++ fire_place_dict
def use_key_on_door_dict : List String := ["door", "to unlock door"]

/-- Final dispatch of the use-item handler (source lines 1880-1923). -/
def dsws_dispatch (g : Globals) (itemtouse useitemonaction : String) : Except PyErr Globals := do
  if g.actiontype.contains "use item" then
    if key_dict.contains itemtouse then
      if use_key_on_door_dict.contains useitemonaction then
        if g.part == "cabin_front" then do
          let ck ← dGet g.inventory "cabin_key"
          let arm1 ←
            if ck == 0 then do pure ((← dGet g.lockeddoors "cabin_front_door") == 1)
            else pure false
          let g ←
            if arm1 then pure (emit g "You will require a key to unlock the door.")
            else do
              let ck2 ← dGet g.inventory "cabin_key"
              let arm2 ←
                if ck2 == 1 then do pure ((← dGet g.lockeddoors "cabin_front_door") == 1)
                else pure false
              if arm2 then
                let g := emit g "You use the cabin key to unlock the front door."
                pure {g with lockeddoors := dSet g.lockeddoors "cabin_front_door" 0, inventory := dSet g.inventory "cabin_key" 0}
              else do
                let ld ← dGet g.lockeddoors "cabin_front_door"
                if ld == 0 then pure (emit g "The door is already unlocked.")
                else pure g
          pure {g with done := 1}
        else
          pure {emit g (fill ("There isn't a " ++ useitemonaction ++ " to use a " ++ itemtouse ++ " on here.")) with done := 1}
      else pure g
    else if water_bucket_dict.contains itemtouse then
      if fire_place_dict.contains useitemonaction then
        if g.part == "cabin_living_room" then do
          let bk ← dGet g.inventory "bucket"
          let arm1 ←
            if bk == 1 then do pure ((← dGet g.inventory "water_bucket") == 0)
            else pure false
          let g ←
            if arm1 then pure (emit g "You will have to fill the bucket with water first.")
            else do
              let wb ← dGet g.inventory "water_bucket"
              let arm2 ←
                if wb == 1 then do pure ((← dGet g.inventory "bucket") == 0)
                else pure false
              if arm2 then
                let g := emit g "You put out the fire with the water bucket."
                let g := {g with inventory := dSet (dSet g.inventory "water_bucket" 0) "bucket" 1}
                pure {g with changableobjects := dSet g.changableobjects "lit_cabin_fireplace" 0}
              else do
                let wb2 ← dGet g.inventory "water_bucket"
                let arm3 ←
                  if wb2 == 0 then do pure ((← dGet g.inventory "bucket") == 0)
                  else pure false
                if arm3 then pure (emit g "You don't have a water bucket to put the fire out with.")
                else pure g
          pure {g with done := 1}
        else
          pure {emit g ("We don't know what " ++ useitemonaction ++ " your trying to put out.") with done := 1}
      else pure g
    else pure g
  else if open_curtains_dict.contains g.action then
    let g :=
      if g.part == "cabin_1st_floor_bathroom" then
        if abilities.contains "peeper" then emit g "You pull back the curtains."
        else emit g "You will require the peeper ability to draw back the curtains."
      else emit g "There are no curtains to open here."
    pure {g with done := 1}
  else pure g

/-- The `for item in items_to_use_dict` loop of the `use ` branch (source
lines 1849-1870): `Sum.inl` is the loop's early `return`, `Sum.inr` continues
with the threaded locals and the `itemschecked` count (a matched item breaks). -/
def useLoop : List String → Globals → String → String → Nat →
    Except PyErr (Sum Globals (Globals × String × String × Nat))
  | [], g, itemtouse, uioa, ic => pure (Sum.inr (g, itemtouse, uioa, ic))
  | item :: rest, g, itemtouse, uioa, ic =>
    let ic := ic + 1
    let index := pyFind g.action item
    if pyFind g.action item == 0 &&
        space_after_action_dict.contains
          (pySlice g.action (index + (item.data.length : Int)) (index + (item.data.length : Int) + 1)) then
      let ic := ic - 1
      let itemtouse := item
      let (uioa, g) :=
        if g.action == "" then
          let g := emit g (fill ("What do you want to use the " ++ item ++ " on?"))
          let (inp, g) := takeInput g
          (pyStrip (pyLower inp), g)
        else (pySlice g.action 0 index ++ pySliceFrom g.action (index + (item.data.length : Int) + 1), g)
      if !things_to_use_items_on_dict.contains uioa then
        pure (Sum.inl {emit g (fill ("We don't know what your trying to use the " ++ itemtouse ++ " on.")) with done := 1})
      else if (key_dict.contains itemtouse && !things_to_use_keys_on_dict.contains uioa) ||
          (water_bucket_dict.contains itemtouse && !things_to_use_water_on_dict.contains uioa) then
        pure (Sum.inl {emit g (fill ("You can't use a " ++ itemtouse ++ " on a " ++ uioa ++ ".")) with done := 1})
      else pure (Sum.inr (g, itemtouse, uioa, ic))
    else useLoop rest g itemtouse uioa ic

/-- Stage after the put-out branch: the ` on ` collapse and the `use ` branch
(source lines 1842-1874), then dispatch. -/
def dsws_use (g : Globals) (itemtouse useitemonaction : String) : Except PyErr Globals := do
  let g :=
    if pyFind g.action " on " > -1 then
      {g with action := pySlice g.action 0 (pyFind g.action " on " + 1) ++ pySliceFrom g.action (pyFind g.action " on " + 4)}
    else g
  if pyFind g.action "use " == 0 then
    let g := {g with action := pySliceFrom g.action 4, actiontype := ["use item"]}
    match ← useLoop items_to_use_dict g itemtouse useitemonaction 0 with
    | Sum.inl gFinal => pure gFinal
    | Sum.inr (g, itemtouse, uioa, ic) =>
      if ic == items_to_use_dict.length then
        pure {emit g (fill "We don't know what your trying to use.") with done := 1}
      else dsws_dispatch g itemtouse uioa
  else
    -- itemschecked was reset to 0 and the list has three entries, so the
    -- `itemschecked == len(items_to_use_dict)` guard cannot fire here
    dsws_dispatch g itemtouse useitemonaction

/-- The `for item in things_to_use_water_on_dict` loop of the put-out branch
(source lines 1817-1834): no break, `Sum.inl` is the in-loop `return`. -/
def putOutLoop : List String → Globals → String → String → Nat →
    Except PyErr (Sum Globals (Globals × String × String × Nat))
  | [], g, itemtouse, uioa, ic => pure (Sum.inr (g, itemtouse, uioa, ic))
  | item :: rest, g, itemtouse, uioa, ic =>
    let ic := ic + 1
    if pyFind g.action item == 0 &&
        space_after_action_dict.contains
          (pySlice g.action (item.data.length : Int) ((item.data.length : Int) + 1)) then
      let ic := ic - 1
      let uioa := item
      let g := {g with action := pySliceFrom g.action ((item.data.length : Int) + 1)}
      let g :=
        if pyFind g.action "with " == 0 then {g with action := pyStrip (pySliceFrom g.action 5)}
        else g
      let g :=
        if g.action == "" then
          let g := emit g (fill ("What would you like to use to put out the " ++ uioa ++ "."))
          let (inp, g) := takeInput g
          {g with action := pyStrip (pyLower inp)}
        else g
      let itemtouse := g.action
      if !items_to_use_dict.contains itemtouse then
        pure (Sum.inl {emit g (fill ("We don't know what your trying to use to put out the " ++ uioa ++ ".")) with done := 1})
      else putOutLoop rest g itemtouse uioa ic
    else putOutLoop rest g itemtouse uioa ic

/-- Stage after the unlock branch: the put-out branch (source lines
1805-1838), then the use stage. -/
def dsws_putout (g : Globals) (itemtouse useitemonaction : String) : Except PyErr Globals := do
  if pyFind g.action "put out" == 0 && space_after_action_dict.contains (pySlice g.action 7 8) then
    let g := {g with action := pyStrip (pySliceFrom g.action 8), actiontype := ["use item"]}
    let g ←
      if g.action == "" then do
        let g := emit g (fill "What would you like to put out?")
        let (inp, g) := takeInput g
        pure {g with action := pyStrip (pyLower inp)}
      else pure g
    let g :=
      if pyFind g.action "the " == 0 then {g with action := pyStrip (pySliceFrom g.action 4)}
      else g
    match ← putOutLoop things_to_use_water_on_dict g itemtouse useitemonaction 0 with
    | Sum.inl gFinal => pure gFinal
    | Sum.inr (g, itemtouse, uioa, ic) =>
      if ic == things_to_use_water_on_dict.length then
        pure {emit g (fill "We don't know what your trying to put out.") with done := 1}
      else dsws_use g itemtouse uioa
  else
    -- itemschecked stays 0 and the water-target list has two entries, so the
    -- `itemschecked == len(things_to_use_water_on_dict)` guard cannot fire
    dsws_use g itemtouse useitemonaction

def dosomethingwithsomething (g : Globals) : Except PyErr Globals := do
  if pyFind g.action "unlock" == 0 && space_after_action_dict.contains (pySlice g.action 6 7) then
    let g := {g with action := pySliceFrom g.action 7, actiontype := ["use item"]}
    let (useitemonaction, g) ←
      if g.action == "" then do
        let g := emit g (fill "What would you like to unlock?")
        let (inp, g) := takeInput g
        pure (pyStrip (pyLower inp), g)
      else pure (g.action, g)
    if !things_to_use_keys_on_dict.contains useitemonaction &&
        things_to_use_items_on_dict.contains useitemonaction then
      pure {emit g (fill "You can't unlock that.") with done := 1}
    else if !things_to_use_items_on_dict.contains useitemonaction then
      pure {emit g (fill "We don't know what your trying to unlock.") with done := 1}
    else dsws_putout g "key" useitemonaction
  else dsws_putout g "" ""

/-! ## Yes/no handlers (source lines 1983-2077) -/

def yes_no_dict : List String := ["yes", "yas", "ye", "y", "no", "nah", "n"]
def yes_dict : List String := ["yes", "yas", "ye", "y"]
def no_dict : List String := ["no", "nah"]

/-- Source `action_of_fight` (lines 2246-2267): the deliberately stubbed
combat resolution. -/
def action_of_fight (g : Globals) : Except PyErr Globals := do
  let c ←
    if g.part == "cavepart2" then do pure ((← dGet g.enemiesalive "cavepart2_r1_imp") == 1)
    else pure false
  if c then pure (emit g "fude") else pure g

def yesorno (g : Globals) : Except PyErr Globals := do
  if yes_no_dict.contains g.action && g.yesornoaction == 1 then
    let g ←
      if yes_dict.contains g.action then
        if g.part == "mineshaft_entrance" then
          pure {g with part := "cavepart1", description := 1, done := 1}
        else if g.part == "cavepart2_r1" then do
          let g ← action_of_fight {g with yesornotype := ""}
          pure {g with done := 1}
        else pure g
      else if g.action == "n" || no_dict.contains g.action then do
        let g ←
          if g.action == "n" then do
            let g := emit g "Did you mean no or north?"
            let (inp, g) := takeInput g
            pure {g with action := pyLower inp}
          else pure g
        if no_dict.contains g.action then
          let g ←
            if g.part == "mineshaft_entrance" then
              pure {emit g (fill "You decide to wait a little bit before entering the cave.") with part := "grassy_field", description := 1}
            else if g.part == "cavepart2_r1" then
              pure {emit g (fill "You decide to not beat up the helpless imp for now however he is still blocking the right path.") with yesornotype := "", description := 1}
            else pure g
          pure {g with done := 1}
        else pure (emit g "We still don't know if you mean no or north.")
      else pure g
    pure {g with yesornoaction := 0, done := 1}
  else pure g

def askyesorno (g : Globals) : Globals :=
  if g.part == "mineshaft_entrance" then
    {emit g "Do you go in?" with yesornoaction := 1}
  else if g.part == "cavepart2_r1" && g.yesornotype == "fight" then
    {emit g (fill "Are you sure you want to do this?") with yesornoaction := 1}
  else g

/-! ## Dialogue handlers (source lines 2092-2213) -/

def dialogchoices (g : Globals) : Globals :=
  let g :=
    if g.dialogpart == "rick_and_morty_apear_in_attic" then
      let g := emit g "What do you choose to do?"
      let g := if !g.dialogschosen.contains 1 then emit g "1: Grab portal gun and run" else g
      let g := if !g.dialogschosen.contains 2 then emit g "2: Spit in Rick's face" else g
      let g := if !g.dialogschosen.contains 3 then emit g "3: Take boy as hostage" else g
      let g := if !g.dialogschosen.contains 4 then emit g "4: Ask if you can join them" else g
      g
    else g
  {g with choosedialog := 1, done := 1}

def dialog (g : Globals) : Globals :=
  if g.indialog == 1 then
    let g :=
      if g.dialogpart == "rick_and_morty_apear_in_attic" then
        let g := emit g (fill (indent ("As you go to " ++ g.action2 ++ " the portal gun a green portal opens up infront of you. A old man with spiky white hair and a labcoat holding a flask and identical portal gun steps though the portal. A brown haired boy wearing a yellow t-shirt and blue pants, follows into the room as the portal dissapears behind them.")))
        let g := emit g ""
        let g := emit g (fill "Rick: ")
        emit g (fill (indent "Hi name's Rick Sanchez. Me and my ill minded companion are going to have to confinscate that portal gun. Unless you want to be converted to a pile of dung goop."))
      else g
    dialogchoices {g with indialog := 0, dialogschosen := []}
  else g

def chooseadialog (g : Globals) : Globals :=
  if g.choosedialog == 1 then
    let g :=
      if g.dialogpart == "rick_and_morty_apear_in_attic" then
        if g.action == "1" && !g.dialogschosen.contains 1 then
          dialogchoices {emit g (fill "") with dialogschosen := g.dialogschosen ++ [1]}
        else if g.action == "2" && !g.dialogschosen.contains 2 then
          let g := emit g (fill "You spit directly into Rick's face for absolutely no reason.")
          let g := emit g (fill "Rick: ")
          let g := emit g (fill (indent " \"Well thats just rude.\" "))
          let g := emit g ""
          dialogchoices {g with dialogschosen := g.dialogschosen ++ [2]}
        else if g.action == "3" && !g.dialogschosen.contains 3 then
          dialogchoices {emit g (fill "") with dialogschosen := g.dialogschosen ++ [3]}
        else if g.action == "4" then
          let g := emit g (fill "Rick: ")
          let g := emit g (fill (indent "\"Well I suppose we could use the help seeing as you've got this far from waking up in Grassy Field.\" "))
          let g := emit g (fill "")
          let g := emit g (fill "(You wonder how he knows that)")
          let g := emit g (fill "")
          let g := emit g (fill (indent "\"First we *buuurrrbbbb* need to get some duff beeer because *urp* I'm nearly out of boose. It coincedently helps me think. Here hop in this *urp* portal.\" "))
          let g := emit g (fill "")
          {g with part := "simpsons_house_front", description := 1}
        else emit g "That's not a valid option."
      else g
    {g with done := 1}
  else g

/-! ## Fight, stats, take (source lines 2216-2398) -/

def fight (g : Globals) : Except PyErr Globals := do
  if g.actiontype.contains "fight" then
    let c ←
      if g.part == "cavepart2" then do pure ((← dGet g.enemiesalive "cavepart2_r1_imp") == 1)
      else pure false
    let g :=
      if c then
        let g := emit g (fill "The imp seems to be minding his own business.")
        let g := emit g ""
        {emit g "You fought wronf!" with yesornotype := "fight"}
      else g
    pure {g with done := 1}
  else pure g

def stats (g : Globals) : Globals :=
  if g.action == "print stats" || g.action == "diagnose" then
    let g := emit g (toString g.healthpoints)
    let g := emit g (toString g.attackpoints)
    let g := emit g (toString g.defencepoints)
    {g with done := 1}
  else g

def takeobjecterror (g : Globals) : Globals :=
  emit g (fill ("There is no " ++ g.action ++ " to " ++ g.action2 ++ " here."))

def takeobject (g : Globals) : Except PyErr Globals := do
  if g.actiontype.contains "take" then
    let g ←
      if g.action == "key" || g.action == "key on table" then do
        let c1 ←
          if g.part == "cabin_living_room" then do
            pure ((← dGet g.changableobjects "cabin_upstairs_bedroom_key_on_table") == 1)
          else pure false
        if c1 then
          let g := {g with inventory := dSet g.inventory "cabin_upstairs_bedroom_key" 1}
          let g := {g with changableobjects := dSet g.changableobjects "cabin_upstairs_bedroom_key_on_table" 0}
          pure (emit g (fill ("You " ++ g.action2 ++ " the key.")))
        else do
          let c2 ←
            if g.part == "cabin_living_room" then do
              pure ((← dGet g.changableobjects "cabin_upstairs_bedroom_key_on_table") == 0)
            else pure false
          if c2 then pure (emit g (fill "You already picked up the key."))
          else pure (takeobjecterror g)
      else if g.action == "portal gun" then
        pure <|
          if g.part == "cabin_attic" then
            {g with dialogcharacter := "rick", dialogpart := "rick_and_morty_apear_in_attic", dialogspecificpart := 1, indialog := 1}
          else takeobjecterror g
      else if g.action == "torch" then
        if g.action2 == "pick up" && g.part == "cavepart2_l1" then
          let g := emit g (fill "You can only pick up objects sitting on something.")
          pure (emit g (fill "Instead type: >take >snatch >grab"))
        else do
          let ul ← dGet g.inventory "unlit_torch"
          let c1 ←
            if ul == 0 then do pure ((← dGet g.inventory "lit_torch") == 0)
            else pure false
          if c1 then
            if g.part == "cavepart2_l1" then
              pure (emit {g with inventory := dSet g.inventory "unlit_torch" 1} (fill ("As you " ++ g.action2 ++ " the torch of the wall the flame goes out.")))
            else pure (takeobjecterror g)
          else do
            let ul2 ← dGet g.inventory "unlit_torch"
            let c2 ←
              if ul2 == 1 then pure true
              else do pure ((← dGet g.inventory "lit_torch") == 1)
            if c2 then
              if g.part == "cavepart2_l1" then do
                let lt ← dGet g.inventory "lit_torch"
                if lt == 1 then
                  pure (emit g (fill "You already have a lit torch in your inventory."))
                else do
                  let ul3 ← dGet g.inventory "unlit_torch"
                  if ul3 == 1 then
                    pure (emit g (fill "You already have a torch in your inventory."))
                  else pure g
              else pure (takeobjecterror g)
            else pure g
      else if g.action == "ladder" then
        if g.part == "cabin_front" then do
          let losc ← dGet g.changableobjects "ladder_on_side_of_cabin"
          if losc == 1 then do
            let lad ← dGet g.inventory "ladder"
            if lad == 1 then
              pure (emit g (fill ("You already have a " ++ g.action ++ ".")))
            else if lad == 0 then
              let g := {g with changableobjects := dSet g.changableobjects "ladder_on_side_of_cabin" 0}
              let g := {g with inventory := dSet g.inventory "ladder" 1}
              pure (emit g (fill ("You " ++ g.action2 ++ " the " ++ g.action ++ ".")))
            else pure g
          else if losc == 0 then
            pure (emit g (fill ("You already took the " ++ g.action ++ ".")))
          else pure g
        else pure (takeobjecterror g)
      else pure (emit g ("We don't know what your trying to " ++ g.action2 ++ "."))
    pure {g with done := 1}
  else pure g

/-! ## Reporting handlers (source lines 2400-2558) -/

def listcommands (g : Globals) : Globals :=
  if g.action == "list commands" then
    let g := emit g "Commands:"
    let g := emit g "(Menu)"
    let g := emit g " - settings"
    let g := emit g " - save"
    let g := emit g " - load"
    let g := emit g "(Info)"
    let g := emit g " - list inventory"
    let g := emit g " - list places"
    let g := emit g " - list quests"
    let g := emit g "(Actions)"
    let g := emit g " - examine"
    let g := emit g " - take"
    let g := emit g " - unlock"
    {g with done := 1}
  else g

def listinventory (g : Globals) : Except PyErr Globals := do
  if g.action == "list inventory" || g.action == "show inventory" ||
      g.action == "open inventory" then
    let g := emit g "Inventory: "
    let v ← dGet g.inventory "cabin_key"
    let g := if v == 1 then emit g " - Cabin Key" else g
    let v ← dGet g.inventory "cabin_upstairs_bedroom_key"
    let g := if v == 1 then emit g " - Upstairs Cabin Bedroom Key" else g
    let v ← dGet g.inventory "water_bucket"
    let g := if v == 1 then emit g " - Bucket Filled With Water" else g
    let v ← dGet g.inventory "bucket"
    let g := if v == 1 then emit g " - Bucket" else g
    let v ← dGet g.inventory "lit_torch"
    let g := if v == 1 then emit g " - Torch" else g
    let v ← dGet g.inventory "unlit_torch"
    let g := if v == 1 then emit g " - Unlit Torch" else g
    let v ← dGet g.inventory "portal_gun"
    let g := if v == 1 then emit g " - Portal Gun" else g
    pure {g with done := 1}
  else pure g

def listplaces (g : Globals) : Globals :=
  let g := {g with printplacesdiscovered := []}
  if g.action == "list places" then
    let g :=
      if g.placesdiscovered.contains "grassy_field" then
        {g with printplacesdiscovered := g.printplacesdiscovered ++ ["Grassy Field"]}
      else g
    let g :=
      if g.placesdiscovered.contains "forestpart1" then
        {g with printplacesdiscovered := g.printplacesdiscovered ++ ["Forest"]}
      else g
    let g :=
      if g.placesdiscovered.contains "mineshaft_entrance" then
        {g with printplacesdiscovered := g.printplacesdiscovered ++ ["Mineshaft Entrance"]}
      else g
    let g :=
      if g.placesdiscovered.contains "cavepart1" || g.placesdiscovered.contains "cavepart2" ||
          g.placesdiscovered.contains "cavepart2_l1" || g.placesdiscovered.contains "cavepart2_r1" then
        {g with printplacesdiscovered := g.printplacesdiscovered ++ ["Cave"]}
      else g
    let g :=
      if g.placesdiscovered.contains "cabin_front" then
        {g with printplacesdiscovered := g.printplacesdiscovered ++ ["Cabin"]}
      else g
    let g :=
      if g.placesdiscovered.contains "simpsons_house_front" then
        {g with printplacesdiscovered := g.printplacesdiscovered ++ ["Simpsons House", "Springfield Elementary School", "Kwik-E-Mart"]}
      else g
    let g :=
      if g.placesdiscovered.contains "springfield_school" then
        {g with printplacesdiscovered := g.printplacesdiscovered ++ ["Groundskeeper Willie's Shack"]}
      else g
    let g := emit g "Places Discovered: "
    let g := g.printplacesdiscovered.foldl (fun g item =>
      let g :=
        if item == "Grassy Field" then emit g "(Base Universe)"
        else if item == "Simpsons House" then emit g "(Simpsons Universe)"
        else g
      emit g (" - " ++ item)) g
    {g with done := 1}
  else g

def listquests (g : Globals) : Except PyErr Globals := do
  if g.action == "list quests" then
    let g := emit g "Quests:"
    let g ←
      if g.placesdiscovered.contains "simpsons_house" then do
        let g := emit g "(Simpsons Universe)"
        let g := emit g " Bart:"
        let sl ← dGet g.questlist "get_bart_slingshot"
        let c ←
          if sl == 0 then do pure ((← dGet g.questlist "get_bart_skateboard") == 0)
          else pure false
        pure (if c then emit g " - ???" else g)
      else pure g
    let rb ← dGet g.questlist "get_rick_duff_beer"
    let g :=
      if rb == 1 then
        let g := emit g "(Rick And Morty Universe)"
        let g := emit g " Rick:"
        emit g " - Get Rick Some Duff Beer"
      else g
    pure {g with done := 1}
  else pure g

/-! ## Description printing (source class `descriptionstuff`, lines 755-979) -/

def printdescriptionaction (g : Globals) : Globals :=
  if g.action == "print d" then {g with printd := 1, description := 1, done := 1} else g

/-- The banner emits at the top of `printdescription` (its first if-chain). -/
def pdHeader (g : Globals) : Globals :=
  if g.part == "grassy_field" then emit g "GRASSY FIELD"
  else if g.part == "mineshaft_entrance" then emit g "MINESHAFT ENTRANCE"
  else if g.part == "cavepart1" || g.part == "cavepart2" then emit g "CAVE"
  else if g.part == "forestpart1" || g.part == "forestpart2" then emit g "FOREST"
  else if g.part == "cabin_front" || g.part == "cabin_living_room" ||
      g.part == "cabin_1st_floor_bedroom" || g.part == "cabin_2nd_floor_bedroom_connecter" then
    emit g "CABIN"
  else if g.part == "cabin_1st_floor_bathroom" then emit g "BATHROOM"
  else if g.part == "cabin_attic" then emit g "ATTIC"
  else if g.part == "simpsons_house_front" then emit g "SIMPSONS HOUSE"
  else g

/-! The source's `printdescription` is one linear body; as with
`dosomethingwithsomething`, the model names its paragraph groups as stage
functions (`pdP1…` for the paratype-1 arm, `pdP2…` for the paratype-2 arm)
and chains them in the source's order. -/

def pdP1Grassy (g : Globals) : Except PyErr Globals :=
  if g.part == "grassy_field" then do
    let b ← dGet g.beento "grassy_field"
    if b == 0 then
      let g := emit g (fill (indent "You awaken in a grassy field surrounded by mountains. You have no idea who you are or how you got here.\n"))
      let g := emit g ""
      let g := emit g (fill (indent "There looks to be a mineshaft in the distance, tunneling into one of the mountains, to the west. There is also a creepy old looking log cabin to the south east and a forest to the north."))
      pure {g with beento := dSet g.beento "grassy_field" 1}
    else
      pure (emit g (fill (indent "There looks to be a mineshaft in the distance to the west. There is also a creepy old looking log cabin to the south east and a forest to the north.")))
  else pure g

def pdP1Forest (g : Globals) : Except PyErr Globals :=
  pure <|
    if g.part == "forestpart1" then emit g (fill (indent "You walk into a forest."))
    else g

def pdP1CabinFront (g : Globals) : Except PyErr Globals :=
  if g.part == "cabin_front" then do
    let losc ← dGet g.changableobjects "ladder_on_side_of_cabin"
    let c1 ←
      if losc == 1 then do pure ((← dGet g.lockeddoors "cabin_front_door") == 1)
      else pure false
    if c1 then
      pure (emit g (fill (indent ("You stand at the front entrance of the creepy log cabin. " ++ g.random_there_is_string ++ " a ladder leaning against the side of the cabin and the front door " ++ g.random_seems_to_be_string ++ " to be locked."))))
    else do
      let c2 ←
        if losc == 1 then do pure ((← dGet g.lockeddoors "cabin_front_door") == 0)
        else pure false
      if c2 then
        pure (emit g (fill (indent ("You stand at the front entrance of the creepy log cabin. " ++ g.random_there_is_string ++ " a ladder leaning against the side of the cabin."))))
      else do
        let c3 ←
          if losc == 0 then do pure ((← dGet g.lockeddoors "cabin_front_door") == 1)
          else pure false
        if c3 then
          pure (emit g (fill (indent ("You stand at the front entrance of the creepy log cabin. The front door " ++ g.random_seems_to_be_string ++ " to be locked."))))
        else do
          let c4 ←
            if losc == 0 then do pure ((← dGet g.lockeddoors "cabin_front_door") == 0)
            else pure false
          if c4 then
            pure (emit g (fill (indent "You stand at the front entrance of the creepy log cabin.")))
          else pure g
  else pure g

def pdP1Mid (g : Globals) : Except PyErr Globals :=
  let g :=
    if g.part == "cabin_living_room" then
      emit g (fill (indent "In the living room there is a table in the middle and a lit fireplace."))
    else g
  let g :=
    if g.part == "cabin_1st_floor_bathroom" then emit g (fill (indent "You enter the bathroom."))
    else g
  let g :=
    if g.part == "cabin_2nd_floor_bedroom_connecter" &&
        (go_to_upstairs_dict.contains g.action || g.isfloornumberaction == 2) then
      emit g (fill (indent "You go upstairs and come to a hallway bedroom connecter. You notice several closed doors, a bedroom door, a bathroom door, and a attic hatch on the ceiling."))
    else if g.part == "cabin_2nd_floor_bedroom_connecter" then
      emit g (fill (indent "You come to a hallway bedroom connecter. You notice several closed doors, a bedroom door, a bathroom door, a attic hatch on the ceiling as well as stairs to the main floor."))
    else g
  let g :=
    if g.part == "cabin_attic" && g.printd == 1 then emit g (fill (indent "You are in the attic."))
    else if g.part == "cabin_attic" then emit g (fill (indent "You arrive in the attic."))
    else g
  let g :=
    if g.part == "mineshaft_entrance" then
      emit g (fill (indent "You stand at the entrance to the mineshaft. All you can see is darkness, and you smell the strong stench of sulfur emanating from the cave."))
    else g
  pure g

def pdP1Cave1 (g : Globals) : Except PyErr Globals :=
  if g.part == "cavepart1" then do
    let b ← dGet g.beento "cavepart1"
    if b == 0 then
      let g := emit g (fill (indent "You are now in the pitch black cave. You are surrounded by darkness, but there is a faint light coming from down the tunnel. The smell of sulfur has gotten stronger although there is now a new stench, it smells of decaying meat. If you decide to go further into the tunnel, go west."))
      pure {g with beento := dSet g.beento "cavepart1" 1}
    else
      pure (emit g (fill (indent "You are in the pitch black cave. You are surrounded by darkness, but there is a faint light coming from down the tunnel. There is a strong smell of sulfur and decaying meat. If you decide to go further into the tunnel, go west.")))
  else pure g

def pdP1Cave2 (g : Globals) : Except PyErr Globals :=
  if g.part == "cavepart2" then do
    let b ← dGet g.beento "cavepart2"
    if b == 0 then
      let g := emit g (fill (indent "As you continue further into the cave the potent smells continue to get stronger and stronger, however the light at the end of the tunnel proceeds to grow brighter. Eventually you come to a branching split in the cave where there are two tunnels, one to the left and one to the right."))
      let g := emit g ""
      let g := emit g (fill (indent "You at this moment notice the left tunnel has a purple portal like barrier. On the other side through the portal everything is blocky. Almost as if your mind has lost the ability to perceive slopes, spheres or angles. You can also see there are block like torches pinned to the side of the cave walls on the other side of the portal."))
      let g := emit g ""
      let g := emit g (fill (indent "The right tunnel is pitch black. There is an imp minding his own business facing the right wall blocking the path down that tunnel. He seems to be scratching a metal spoon against the wall and muttering something inaudible from where you are."))
      pure {g with beento := dSet g.beento "cavepart2" 1}
    else
      let g := emit g (fill (indent "You stand at a branching split in the cave where there are two tunnels, one to the left and one to the right."))
      let g := emit g ""
      let g := emit g (fill (indent "The left tunnel has a purple portal like barrier. On the other side through the portal everything is blocky. You can also see there are block like torches pinned to the side of the cave walls on the other side of the portal."))
      let g := emit g ""
      pure (emit g (fill (indent "The right tunnel is still pitch black. The imp is minding his own business facing the right wall blocking that path.")))
  else pure g

def pdP1Tail (g : Globals) : Except PyErr Globals :=
  let g :=
    if g.part == "cavepart2_l1" then
      emit g (fill (indent "You decide to travel down the left tunnel which eventually starts too open up into a large room filled with mine carts and bright block like torches. You also notice people but they aren't normal people, NO! They are all blocky, their arms, their legs, even their heads!"))
    else g
  let g :=
    if g.part == "cavepart2_r1" then emit g (fill (indent "There is an imp blocking the path."))
    else g
  pure g

def pdP1 (g : Globals) : Except PyErr Globals := do
  let g ← pdP1Grassy g
  let g ← pdP1Forest g
  let g ← pdP1CabinFront g
  let g ← pdP1Mid g
  let g ← pdP1Cave1 g
  let g ← pdP1Cave2 g
  pdP1Tail g

def pdP2Grassy (g : Globals) : Except PyErr Globals :=
  if g.part == "grassy_field" then do
    let b ← dGet g.beento "grassy_field"
    if b == 0 then
      let g := emit g "  You awaken in a grassy field surrounded by mountains. You have no idea who you are or how you got here.\n"
      pure {g with beento := dSet g.beento "grassy_field" 1}
    else pure g
  else pure g

def pdP2Mid (g : Globals) : Except PyErr Globals :=
  let g :=
    if g.part == "grassy_field" then
      emit g "  There looks to be a mineshaft far off into the distance, tunneling into one of the mountains, to the west. There is also a creepy old looking log cabin to the south east and a forest to the north."
    else g
  let g :=
    if g.part == "forestpart1" then emit g "  You walk into a forest."
    else g
  let g :=
    if g.part == "cabin_front" then
      emit g "  You stand at the front entrance of the creepy log cabin."
    else g
  let g :=
    if g.part == "cabin_living_room" then
      emit g "  In the living room there is a table in the middle and a lit fireplace."
    else g
  let g :=
    if g.part == "cabin_1st_floor_bathroom" then emit g "  You enter the bathroom."
    else g
  let g :=
    if g.part == "cabin_2nd_floor_bedroom_connecter" then
      emit g "  You go upstairs and come to a hallway bedroom connecter. You notice several closed doors, a bedroom door, a bathroom door, and a attic hatch on the ceiling."
    else g
  let g :=
    if g.part == "mineshaft_entrance" then
      emit g "  You stand at the entrance to the mineshaft. All you can see is darkness, and you smell the strong stench of sulfur emanating from the cave."
    else g
  pure g

def pdP2Cave1 (g : Globals) : Except PyErr Globals :=
  if g.part == "cavepart1" then do
    let b ← dGet g.beento "cavepart1"
    if b == 0 then
      let g := emit g "  You are now in the pitch black cave. You are surrounded by darkness, but there is a faint light coming from down the tunnel. The smell of sulfur has gotten stronger although there is now a new stench, it smells of decaying meat. If you decide to go further into the tunnel like cave, go west."
      pure {g with beento := dSet g.beento "cavepart1" 1}
    else
      pure (emit g "  You are in the pitch black cave. You are surrounded by darkness, but there is a faint light coming from down the tunnel. There is a strong smell of sulfur and decaying meat. If you decide to go further into the tunnel like cave, go west.")
  else pure g

def pdP2Tail (g : Globals) : Except PyErr Globals :=
  let g :=
    if g.part == "cavepart2" then
      emit g "  As you continue further into the cave the potent smells continue to get stronger and stronger, however the light at the end of the tunnel proceeds to grow brighter. Eventually you come to a branching split in the cave where there are two tunnels, one to the left and one to the right. As you decide which way to go you notice something you havent noticed before. Being so caught up in thinking about where the tunnel leads, you look around and notice that everything as become very block like, almost as if your mind has lost the ability to perceive slopes, spheres or angles. You also notice where the light has been coming from this whole time as there is an also block like torch pinned to the wall between the two branching paths."
    else g
  let g :=
    if g.part == "cavepart2_l1" then
      emit g "  You decide to travel down the left tunnel which eventually starts too open up into a large room filled with mine carts and bright block like torches. You also notice people but they aren't normal people, NO! They are all blocky, their arms, their legs, even their heads!"
    else g
  pure g

def pdP2 (g : Globals) : Except PyErr Globals := do
  let g ← pdP2Grassy g
  let g ← pdP2Mid g
  let g ← pdP2Cave1 g
  pdP2Tail g

/-- The paratype dispatch between the two paragraph arms. -/
def pdBody (g : Globals) : Except PyErr Globals :=
  if g.paratype == 1 then
    if g.description == 1 then pdP1 g else pure g
  else if g.paratype == 2 then
    if g.description == 1 then pdP2 g else pure g
  else pure g

def printdescription (g : Globals) : Except PyErr Globals := do
  if g.description > 0 then
    let g := pdHeader g
    let g ← pdBody g
    pure {g with description := 0, done := 1}
  else pure g

/-! ## Random flavour strings and the main loop (source lines 562-619, 2560-2645) -/

/-- The outcomes of `randomtext`'s five `random.randint` draws.  The source
picks each string from a fixed table (re-rolling `random_there_is_string`'s
helper until it differs from `random_seems_to_be_string`); the spec (§1)
places random flavor-text selection out of scope, so the model takes the drawn
strings as a parameter.  The defaults are one possible outcome. -/
structure RandText where
  require_s : String := "require"
  need_s : String := "need"
  unlock_s : String := "unlock"
  seems_s : String := "seems"
  there_s : String := "There is"
  deriving Repr, DecidableEq

def randomtext (r : RandText) (g : Globals) : Globals :=
  {g with random_require_string := r.require_s, random_need_to_string := r.need_s, random_unlock_string := r.unlock_s, random_seems_to_be_string := r.seems_s, random_there_is_string := r.there_s}

/-- Wrap a pure handler for the dispatch chain. -/
def pureH (f : Globals → Globals) (g : Globals) : Except PyErr Globals := pure (f g)

/-- Run a handler only when no earlier handler claimed the turn (the
source's `if done == 0:` chain). -/
def ifdone (f : Globals → Except PyErr Globals) (g : Globals) : Except PyErr Globals :=
  if g.done == 0 then f g else pure g

/-- The part of one loop iteration that runs after the player's input has been
classified: the `if done == 0:` handler chain from `chooseadialog()` to the
final invalid-action message and the `placesdiscovered` additions (source
lines 2581-2645). -/
def afterInput (g : Globals) : Except PyErr Globals := do
  let g ← ifdone (pureH chooseadialog) g
  let g ← ifdone (pureH printdescriptionaction) g
  let g ← ifdone (pureH settings) g
  let g ← ifdone (pureH save) g
  let g ← ifdone load g
  let g ← ifdone yesorno g
  let g ← ifdone examine g
  let g ← ifdone tp g
  let g ← ifdone enter g
  let g ← ifdone (pureH move) g
  let g ← ifdone (pureH leftright) g
  let g ← ifdone (pureH leave) g
  let g ← ifdone goto g
  let g ← ifdone (pureH goback) g
  let g ← ifdone dosomethingwithsomething g
  let g ← ifdone fight g
  let g ← ifdone (pureH stats) g
  let g ← ifdone takeobject g
  let g ← ifdone (pureH listcommands) g
  let g ← ifdone listinventory g
  let g ← ifdone (pureH listplaces) g
  let g ← ifdone listquests g
  let g := if g.done == 0 then emit g "Thats not a valid action!" else g
  pure {g with placesdiscovered := setAdd (setAdd g.placesdiscovered g.generalpart) g.part}

/-- The part of one loop iteration that runs before the input prompt (source
lines 2561-2576): flag resets, `randomtext`, `gobackto`, `printdescription`,
`askyesorno`, `dialog`. -/
def preInput (r : RandText) (g : Globals) : Except PyErr Globals := do
  let g := {g with done := 0, actiontype := []}
  let g := randomtext r g
  let g := gobackto g
  let g ← printdescription g
  let g := {g with isfloornumberaction := 0, isjustfloornumberaction := 0, specificaction := 0, isjustspecificaction := 0}
  let g ← ifdone (pureH askyesorno) g
  let g ← ifdone (pureH dialog) g
  pure g

/-- One full iteration of the source's `while True` loop.  When the
description printer claims the iteration (`done == 1` after `preInput`), the
source skips the input prompt; `inp` is then unread, exactly as the player's
next line would stay pending in the terminal. -/
def loopIter (r : RandText) (inp : String) (g : Globals) : Except PyErr Globals := do
  let g ← preInput r g
  let g := if g.done == 0 then calculateactiontype {g with action := pyLower inp} else g
  afterInput g

/-! ## Theorems -/

/-- The torch description `examine` prints at cavepart2: the `fill` form for
paratype 1, the leading-space form for paratype 2. -/
def cavepart2TorchDesc (p : Int) : String :=
  if p = 2 then " The wood burning torch seems to be perfectly block shaped and the flame is red with tiny white sparks flying off and little particles of smoke."
  else "The wood burning torch seems to be perfectly block shaped and the flame is red with tiny white sparks flying off and little particles of smoke."

/-- C10: for every examine command issued while the current location is
cavepart2, the output is either the torch/flame/fire/light description or the
message "We don't know what you are trying to examine."; the imp's
HP/Attack/Defence stats are never printed (the source's `elif part ==
"cavepart2"` arm holding them is dead, because an identical condition was
already matched above it), even for the input `examine imp` while the imp is
alive: the printed line is exactly the one the equation names, for every
argument text. -/
theorem examine_cavepart2_never_imp_stats (g : Globals)
    (hpart : g.part = "cavepart2")
    (hat : g.actiontype.contains "examine" = true)
    (hp : g.paratype = 1 ∨ g.paratype = 2) :
    examine g = Except.ok {g with done := 1, output := g.output ++
      [if g.action = "torch" ∨ g.action = "flame" ∨ g.action = "fire" ∨ g.action = "light"
       then cavepart2TorchDesc g.paratype
       else "We don't know what you are trying to examine."]} := by
  by_cases ht : g.action = "torch" ∨ g.action = "flame" ∨ g.action = "fire" ∨ g.action = "light"
  · rcases hp with hp | hp <;>
      · simp_all [examine, fill, emit, cavepart2TorchDesc, pure, Except.pure, Bind.bind,
          Except.bind]
        rcases ht with h | h | h | h <;> simp_all
  · rcases hp with hp | hp <;>
      simp_all [examine, fill, emit, cavepart2TorchDesc, pure, Except.pure, Bind.bind,
        Except.bind]

/-- The state of the C10 witness: at cavepart2 with the imp alive, examining
"imp". -/
def gW10 : Globals := {initialGlobals with part := "cavepart2", actiontype := ["examine"], action := "imp"}

/-- Witness for C10 at the concrete input `examine imp`: the output is the
"We don't know" message, not the imp's stats. -/
theorem examine_cavepart2_never_imp_stats_witness :
    examine gW10 = Except.ok {gW10 with done := 1, output := gW10.output ++
      [if gW10.action = "torch" ∨ gW10.action = "flame" ∨ gW10.action = "fire" ∨ gW10.action = "light"
       then cavepart2TorchDesc gW10.paratype
       else "We don't know what you are trying to examine."]} :=
  examine_cavepart2_never_imp_stats gW10 rfl rfl (Or.inl rfl)

/-- C6: attempting to enter the locked cabin front door never changes the
current location, never changes the lock or the inventory (the record update
on the right names neither), and emits the message determined by the have-key
bit alone: with the key held it only reports that the door must be unlocked
first. -/
theorem enter_locked_cabin_front_door (g : Globals) (k : Int)
    (hpart : g.part = "cabin_front")
    (hat : g.actiontype.contains "enter" = true)
    (hdone : g.done = 0)
    (hact : g.action = "" ∨ g.action = "building")
    (hkey : dGet g.inventory "cabin_key" = Except.ok k)
    (hk : k = 0 ∨ k = 1)
    (hlock : dGet g.lockeddoors "cabin_front_door" = Except.ok 1) :
    enter g = Except.ok {g with done := 1, output := g.output ++
      [if k = 1 then "You will have to unlock the door first."
       else "It seems to be locked. You will require a key to unlock the door."]} := by
  rcases hact with ha | ha <;> rcases hk with hk | hk <;> subst hk <;>
    simp_all +decide [enter, floor_scan_list, floor1_dict, floor2_dict, floor3_dict,
      floorScanStep, cabinScan, cabin_dict, space_after_action_dict, fill, emit,
      pure, Except.pure, Bind.bind, Except.bind]

/-- The state of the C6 witness: plain `enter` at the cabin front, key held,
door locked. -/
def gW6 : Globals := {initialGlobals with part := "cabin_front", actiontype := ["enter"]}

/-- Witness for C6 at a concrete state: key held and door locked, entering
reports the door must be unlocked first and stays at the cabin front. -/
theorem enter_locked_cabin_front_door_witness :
    enter gW6 = Except.ok {gW6 with done := 1, output := gW6.output ++
      [if (1 : Int) = 1 then "You will have to unlock the door first."
       else "It seems to be locked. You will require a key to unlock the door."]} :=
  enter_locked_cabin_front_door gW6 1 rfl rfl rfl (Or.inl rfl) rfl (Or.inr rfl) rfl

/-- Helper: the exact effect of a successful `unlock door` turn at the cabin
front with the key held and the door locked — the lock opens, the key is
consumed, and no other world-state field changes. -/
theorem dsws_unlock_success (g : Globals)
    (hpart : g.part = "cabin_front") (hact : g.action = "unlock door")
    (hkey : dGet g.inventory "cabin_key" = Except.ok 1)
    (hlock : dGet g.lockeddoors "cabin_front_door" = Except.ok 1) :
    dosomethingwithsomething g = Except.ok {g with action := "door", actiontype := ["use item"], done := 1, lockeddoors := dSet g.lockeddoors "cabin_front_door" 0, inventory := dSet g.inventory "cabin_key" 0, output := g.output ++
      ["You use the cabin key to unlock the front door."]} := by
  simp_all +decide [dosomethingwithsomething, dsws_putout, dsws_use, dsws_dispatch,
    things_to_use_keys_on_dict, things_to_use_items_on_dict, fire_place_dict,
    key_dict, water_bucket_dict, use_key_on_door_dict, space_after_action_dict,
    fill, emit, pure, Except.pure, Bind.bind, Except.bind]

/-- Helper: the exact effect of a successful `take key` turn in the cabin
living room with the key still on the table — the inventory flag rises, the
on-table flag clears, and no other world-state field changes. -/
theorem takeobject_key_success (g : Globals)
    (hat : g.actiontype.contains "take" = true)
    (hact : g.action = "key")
    (hpart : g.part = "cabin_living_room")
    (htab : dGet g.changableobjects "cabin_upstairs_bedroom_key_on_table" = Except.ok 1) :
    takeobject g = Except.ok {g with inventory := dSet g.inventory "cabin_upstairs_bedroom_key" 1, changableobjects := dSet g.changableobjects "cabin_upstairs_bedroom_key_on_table" 0, done := 1, output := g.output ++
      [fill ("You " ++ g.action2 ++ " the key.")]} := by
  simp_all +decide [takeobject, fill, emit, pure, Except.pure, Bind.bind, Except.bind]

/-- C7: unlocking the cabin front door succeeds only while the cabin key is
held and the door is locked; a successful unlock sets the door to unlocked
and removes the key from the inventory; in every other (key, lock) state the
turn only prints a message and changes nothing; and a subsequent plain
`enter` at the cabin front with the door unlocked moves the current location
to the cabin living room. -/
theorem unlock_cabin_front_one_shot (g : Globals) (k l : Int)
    (hpart : g.part = "cabin_front")
    (hact : g.action = "unlock door")
    (hkey : dGet g.inventory "cabin_key" = Except.ok k)
    (hlock : dGet g.lockeddoors "cabin_front_door" = Except.ok l)
    (hk : k = 0 ∨ k = 1) (hl : l = 0 ∨ l = 1) :
    (k = 1 ∧ l = 1 →
      dosomethingwithsomething g = Except.ok {g with action := "door", actiontype := ["use item"], done := 1, lockeddoors := dSet g.lockeddoors "cabin_front_door" 0, inventory := dSet g.inventory "cabin_key" 0, output := g.output ++
        ["You use the cabin key to unlock the front door."]}) ∧
    (¬(k = 1 ∧ l = 1) →
      dosomethingwithsomething g = Except.ok {g with action := "door", actiontype := ["use item"], done := 1, output := g.output ++
        [if l = 0 then "The door is already unlocked."
         else "You will require a key to unlock the door."]}) ∧
    (∀ (g2 : Globals) (k2 : Int), g2.part = "cabin_front" → g2.actiontype.contains "enter" = true →
      g2.done = 0 → g2.action = "" →
      dGet g2.inventory "cabin_key" = Except.ok k2 → (k2 = 0 ∨ k2 = 1) →
      dGet g2.lockeddoors "cabin_front_door" = Except.ok 0 →
      enter g2 = Except.ok {g2 with part := "cabin_living_room", description := 1, done := 1}) := by
  refine ⟨?_, ?_, ?_⟩
  · intro ⟨hk1, hl1⟩
    subst hk1 hl1
    exact dsws_unlock_success g hpart hact hkey hlock
  · intro hno
    rcases hk with hk | hk <;> rcases hl with hl | hl <;> subst hk hl <;>
      simp_all +decide [dosomethingwithsomething, dsws_putout, dsws_use, dsws_dispatch,
        things_to_use_keys_on_dict, things_to_use_items_on_dict, fire_place_dict,
        key_dict, water_bucket_dict, use_key_on_door_dict, space_after_action_dict,
        fill, emit, pure, Except.pure, Bind.bind, Except.bind]
  · intro g2 k2 h1 h2 h3 h4 h5 hk2 h6
    rcases hk2 with hk2 | hk2 <;> subst hk2 <;>
      simp_all +decide [enter, floor_scan_list, floor1_dict, floor2_dict, floor3_dict,
        floorScanStep, cabinScan, cabin_dict, space_after_action_dict, fill, emit,
        pure, Except.pure, Bind.bind, Except.bind]

/-- The pre-unlock state of the C7 witness: E2E scenario B's start. -/
def gW7 : Globals := {initialGlobals with part := "cabin_front", action := "unlock door"}

/-- The post-unlock state of the C7 witness, with the next turn's plain
`enter` already classified. -/
def gW7e : Globals := {gW7 with action := "", actiontype := ["enter"], lockeddoors := dSet gW7.lockeddoors "cabin_front_door" 0, inventory := dSet gW7.inventory "cabin_key" 0}

/-- Witness for C7 at E2E scenario B: `unlock door` opens the door and
consumes the key, then `enter` reaches the cabin living room. -/
theorem unlock_cabin_front_one_shot_witness :
    dosomethingwithsomething gW7 = Except.ok {gW7 with action := "door", actiontype := ["use item"], done := 1, lockeddoors := dSet gW7.lockeddoors "cabin_front_door" 0, inventory := dSet gW7.inventory "cabin_key" 0, output := gW7.output ++
      ["You use the cabin key to unlock the front door."]} ∧
    enter gW7e = Except.ok {gW7e with part := "cabin_living_room", description := 1, done := 1} :=
  ⟨(unlock_cabin_front_one_shot gW7 1 1 rfl rfl rfl rfl (Or.inr rfl) (Or.inr rfl)).1 ⟨rfl, rfl⟩,
   (unlock_cabin_front_one_shot gW7 1 1 rfl rfl rfl rfl (Or.inr rfl) (Or.inr rfl)).2.2 gW7e 0
     rfl rfl rfl rfl rfl (Or.inl rfl) rfl⟩

/-- How many of the five state groups of spec property P1 differ between two
states. -/
def mutatedGroups (a b : Globals) : Nat :=
  (if a.part ≠ b.part then 1 else 0) + (if a.inventory ≠ b.inventory then 1 else 0) +
  (if a.lockeddoors ≠ b.lockeddoors then 1 else 0) +
  (if a.changableobjects ≠ b.changableobjects then 1 else 0) +
  (if a.questlist ≠ b.questlist then 1 else 0)

/-- The prompt state of the C4 counterexample: the cabin living room with the
bedroom key still on the table. -/
def gC4 : Globals := {initialGlobals with part := "cabin_living_room", previouspart := ["grassy_field", "cabin_front", "cabin_living_room"], description := 0}

set_option maxRecDepth 10000 in
/-- Counterexample to C4 as stated: the single input `take key` changes two
of the five groups (inventory and objectState) in one turn, not at most one. -/
theorem take_key_mutates_two_groups :
    (loopIter {} "take key" gC4).map (mutatedGroups gC4) = Except.ok 2 := rfl

/-- C4 as amended: a turn claimed by an item-transfer handler may change two
of the five groups together — `take key` changes exactly inventory and
objectState, and `unlock door` changes exactly inventory and lockState; the
record updates on the right show location, questProgress and the remaining
groups unchanged. -/
theorem item_transfer_mutates_paired_groups :
    (∀ g : Globals, g.actiontype.contains "take" = true → g.action = "key" →
      g.part = "cabin_living_room" →
      dGet g.changableobjects "cabin_upstairs_bedroom_key_on_table" = Except.ok 1 →
      takeobject g = Except.ok {g with inventory := dSet g.inventory "cabin_upstairs_bedroom_key" 1, changableobjects := dSet g.changableobjects "cabin_upstairs_bedroom_key_on_table" 0, done := 1, output := g.output ++
        [fill ("You " ++ g.action2 ++ " the key.")]}) ∧
    (∀ g : Globals, g.part = "cabin_front" → g.action = "unlock door" →
      dGet g.inventory "cabin_key" = Except.ok 1 →
      dGet g.lockeddoors "cabin_front_door" = Except.ok 1 →
      dosomethingwithsomething g = Except.ok {g with action := "door", actiontype := ["use item"], done := 1, lockeddoors := dSet g.lockeddoors "cabin_front_door" 0, inventory := dSet g.inventory "cabin_key" 0, output := g.output ++
        ["You use the cabin key to unlock the front door."]}) :=
  ⟨fun g h1 h2 h3 h4 => takeobject_key_success g h1 h2 h3 h4,
   fun g h1 h2 h3 h4 => dsws_unlock_success g h1 h2 h3 h4⟩

/-- The take-side state of the C4 amended witness. -/
def gW4 : Globals := {initialGlobals with part := "cabin_living_room", actiontype := ["take"], action := "key", action2 := "take"}

/-- The unlock-side state of the C4 amended witness. -/
def gW4u : Globals := {initialGlobals with part := "cabin_front", action := "unlock door"}

/-- Witness for the amended C4 at concrete states: both paired-group updates
evaluated. -/
theorem item_transfer_mutates_paired_groups_witness :
    takeobject gW4 = Except.ok {gW4 with inventory := dSet gW4.inventory "cabin_upstairs_bedroom_key" 1, changableobjects := dSet gW4.changableobjects "cabin_upstairs_bedroom_key_on_table" 0, done := 1, output := gW4.output ++
      [fill ("You " ++ gW4.action2 ++ " the key.")]} ∧
    dosomethingwithsomething gW4u = Except.ok {gW4u with action := "door", actiontype := ["use item"], done := 1, lockeddoors := dSet gW4u.lockeddoors "cabin_front_door" 0, inventory := dSet gW4u.inventory "cabin_key" 0, output := gW4u.output ++
      ["You use the cabin key to unlock the front door."]} :=
  ⟨item_transfer_mutates_paired_groups.1 gW4 rfl rfl rfl rfl,
   item_transfer_mutates_paired_groups.2 gW4u rfl rfl rfl rfl⟩

/-! ## Classifier anchoring (C9), yes/no flag (C5), crash inputs (C3, C2) -/

/-- A verb phrase that does not match anchored-with-boundary is skipped by the
second scan: the state passes through one step unchanged. -/
theorem scanClassifyStep_skip (g : Globals) (item : String)
    (h : (pyFind g.action item == 0 && space_after_action_dict.contains
      (pySlice g.action (item.data.length : Int) ((item.data.length : Int) + 1))) = false) :
    scanClassifyStep g item = g := by
  unfold scanClassifyStep
  rw [if_neg (by rw [h]; exact Bool.false_ne_true)]

/-- The whole second scan is the identity when no phrase of the list matches
anchored-with-boundary. -/
theorem foldl_scanClassify_skip (l : List String) :
    ∀ g : Globals, (∀ item ∈ l, (pyFind g.action item == 0 && space_after_action_dict.contains
      (pySlice g.action (item.data.length : Int) ((item.data.length : Int) + 1))) = false) →
    l.foldl scanClassifyStep g = g := by
  induction l with
  | nil => intro g _; rfl
  | cons a t ih =>
    intro g h
    rw [List.foldl_cons, scanClassifyStep_skip g a (h a (List.mem_cons_self a t))]
    exact ih g (fun item hi => h item (List.mem_cons_of_mem a hi))

/-- Emitting a line never changes the classified action type. -/
theorem emit_actiontype (g : Globals) (s : String) :
    (emit g s).actiontype = g.actiontype := rfl

set_option maxRecDepth 100000 in
/-- The verb-scan tail of the classifier leaves `actiontype` unchanged when no
vocabulary phrase matches at position 0 with a space-or-end boundary. -/
theorem classifyVerbScan_anchored (g : Globals)
    (hno : ∀ item ∈ verb_scan_list, (pyFind g.action item == 0 &&
      space_after_action_dict.contains (pySlice g.action (item.data.length : Int) ((item.data.length : Int) + 1))) = false) :
    (classifyVerbScan g).actiontype = g.actiontype := by
  unfold classifyVerbScan
  by_cases hc : (verb_scan_list.foldl scanCountStep (g.action, 0)).2 > 1
  · rw [if_pos hc, emit_actiontype]
  · rw [if_neg hc]
    have hsk := foldl_scanClassify_skip verb_scan_list
      {g with action2 := (verb_scan_list.foldl scanCountStep (g.action, 0)).1}
      (fun item hi => hno item hi)
    rw [hsk]

/-- The classifier body after the strip: with no fixed phrase equal to the
input and no verb phrase anchored at position 0 with a boundary, the
classified action type is unchanged. -/
theorem classifierCore_anchored (g : Globals)
    (hno : ∀ item ∈ verb_scan_list, (pyFind g.action item == 0 &&
      space_after_action_dict.contains (pySlice g.action (item.data.length : Int) ((item.data.length : Int) + 1))) = false)
    (hla : look_around_dict.contains g.action = false)
    (hpd : (g.action == "print d") = false)
    (hpd2 : (g.action == "print description") = false)
    (hs : (g.action == "settings") = false)
    (hs2 : (g.action == "list settings") = false)
    (hsv : save_game_dict.contains g.action = false)
    (hn : nesw_dict.contains g.action = false)
    (hl : left_dict.contains g.action = false)
    (hr : right_dict.contains g.action = false)
    (hgb : go_back_dict.contains g.action = false) :
    (calculateactiontypeCore g).actiontype = g.actiontype := by
  unfold calculateactiontypeCore
  rw [hla, if_neg Bool.false_ne_true,
      hpd, hpd2, Bool.or_self, if_neg Bool.false_ne_true,
      hs, hs2, Bool.or_self, if_neg Bool.false_ne_true,
      hsv, if_neg Bool.false_ne_true,
      hn, if_neg Bool.false_ne_true,
      hl, if_neg Bool.false_ne_true,
      hr, if_neg Bool.false_ne_true,
      hgb, if_neg Bool.false_ne_true]
  exact classifyVerbScan_anchored g hno

/-- C9 as amended: the *assignment* side of verb-phrase matching is
prefix-anchored at position 0 with a space-or-end boundary — for any input
whose stripped form equals no fixed phrase and contains no verb phrase
anchored at position 0 with that boundary, the classifier leaves `actiontype`
unchanged, however many phrases occur elsewhere inside the input.  (The
counting pass is not anchored: see the counterexample.) -/
theorem classifier_strip_is_prefix_anchored (g : Globals)
    (hno : ∀ item ∈ verb_scan_list, (pyFind (pyStrip g.action) item == 0 &&
      space_after_action_dict.contains (pySlice (pyStrip g.action) (item.data.length : Int) ((item.data.length : Int) + 1))) = false)
    (hla : look_around_dict.contains (pyStrip g.action) = false)
    (hpd : (pyStrip g.action == "print d") = false)
    (hpd2 : (pyStrip g.action == "print description") = false)
    (hs : (pyStrip g.action == "settings") = false)
    (hs2 : (pyStrip g.action == "list settings") = false)
    (hsv : save_game_dict.contains (pyStrip g.action) = false)
    (hn : nesw_dict.contains (pyStrip g.action) = false)
    (hl : left_dict.contains (pyStrip g.action) = false)
    (hr : right_dict.contains (pyStrip g.action) = false)
    (hgb : go_back_dict.contains (pyStrip g.action) = false) :
    (calculateactiontype g).actiontype = g.actiontype :=
  classifierCore_anchored {g with action := pyStrip g.action} hno hla hpd hpd2 hs hs2 hsv hn hl hr hgb

/-- The state of the C9 witness: an input word containing no vocabulary
phrase at all. -/
def gW9 : Globals := {initialGlobals with action := "xyzzy"}

/-- Witness for the amended C9: on the input `xyzzy` the classifier leaves
`actiontype` unchanged, with every side condition evaluated. -/
theorem classifier_strip_is_prefix_anchored_witness :
    (calculateactiontype gW9).actiontype = gW9.actiontype :=
  classifier_strip_is_prefix_anchored gW9 (by decide) (by decide) (by decide)
    (by decide) (by decide) (by decide) (by decide) (by decide) (by decide)
    (by decide) (by decide)

set_option maxRecDepth 10000 in
/-- Counterexample to C9 as stated: in the input `take cavegrab` the only
phrase anchored at position 0 with a boundary is `take`, and `grab` occurs
only inside the word `cavegrab` (at index 9) — yet the turn fails with
"You typed to many actions.", so a phrase inside another word does
contribute to the multiple-verb failure. -/
theorem nonanchored_phrase_fails_turn :
    ((calculateactiontype {initialGlobals with action := "take cavegrab"}).output = ["You typed to many actions."] ∧
     (calculateactiontype {initialGlobals with action := "take cavegrab"}).done = 1 ∧
     (calculateactiontype {initialGlobals with action := "take cavegrab"}).actiontype = []) ∧
    verb_scan_list.filter (fun p => pyFind "take cavegrab" p == 0 &&
        space_after_action_dict.contains (pySlice "take cavegrab" (p.data.length : Int) ((p.data.length : Int) + 1))) = ["take"] ∧
    pyFind "take cavegrab" "grab" = 9 := by
  refine ⟨⟨rfl, rfl, rfl⟩, by decide, by decide⟩

/-- C5 as amended: whenever the pending yes/no flag is set and the answer is
one of the recognized yes/no words, the handler clears the flag and claims
the turn. -/
theorem yesorno_clears_flag_on_recognized_answer (g : Globals)
    (hy : g.yesornoaction = 1)
    (ha : yes_no_dict.contains g.action = true) :
    (yesorno g).map (fun g2 => (g2.yesornoaction, g2.done)) = Except.ok (0, 1) := by
  have ha' : g.action = "yes" ∨ g.action = "yas" ∨ g.action = "ye" ∨ g.action = "y" ∨
      g.action = "no" ∨ g.action = "nah" ∨ g.action = "n" := by
    simpa [yes_no_dict] using ha
  rcases ha' with h | h | h | h | h | h | h <;>
    simp_all +decide [yesorno, yes_no_dict, yes_dict, no_dict, action_of_fight,
      takeInput, fill, emit, pure, Except.pure, Bind.bind, Except.bind, Except.map] <;>
    split_ifs <;>
    simp_all [emit]

/-- The state of the C5 witness: the mineshaft-entrance question pending and
the answer `no` typed. -/
def gW5 : Globals := {initialGlobals with part := "mineshaft_entrance", previouspart := ["grassy_field", "mineshaft_entrance"], description := 0, yesornoaction := 1, action := "no"}

/-- Witness for the amended C5: answering `no` with the flag set clears the
flag and claims the turn. -/
theorem yesorno_clears_flag_witness :
    gW5.yesornoaction = 1 ∧ yes_no_dict.contains gW5.action = true ∧
    (yesorno gW5).map (fun g2 => (g2.yesornoaction, g2.done)) = Except.ok (0, 1) :=
  ⟨rfl, rfl, yesorno_clears_flag_on_recognized_answer gW5 rfl rfl⟩

/-- The prompt state of the C5 counterexample: the mineshaft-entrance yes/no
question pending. -/
def gC5 : Globals := {initialGlobals with part := "mineshaft_entrance", previouspart := ["grassy_field", "mineshaft_entrance"], description := 0, yesornoaction := 1}

set_option maxRecDepth 10000 in
/-- Counterexample to C5 as stated: the unrecognized answer `maybe` leaves
the pending yes/no flag set through the whole turn — the handler clears it
only on recognized answers. -/
theorem invalid_answer_leaves_flag_set :
    gC5.yesornoaction = 1 ∧
    (loopIter {} "maybe" gC5).map (fun g2 => g2.yesornoaction) = Except.ok 1 := by
  constructor
  · rfl
  · rfl

/-- The prompt state of the first C3 failing input: the upstairs connecter
with the attic hatch unlocked (ladder placed and hatch opened). -/
def gC3a : Globals := {initialGlobals with part := "cabin_2nd_floor_bedroom_connecter", previouspart := ["grassy_field", "cabin_2nd_floor_bedroom_connecter"], description := 0, lockeddoors := [("cabin_front_door", 0), ("cabin_attic_hatch", 0)]}

/-- The prompt state of the second C3 failing input: the upstairs connecter
with the default locks. -/
def gC3b : Globals := {initialGlobals with part := "cabin_2nd_floor_bedroom_connecter", previouspart := ["grassy_field", "cabin_2nd_floor_bedroom_connecter"], description := 0}

set_option maxRecDepth 20000 in
/-- C3 fails in the source: `go to attic` with the hatch unlocked reaches the
undefined name `cabin_attic`, and `go to kitchen 1st floor` from the upstairs
connecter reaches the undefined name `kitchen_dict` — both turns die with an
uncaught NameError instead of a printed message. -/
theorem goto_attic_and_floor_qualifier_raise :
    loopIter {} "go to attic" gC3a = Except.error (PyErr.nameError "cabin_attic") ∧
    loopIter {} "go to kitchen 1st floor" gC3b = Except.error (PyErr.nameError "kitchen_dict") := by
  constructor <;> rfl

/-- The prompt state of the C2 counterexample. -/
def gC2x : Globals := {initialGlobals with description := 0}

set_option maxRecDepth 10000 in
/-- Counterexample to C2 as stated: the bracketed but malformed save string
`{x}` makes the load turn die with an uncaught ValueError from `int()`
— decoding failure is not always silently ignored. -/
theorem load_bracketed_malformed_crashes :
    loopIter {} "load {x}" gC2x = Except.error (PyErr.valueError "") := rfl

/-- C2 as amended: when the load string fails the bracket check, the load
handler leaves every World State field unchanged (it only prints the blank
line) and the session continues; claims outside the load turn are untouched. -/
theorem load_non_bracketed_leaves_state (g : Globals)
    (hb : (pySlice g.action 0 1 == "\x7b" && pySliceFrom g.action (-1) == "\x7d") = false) :
    load g = Except.ok (if g.actiontype.contains "load" then emit g "" else g) := by
  unfold load
  by_cases hl : g.actiontype.contains "load" = true
  · rw [if_pos hl, if_pos hl]
    have hb' : (pySlice (emit g "").action 0 1 == "\x7b" && pySliceFrom (emit g "").action (-1) == "\x7d") = false := hb
    rw [if_neg (by rw [hb']; exact Bool.false_ne_true)]
    rfl
  · rw [if_neg hl, if_neg hl]
    rfl

/-- The prompt state of the C2 amended witness: a load turn whose payload is
not bracketed. -/
def gW2 : Globals := {initialGlobals with actiontype := ["load"], action := "junk"}

/-- Witness for the amended C2: the non-bracketed payload `junk` leaves the
state unchanged apart from the printed blank line. -/
theorem load_non_bracketed_leaves_state_witness :
    load gW2 = Except.ok (if gW2.actiontype.contains "load" then emit gW2 "" else gW2) :=
  load_non_bracketed_leaves_state gW2 (by decide)

/-! ## History-stack frame lemmas and the C8 invariant -/

theorem emit_part (g : Globals) (s : String) : (emit g s).part = g.part := rfl

theorem emit_previouspart (g : Globals) (s : String) :
    (emit g s).previouspart = g.previouspart := rfl

theorem ite_part (c : Prop) [Decidable c] (a b : Globals) :
    (if c then a else b).part = if c then a.part else b.part := by split <;> rfl

theorem ite_previouspart (c : Prop) [Decidable c] (a b : Globals) :
    (if c then a else b).previouspart = if c then a.previouspart else b.previouspart := by
  split <;> rfl

/-- A handler keeps the current part and the history stack: every successful
run leaves both fields as they were. -/
def keepsPP (f : Globals → Except PyErr Globals) : Prop :=
  ∀ g g', f g = Except.ok g' → g'.part = g.part ∧ g'.previouspart = g.previouspart

theorem keepsPP_bind {f k : Globals → Except PyErr Globals}
    (hf : keepsPP f) (hk : keepsPP k) : keepsPP (fun g => f g >>= k) := by
  intro g g' h
  have h2 : f g >>= k = Except.ok g' := h
  cases hfg : f g with
  | error e => rw [hfg] at h2; simp [Bind.bind, Except.bind] at h2
  | ok g1 =>
    rw [hfg] at h2
    simp only [Bind.bind, Except.bind] at h2
    have hx := hf g g1 hfg
    have hy := hk g1 g' h2
    exact ⟨hy.1.trans hx.1, hy.2.trans hx.2⟩

theorem pdP1Grassy_keeps : keepsPP pdP1Grassy := by
  intro g g' h
  unfold pdP1Grassy at h
  by_cases hp : (g.part == "grassy_field") = true
  · rw [if_pos hp] at h
    cases hb : dGet g.beento "grassy_field" with
    | error e => rw [hb] at h; simp [Bind.bind, Except.bind] at h
    | ok b =>
      rw [hb] at h
      simp only [Bind.bind, Except.bind] at h
      by_cases hb0 : (b == 0) = true
      · rw [if_pos hb0] at h
        simp only [pure, Except.pure, Except.ok.injEq] at h
        subst h
        constructor <;> simp [emit]
      · rw [if_neg hb0] at h
        simp only [pure, Except.pure, Except.ok.injEq] at h
        subst h
        constructor <;> simp [emit]
  · rw [if_neg hp] at h
    simp only [pure, Except.pure, Except.ok.injEq] at h
    subst h
    exact ⟨rfl, rfl⟩

theorem pdP1Forest_keeps : keepsPP pdP1Forest := by
  intro g g' h
  unfold pdP1Forest at h
  simp only [pure, Except.pure, Except.ok.injEq] at h
  subst h
  refine ⟨?_, ?_⟩ <;>
    simp only [ite_part, ite_previouspart, emit_part, emit_previouspart, ite_self]

theorem pdP1CabinFront_keeps : keepsPP pdP1CabinFront := by
  intro g g' h
  unfold pdP1CabinFront at h
  by_cases hp : (g.part == "cabin_front") = true
  · rw [if_pos hp] at h
    cases hlo : dGet g.changableobjects "ladder_on_side_of_cabin" with
    | error e => rw [hlo] at h; simp [Bind.bind, Except.bind] at h
    | ok losc =>
      rw [hlo] at h
      cases hld : dGet g.lockeddoors "cabin_front_door" with
      | error e =>
        rw [hld] at h
        simp only [Bind.bind, Except.bind, pure, Except.pure, Except.ok.injEq] at h
        split_ifs at h <;>
          (try simp only [pure, Except.pure, Except.ok.injEq] at h) <;>
          first
            | (subst h; exact ⟨emit_part _ _, emit_previouspart _ _⟩)
            | (subst h; exact ⟨rfl, rfl⟩)
            | simp_all
      | ok ld =>
        rw [hld] at h
        simp only [Bind.bind, Except.bind, pure, Except.pure, Except.ok.injEq] at h
        split_ifs at h <;>
          (try simp only [pure, Except.pure, Except.ok.injEq] at h) <;>
          first
            | (subst h; exact ⟨emit_part _ _, emit_previouspart _ _⟩)
            | (subst h; exact ⟨rfl, rfl⟩)
            | simp_all
  · rw [if_neg hp] at h
    simp only [pure, Except.pure, Except.ok.injEq] at h
    subst h
    exact ⟨rfl, rfl⟩

theorem pdP1Mid_keeps : keepsPP pdP1Mid := by
  intro g g' h
  unfold pdP1Mid at h
  simp only [pure, Except.pure, Except.ok.injEq] at h
  subst h
  refine ⟨?_, ?_⟩ <;>
    simp only [ite_part, ite_previouspart, emit_part, emit_previouspart, ite_self]

theorem pdP1Cave1_keeps : keepsPP pdP1Cave1 := by
  intro g g' h
  unfold pdP1Cave1 at h
  by_cases hp : (g.part == "cavepart1") = true
  · rw [if_pos hp] at h
    cases hb : dGet g.beento "cavepart1" with
    | error e => rw [hb] at h; simp [Bind.bind, Except.bind] at h
    | ok b =>
      rw [hb] at h
      simp only [Bind.bind, Except.bind] at h
      by_cases hb0 : (b == 0) = true
      · rw [if_pos hb0] at h
        simp only [pure, Except.pure, Except.ok.injEq] at h
        subst h
        constructor <;> simp [emit]
      · rw [if_neg hb0] at h
        simp only [pure, Except.pure, Except.ok.injEq] at h
        subst h
        constructor <;> simp [emit]
  · rw [if_neg hp] at h
    simp only [pure, Except.pure, Except.ok.injEq] at h
    subst h
    exact ⟨rfl, rfl⟩

theorem pdP1Cave2_keeps : keepsPP pdP1Cave2 := by
  intro g g' h
  unfold pdP1Cave2 at h
  by_cases hp : (g.part == "cavepart2") = true
  · rw [if_pos hp] at h
    cases hb : dGet g.beento "cavepart2" with
    | error e => rw [hb] at h; simp [Bind.bind, Except.bind] at h
    | ok b =>
      rw [hb] at h
      simp only [Bind.bind, Except.bind] at h
      by_cases hb0 : (b == 0) = true
      · rw [if_pos hb0] at h
        simp only [pure, Except.pure, Except.ok.injEq] at h
        subst h
        constructor <;> simp [emit]
      · rw [if_neg hb0] at h
        simp only [pure, Except.pure, Except.ok.injEq] at h
        subst h
        constructor <;> simp [emit]
  · rw [if_neg hp] at h
    simp only [pure, Except.pure, Except.ok.injEq] at h
    subst h
    exact ⟨rfl, rfl⟩

theorem pdP1Tail_keeps : keepsPP pdP1Tail := by
  intro g g' h
  unfold pdP1Tail at h
  simp only [pure, Except.pure, Except.ok.injEq] at h
  subst h
  refine ⟨?_, ?_⟩ <;>
    simp only [ite_part, ite_previouspart, emit_part, emit_previouspart, ite_self]

set_option maxHeartbeats 1000000 in
theorem pdP1_keeps : keepsPP pdP1 :=
  keepsPP_bind pdP1Grassy_keeps (keepsPP_bind pdP1Forest_keeps
    (keepsPP_bind pdP1CabinFront_keeps (keepsPP_bind pdP1Mid_keeps
      (keepsPP_bind pdP1Cave1_keeps (keepsPP_bind pdP1Cave2_keeps pdP1Tail_keeps)))))

theorem pdP2Grassy_keeps : keepsPP pdP2Grassy := by
  intro g g' h
  unfold pdP2Grassy at h
  by_cases hp : (g.part == "grassy_field") = true
  · rw [if_pos hp] at h
    cases hb : dGet g.beento "grassy_field" with
    | error e => rw [hb] at h; simp [Bind.bind, Except.bind] at h
    | ok b =>
      rw [hb] at h
      simp only [Bind.bind, Except.bind] at h
      by_cases hb0 : (b == 0) = true
      · rw [if_pos hb0] at h
        simp only [pure, Except.pure, Except.ok.injEq] at h
        subst h
        constructor <;> simp [emit]
      · rw [if_neg hb0] at h
        simp only [pure, Except.pure, Except.ok.injEq] at h
        subst h
        exact ⟨rfl, rfl⟩
  · rw [if_neg hp] at h
    simp only [pure, Except.pure, Except.ok.injEq] at h
    subst h
    exact ⟨rfl, rfl⟩

theorem pdP2Mid_keeps : keepsPP pdP2Mid := by
  intro g g' h
  unfold pdP2Mid at h
  simp only [pure, Except.pure, Except.ok.injEq] at h
  subst h
  refine ⟨?_, ?_⟩ <;>
    simp only [ite_part, ite_previouspart, emit_part, emit_previouspart, ite_self]

theorem pdP2Cave1_keeps : keepsPP pdP2Cave1 := by
  intro g g' h
  unfold pdP2Cave1 at h
  by_cases hp : (g.part == "cavepart1") = true
  · rw [if_pos hp] at h
    cases hb : dGet g.beento "cavepart1" with
    | error e => rw [hb] at h; simp [Bind.bind, Except.bind] at h
    | ok b =>
      rw [hb] at h
      simp only [Bind.bind, Except.bind] at h
      by_cases hb0 : (b == 0) = true
      · rw [if_pos hb0] at h
        simp only [pure, Except.pure, Except.ok.injEq] at h
        subst h
        constructor <;> simp [emit]
      · rw [if_neg hb0] at h
        simp only [pure, Except.pure, Except.ok.injEq] at h
        subst h
        constructor <;> simp [emit]
  · rw [if_neg hp] at h
    simp only [pure, Except.pure, Except.ok.injEq] at h
    subst h
    exact ⟨rfl, rfl⟩

theorem pdP2Tail_keeps : keepsPP pdP2Tail := by
  intro g g' h
  unfold pdP2Tail at h
  simp only [pure, Except.pure, Except.ok.injEq] at h
  subst h
  refine ⟨?_, ?_⟩ <;>
    simp only [ite_part, ite_previouspart, emit_part, emit_previouspart, ite_self]

set_option maxHeartbeats 1000000 in
theorem pdP2_keeps : keepsPP pdP2 :=
  keepsPP_bind pdP2Grassy_keeps (keepsPP_bind pdP2Mid_keeps
    (keepsPP_bind pdP2Cave1_keeps pdP2Tail_keeps))

theorem pdHeader_pp (g : Globals) :
    (pdHeader g).part = g.part ∧ (pdHeader g).previouspart = g.previouspart := by
  unfold pdHeader
  split_ifs <;> exact ⟨rfl, rfl⟩

theorem pdBody_keeps : keepsPP pdBody := by
  intro g g' h
  unfold pdBody at h
  split_ifs at h <;>
    first
      | exact pdP1_keeps g g' h
      | exact pdP2_keeps g g' h
      | (simp only [pure, Except.pure, Except.ok.injEq] at h; subst h; exact ⟨rfl, rfl⟩)

theorem printdescription_keeps : keepsPP printdescription := by
  intro g g' h
  unfold printdescription at h
  by_cases hd : g.description > 0
  · rw [if_pos hd] at h
    simp only [Bind.bind, Except.bind] at h
    cases hb : pdBody (pdHeader g) with
    | error e => rw [hb] at h; simp at h
    | ok g2 =>
      rw [hb] at h
      simp only [pure, Except.pure, Except.ok.injEq] at h
      subst h
      have h2 := pdBody_keeps (pdHeader g) g2 hb
      have h3 := pdHeader_pp g
      exact ⟨h2.1.trans h3.1, h2.2.trans h3.2⟩
  · rw [if_neg hd] at h
    simp only [pure, Except.pure, Except.ok.injEq] at h
    subst h
    exact ⟨rfl, rfl⟩

theorem dialogchoices_part (g : Globals) : (dialogchoices g).part = g.part := by
  unfold dialogchoices
  simp only [ite_part, emit_part, ite_self]

theorem dialogchoices_previouspart (g : Globals) :
    (dialogchoices g).previouspart = g.previouspart := by
  unfold dialogchoices
  simp only [ite_previouspart, emit_previouspart, ite_self]

set_option maxHeartbeats 1000000 in
theorem dialog_pp (g : Globals) :
    (dialog g).part = g.part ∧ (dialog g).previouspart = g.previouspart := by
  constructor
  · unfold dialog
    rw [ite_part, dialogchoices_part]
    simp only [ite_part, emit_part, ite_self]
  · unfold dialog
    rw [ite_previouspart, dialogchoices_previouspart]
    simp only [ite_previouspart, emit_previouspart, ite_self]

theorem ifdone_pureH_pp (f : Globals → Globals)
    (hf : ∀ g, (f g).part = g.part ∧ (f g).previouspart = g.previouspart)
    (g g' : Globals) (h : ifdone (pureH f) g = Except.ok g') :
    g'.part = g.part ∧ g'.previouspart = g.previouspart := by
  unfold ifdone pureH at h
  split_ifs at h <;> (simp only [pure, Except.pure, Except.ok.injEq] at h; subst h)
  · exact hf g
  · exact ⟨rfl, rfl⟩

theorem askyesorno_pp (g : Globals) :
    (askyesorno g).part = g.part ∧ (askyesorno g).previouspart = g.previouspart := by
  unfold askyesorno
  split_ifs <;> exact ⟨rfl, rfl⟩

theorem gobackto_establishes (g : Globals) :
    (gobackto g).previouspart ≠ [] ∧
    (gobackto g).previouspart.getLast? = some (gobackto g).part := by
  unfold gobackto
  by_cases hgl : (g.previouspart.getLast? != some g.part) = true
  · rw [if_pos hgl]
    refine ⟨by simp, ?_⟩
    simp [List.getLast?_concat]
  · rw [if_neg hgl]
    have heq : g.previouspart.getLast? = some g.part := by
      simpa using hgl
    refine ⟨?_, heq⟩
    intro hnil
    rw [hnil] at heq
    simp at heq

theorem preInput_history (r : RandText) (g g' : Globals)
    (h : preInput r g = Except.ok g') :
    g'.previouspart ≠ [] ∧ g'.previouspart.getLast? = some g'.part := by
  unfold preInput at h
  simp only [Bind.bind, Except.bind] at h
  cases hp : printdescription (gobackto (randomtext r {g with done := 0, actiontype := []})) with
  | error e => rw [hp] at h; simp at h
  | ok g4 =>
    rw [hp] at h
    simp only [] at h
    cases h6 : ifdone (pureH askyesorno) {g4 with isfloornumberaction := 0, isjustfloornumberaction := 0, specificaction := 0, isjustspecificaction := 0} with
    | error e => rw [h6] at h; simp at h
    | ok g6 =>
      rw [h6] at h
      simp only [] at h
      cases h7 : ifdone (pureH dialog) g6 with
      | error e => rw [h7] at h; simp at h
      | ok g7 =>
        rw [h7] at h
        simp only [pure, Except.pure, Except.ok.injEq] at h
        subst h
        have hg3 := gobackto_establishes (randomtext r {g with done := 0, actiontype := []})
        have hk := printdescription_keeps _ g4 hp
        have k6 := ifdone_pureH_pp askyesorno askyesorno_pp _ g6 h6
        have k7 := ifdone_pureH_pp dialog dialog_pp g6 g7 h7
        refine ⟨?_, ?_⟩
        · rw [k7.2, k6.2]
          show g4.previouspart ≠ []
          rw [hk.2]
          exact hg3.1
        · rw [k7.2, k6.2, k7.1, k6.1]
          show g4.previouspart.getLast? = some g4.part
          rw [hk.2, hk.1]
          exact hg3.2

theorem goback_pop (g : Globals)
    (hc : g.actiontype.contains "go back" = true)
    (hl : 2 ≤ g.previouspart.length)
    (hlast : g.previouspart.getLast? = some g.part) :
    (goback g).previouspart ++ [g.part] = g.previouspart ∧
    (goback g).previouspart.length + 1 = g.previouspart.length ∧
    (goback g).part = (g.previouspart.dropLast.getLast?).getD "" := by
  unfold goback
  rw [if_pos hc, if_pos (by omega : g.previouspart.length > 1)]
  have hne : g.previouspart ≠ [] := by
    intro h0
    rw [h0] at hlast
    simp at hlast
  refine ⟨?_, ?_, rfl⟩
  · show g.previouspart.dropLast ++ [g.part] = g.previouspart
    rw [List.getLast?_eq_getLast g.previouspart hne] at hlast
    injection hlast with hlast
    rw [← hlast]
    exact List.dropLast_append_getLast hne
  · show g.previouspart.dropLast.length + 1 = g.previouspart.length
    rw [List.length_dropLast]
    omega

theorem goback_bottom (g : Globals)
    (hc : g.actiontype.contains "go back" = true)
    (hl : g.previouspart.length = 1) :
    goback g = {g with done := 1, output := g.output ++ ["There is nothing to go back to."]} := by
  unfold goback
  rw [if_pos hc, if_neg (by omega : ¬g.previouspart.length > 1)]
  rfl


/-- C8: the history invariant and the go-back behaviors combined: (1) every
state at the command prompt (the successful result of the pre-input phase,
which runs `gobackto` each iteration) has a non-empty location-history stack
whose last element equals the current location; (2) go-back with two or more
entries pops exactly one entry — the popped entry is the current location,
the stack shrinks by exactly one, and the new location is the new top;
(3) go-back with exactly one entry leaves every state field unchanged except
for printing "There is nothing to go back to." and ending the turn. -/
theorem history_stack_invariant :
    (∀ (r : RandText) (g g' : Globals), preInput r g = Except.ok g' →
      g'.previouspart ≠ [] ∧ g'.previouspart.getLast? = some g'.part) ∧
    (∀ g : Globals, g.actiontype.contains "go back" = true →
      2 ≤ g.previouspart.length → g.previouspart.getLast? = some g.part →
      (goback g).previouspart ++ [g.part] = g.previouspart ∧
      (goback g).previouspart.length + 1 = g.previouspart.length ∧
      (goback g).part = (g.previouspart.dropLast.getLast?).getD "") ∧
    (∀ g : Globals, g.actiontype.contains "go back" = true → g.previouspart.length = 1 →
      goback g = {g with done := 1, output := g.output ++ ["There is nothing to go back to."]}) :=
  ⟨preInput_history, goback_pop, goback_bottom⟩

/-- The C8 witness prompt state (description printing already done). -/
def gH8 : Globals := {initialGlobals with description := 0}

/-- The evaluated pre-input result at `gH8`: only the random flavour strings
are filled in. -/
def gH8p : Globals := {gH8 with random_require_string := "require", random_need_to_string := "need", random_unlock_string := "unlock", random_seems_to_be_string := "seems", random_there_is_string := "There is"}

/-- The C8 pop witness state: two history entries, `go back` typed. -/
def gPop : Globals := {initialGlobals with part := "cabin_front", previouspart := ["grassy_field", "cabin_front"], actiontype := ["go back"]}

/-- The C8 bottom witness state: the seeded single-entry stack, `go back`
typed. -/
def gBot : Globals := {initialGlobals with actiontype := ["go back"]}

set_option maxRecDepth 10000 in
/-- Witness for C8 at concrete states: the invariant after a concrete
pre-input phase, one concrete pop, and the concrete bottom case. -/
theorem history_stack_invariant_witness :
    ((gH8p.previouspart ≠ [] ∧ gH8p.previouspart.getLast? = some gH8p.part) ∧
     ((goback gPop).previouspart ++ [gPop.part] = gPop.previouspart ∧
      (goback gPop).previouspart.length + 1 = gPop.previouspart.length ∧
      (goback gPop).part = (gPop.previouspart.dropLast.getLast?).getD "") ∧
     goback gBot = {gBot with done := 1, output := gBot.output ++ ["There is nothing to go back to."]}) :=
  ⟨history_stack_invariant.1 {} gH8 gH8p rfl,
   history_stack_invariant.2.1 gPop rfl (by decide) rfl,
   history_stack_invariant.2.2 gBot rfl rfl⟩


/-! ## C1: the save string reloads to the same world state -/

theorem digVal_digCh (d : Nat) (h : d < 10) : digVal? (digCh d) = some d := by
  interval_cases d <;> decide

theorem digCh_ne_minus (d : Nat) : digCh d ≠ '-' := by
  unfold digCh
  split_ifs <;> decide

theorem digCh_not_ws (d : Nat) : isWs (digCh d) = false := by
  unfold digCh
  split_ifs <;> decide

/-- The power of ten one past `n`'s leading digit (proof-side only). -/
def tenPow (n : Nat) : Nat :=
  if n < 10 then 10 else 10 * tenPow (n / 10)
  termination_by n
  decreasing_by exact Nat.div_lt_self (by omega) (by omega)

theorem foldl_digsVal_natDigsF (fuel : Nat) : ∀ (n : Nat) (acc : List Char) (v : Nat),
    n < fuel →
    List.foldl (fun acc c => do pure ((← acc) * 10 + (← digVal? c))) (some v) (natDigsF fuel n acc) =
    List.foldl (fun acc c => do pure ((← acc) * 10 + (← digVal? c))) (some (v * tenPow n + n)) acc := by
  induction fuel with
  | zero => intro n acc v h; omega
  | succ fuel ih =>
    intro n acc v h
    by_cases h10 : n < 10
    · rw [natDigsF, if_pos h10, tenPow, if_pos h10]
      simp [digVal_digCh n h10, Bind.bind, Option.bind]
    · rw [natDigsF, if_neg h10, tenPow, if_neg h10]
      have hlt : n / 10 < fuel := by
        have h1 : n / 10 + 1 ≤ n := by
          have := Nat.div_lt_self (show 0 < n by omega) (show 1 < 10 by omega)
          omega
        omega
      rw [ih (n / 10) _ v hlt]
      simp only [List.foldl_cons, digVal_digCh (n % 10) (Nat.mod_lt _ (by omega)), Bind.bind,
        Option.bind]
      have heq : (v * tenPow (n / 10) + n / 10) * 10 + n % 10 = v * (10 * tenPow (n / 10)) + n := by
        have := Nat.div_add_mod n 10
        ring_nf
        omega
      rw [heq]
      rfl

theorem natDigsF_ne_nil (fuel n : Nat) (acc : List Char) (h : n < fuel) :
    natDigsF fuel n acc ≠ [] := by
  induction fuel generalizing n acc with
  | zero => omega
  | succ fuel ih =>
    rw [natDigsF]
    split_ifs with h10
    · exact List.cons_ne_nil _ _
    · refine ih (n / 10) _ ?_
      have h1 : n / 10 + 1 ≤ n := by
        have := Nat.div_lt_self (show 0 < n by omega) (show 1 < 10 by omega)
        omega
      omega

theorem digsVal_of_ne_nil (l : List Char) (h : l ≠ []) :
    digsVal l = List.foldl (fun acc c => do pure ((← acc) * 10 + (← digVal? c))) (some 0) l := by
  cases l with
  | nil => exact absurd rfl h
  | cons c t => rfl

theorem digsVal_natStr (n : Nat) : digsVal (natStr n).data = some n := by
  show digsVal (natDigsF (n + 1) n []) = some n
  rw [digsVal_of_ne_nil _ (natDigsF_ne_nil _ n [] (by omega)),
      foldl_digsVal_natDigsF (n + 1) n [] 0 (by omega)]
  simp

theorem natDigsF_all_digits (fuel : Nat) : ∀ (n : Nat) (acc : List Char),
    (∀ c ∈ acc, ∃ d, c = digCh d) → ∀ c ∈ natDigsF fuel n acc, ∃ d, c = digCh d := by
  induction fuel with
  | zero => intro n acc hacc c hc; exact hacc c hc
  | succ fuel ih =>
    intro n acc hacc c hc
    rw [natDigsF] at hc
    split_ifs at hc with h10
    · rcases List.mem_cons.mp hc with h | h
      · exact ⟨n, h⟩
      · exact hacc c h
    · refine ih (n / 10) _ ?_ c hc
      intro c2 hc2
      rcases List.mem_cons.mp hc2 with h | h
      · exact ⟨n % 10, h⟩
      · exact hacc c2 h

theorem natStr_no_ws (n : Nat) : ∀ c ∈ (natStr n).data, isWs c = false := by
  intro c hc
  obtain ⟨d, rfl⟩ := natDigsF_all_digits (n + 1) n [] (by simp) c hc
  exact digCh_not_ws d

theorem dropWhile_eq_self_of_all {p : Char → Bool} (l : List Char)
    (h : ∀ c ∈ l, p c = false) : l.dropWhile p = l := by
  cases l with
  | nil => rfl
  | cons c t =>
    rw [List.dropWhile_cons, h c (List.mem_cons_self c t)]
    simp

theorem strip_of_no_ws (l : List Char) (h : ∀ c ∈ l, isWs c = false) :
    ((l.dropWhile isWs).reverse.dropWhile isWs).reverse = l := by
  rw [dropWhile_eq_self_of_all l h,
      dropWhile_eq_self_of_all l.reverse (fun c hc => h c (List.mem_reverse.mp hc)),
      List.reverse_reverse]

theorem natDigsF_head (fuel : Nat) : ∀ (n : Nat) (acc : List Char), n < fuel →
    ∃ d rest, natDigsF fuel n acc = digCh d :: rest := by
  induction fuel with
  | zero => omega
  | succ fuel ih =>
    intro n acc h
    rw [natDigsF]
    split_ifs with h10
    · exact ⟨n, acc, rfl⟩
    · refine ih (n / 10) _ ?_
      have h1 : n / 10 + 1 ≤ n := by
        have := Nat.div_lt_self (show 0 < n by omega) (show 1 < 10 by omega)
        omega
      omega

theorem pyInt_natStr (n : Nat) : pyInt (natStr n) = Except.ok (n : Int) := by
  unfold pyInt
  rw [strip_of_no_ws _ (natStr_no_ws n)]
  obtain ⟨d, rest, hEq⟩ := natDigsF_head (n + 1) n [] (by omega)
  have hd : (natStr n).data = digCh d :: rest := hEq
  rw [hd]
  rw [if_neg (by
    simp only [List.head?_cons, Option.some.injEq]
    exact digCh_ne_minus d)]
  have hval : digsVal (digCh d :: rest) = some n := by
    rw [← hd]
    exact digsVal_natStr n
  rw [hval]

theorem pyInt_intStr (v : Int) : pyInt (intStr v) = Except.ok v := by
  unfold intStr
  by_cases hv : v < 0
  · rw [if_pos hv]
    unfold pyInt
    have hdata : ("-" ++ natStr (-v).toNat).data = '-' :: (natStr (-v).toNat).data := by
      rw [String.data_append]
      rfl
    rw [hdata]
    rw [strip_of_no_ws _ (by
      intro c hc
      rcases List.mem_cons.mp hc with h | h
      · rw [h]; rfl
      · exact natStr_no_ws _ c h)]
    rw [if_pos (by simp)]
    have hval : digsVal ('-' :: (natStr (-v).toNat).data).tail = some (-v).toNat := by
      show digsVal (natStr (-v).toNat).data = some (-v).toNat
      exact digsVal_natStr _
    rw [hval]
    show Except.ok (-(((-v).toNat : Nat) : Int)) = Except.ok v
    congr 1
    omega
  · rw [if_neg hv]
    rw [pyInt_natStr]
    congr 1
    omega


/-- The apostrophe character. -/
def quoteCh : Char := Char.ofNat 39

/-- One rendered dict entry without its separator: `'b': c`. -/
def entryStr (b : String) (c : Char) : List Char :=
  quoteCh :: b.data ++ quoteCh :: ':' :: ' ' :: [c]

/-- Rendered dict entries, each preceded by `, `. -/
def entriesSep : List (String × Char) → List Char
  | [] => []
  | (b, c) :: t => ',' :: ' ' :: entryStr b c ++ entriesSep t

theorem entryStr_length (b : String) (c : Char) :
    (entryStr b c).length = b.data.length + 5 := by
  simp [entryStr]

theorem entriesSep_append (l1 l2 : List (String × Char)) :
    entriesSep (l1 ++ l2) = entriesSep l1 ++ entriesSep l2 := by
  induction l1 with
  | nil => rfl
  | cons bc t ih =>
    obtain ⟨b, c⟩ := bc
    simp [entriesSep, ih]

theorem pfGo_step (p : List Char) (c : Char) (t : List Char) (i : Nat)
    (h : p.isPrefixOf (c :: t) = false) :
    pfGo p (c :: t) i = pfGo p t (i + 1) := by
  rw [pfGo, if_neg (by rw [h]; exact Bool.false_ne_true)]

theorem pfGo_here (p s : List Char) (i : Nat) (h : p.isPrefixOf s = true) :
    pfGo p s i = (i : Int) := by
  cases s with
  | nil =>
    have hp : p = [] := by
      cases p with
      | nil => rfl
      | cons a t => simp [List.isPrefixOf] at h
    rw [hp, pfGo, if_pos rfl]
  | cons c t =>
    rw [pfGo, if_pos (by rw [h])]

theorem isPrefixOf_cons_ne (p0 : Char) (pt : List Char) (c : Char) (t : List Char)
    (h : (p0 == c) = false) : (p0 :: pt).isPrefixOf (c :: t) = false := by
  simp only [List.isPrefixOf_cons₂]
  simp only [Bool.and_eq_false_iff]
  left
  exact h

theorem pfGo_skip_run (p0 : Char) (pt : List Char) (x : List Char)
    (hx : x.all (fun c => !(c == p0)) = true) (y : List Char) (i : Nat) :
    pfGo (p0 :: pt) (x ++ y) i = pfGo (p0 :: pt) y (i + x.length) := by
  induction x generalizing i with
  | nil => simp
  | cons c t ih =>
    simp only [List.all_cons, Bool.and_eq_true] at hx
    have hne : (p0 == c) = false := by
      have h1 : c ≠ p0 := by
        have := hx.1
        simp only [Bool.not_eq_true'] at this
        exact beq_eq_false_iff_ne.mp this
      exact beq_eq_false_iff_ne.mpr (Ne.symm h1)
    rw [List.cons_append, pfGo_step _ _ _ _ (isPrefixOf_cons_ne _ _ _ _ hne),
        ih hx.2 (i + 1)]
    congr 1
    simp
    omega

/-- Conditions on a key under which the `': c` scans walk over it correctly:
no apostrophe inside, and no leading colon. -/
def scanKey (b : String) : Prop :=
  b.data.all (fun c => !(c == quoteCh)) = true ∧ b.data.head? ≠ some ':'

theorem pfGo_entry_skip (b : String) (c d : Char) (hb : scanKey b)
    (hcd : (d == c) = false) (hcq : (c == quoteCh) = false) (rest : List Char) (i : Nat) :
    pfGo (quoteCh :: ':' :: ' ' :: [d]) (entryStr b c ++ rest) i =
    pfGo (quoteCh :: ':' :: ' ' :: [d]) rest (i + (b.data.length + 5)) := by
  obtain ⟨hq, hh⟩ := hb
  have hE : entryStr b c ++ rest = quoteCh :: (b.data ++ ((quoteCh :: ':' :: ' ' :: [c]) ++ rest)) := by
    simp [entryStr]
  rw [hE]
  have h1 : (quoteCh :: ':' :: ' ' :: [d]).isPrefixOf
      (quoteCh :: (b.data ++ ((quoteCh :: ':' :: ' ' :: [c]) ++ rest))) = false := by
    rw [List.isPrefixOf_cons₂]
    simp only [beq_self_eq_true, Bool.true_and]
    cases hbd : b.data with
    | nil => simp [List.isPrefixOf_cons₂, quoteCh]
    | cons c0 t0 =>
      have hc0 : c0 ≠ ':' := by
        intro hc
        rw [hbd, hc] at hh
        simp at hh
      rw [List.cons_append, List.cons_append]
      exact isPrefixOf_cons_ne _ _ _ _ (beq_eq_false_iff_ne.mpr (Ne.symm hc0))
  rw [pfGo_step _ _ _ _ h1,
      pfGo_skip_run quoteCh (':' :: ' ' :: [d]) b.data hq]
  show pfGo (quoteCh :: ':' :: ' ' :: [d]) (quoteCh :: ':' :: ' ' :: c :: rest) _ = _
  have h2 : (quoteCh :: ':' :: ' ' :: [d]).isPrefixOf (quoteCh :: ':' :: ' ' :: c :: rest)
      = false := by
    rw [List.isPrefixOf_cons₂, List.isPrefixOf_cons₂, List.isPrefixOf_cons₂]
    simp only [beq_self_eq_true, Bool.true_and]
    exact isPrefixOf_cons_ne _ _ _ _ hcd
  rw [pfGo_step _ _ _ _ h2,
      pfGo_step _ _ _ _ (isPrefixOf_cons_ne quoteCh _ ':' _ (by decide)),
      pfGo_step _ _ _ _ (isPrefixOf_cons_ne quoteCh _ ' ' _ (by decide)),
      pfGo_step _ _ _ _ (isPrefixOf_cons_ne quoteCh _ c _ (by
        have h1 : c ≠ quoteCh := beq_eq_false_iff_ne.mp hcq
        exact beq_eq_false_iff_ne.mpr (Ne.symm h1)))]
  congr 1
  omega

theorem pfGo_entry_match (b : String) (d : Char) (hb : scanKey b) (rest : List Char) (i : Nat) :
    pfGo (quoteCh :: ':' :: ' ' :: [d]) (entryStr b d ++ rest) i =
    ((i + 1 + b.data.length : Nat) : Int) := by
  obtain ⟨hq, hh⟩ := hb
  have hE : entryStr b d ++ rest = quoteCh :: (b.data ++ ((quoteCh :: ':' :: ' ' :: [d]) ++ rest)) := by
    simp [entryStr]
  rw [hE]
  have h1 : (quoteCh :: ':' :: ' ' :: [d]).isPrefixOf
      (quoteCh :: (b.data ++ ((quoteCh :: ':' :: ' ' :: [d]) ++ rest))) = false := by
    rw [List.isPrefixOf_cons₂]
    simp only [beq_self_eq_true, Bool.true_and]
    cases hbd : b.data with
    | nil => simp [List.isPrefixOf_cons₂, quoteCh]
    | cons c0 t0 =>
      have hc0 : c0 ≠ ':' := by
        intro hc
        rw [hbd, hc] at hh
        simp at hh
      rw [List.cons_append, List.cons_append]
      exact isPrefixOf_cons_ne _ _ _ _ (beq_eq_false_iff_ne.mpr (Ne.symm hc0))
  rw [pfGo_step _ _ _ _ h1,
      pfGo_skip_run quoteCh (':' :: ' ' :: [d]) b.data hq]
  show pfGo (quoteCh :: ':' :: ' ' :: [d]) (quoteCh :: ':' :: ' ' :: d :: rest) _ = _
  rw [pfGo_here _ _ _ (by
    rw [List.isPrefixOf_cons₂, List.isPrefixOf_cons₂, List.isPrefixOf_cons₂,
        List.isPrefixOf_cons₂]
    simp)]

/-- Entries whose digit differs from `d` and whose keys scan cleanly. -/
def scanList (d : Char) (l : List (String × Char)) : Prop :=
  ∀ bc ∈ l, scanKey bc.1 ∧ (d == bc.2) = false ∧ (bc.2 == quoteCh) = false

theorem pfGo_entriesSep_skip (d : Char) (l : List (String × Char)) (hl : scanList d l)
    (rest : List Char) (i : Nat) :
    pfGo (quoteCh :: ':' :: ' ' :: [d]) (entriesSep l ++ rest) i =
    pfGo (quoteCh :: ':' :: ' ' :: [d]) rest (i + (entriesSep l).length) := by
  induction l generalizing i with
  | nil => simp [entriesSep]
  | cons bc t ih =>
    obtain ⟨b, c⟩ := bc
    have hbc := hl (b, c) (List.mem_cons_self _ _)
    have hE : entriesSep ((b, c) :: t) ++ rest =
        ',' :: ' ' :: (entryStr b c ++ (entriesSep t ++ rest)) := by
      simp [entriesSep]
    rw [hE,
        pfGo_step _ _ _ _ (isPrefixOf_cons_ne quoteCh _ ',' _ (by decide)),
        pfGo_step _ _ _ _ (isPrefixOf_cons_ne quoteCh _ ' ' _ (by decide)),
        pfGo_entry_skip b c d hbc.1 hbc.2.1 hbc.2.2,
        ih (fun bc2 h2 => hl bc2 (List.mem_cons_of_mem _ h2))]
    congr 1
    have hlen : (entriesSep ((b, c) :: t)).length =
        2 + (entryStr b c).length + (entriesSep t).length := by
      simp [entriesSep]
      omega
    rw [hlen, entryStr_length]
    omega

theorem pfGo_entriesSep_match (d : Char) (l1 : List (String × Char)) (b : String)
    (l2 : List (String × Char)) (hl1 : scanList d l1) (hb : scanKey b)
    (rest : List Char) (i : Nat) :
    pfGo (quoteCh :: ':' :: ' ' :: [d]) (entriesSep (l1 ++ (b, d) :: l2) ++ rest) i =
    ((i + (entriesSep l1).length + 3 + b.data.length : Nat) : Int) := by
  rw [entriesSep_append, List.append_assoc, pfGo_entriesSep_skip d l1 hl1]
  have hE : entriesSep ((b, d) :: l2) ++ rest =
      ',' :: ' ' :: (entryStr b d ++ (entriesSep l2 ++ rest)) := by
    simp [entriesSep]
  rw [hE,
      pfGo_step _ _ _ _ (isPrefixOf_cons_ne quoteCh _ ',' _ (by decide)),
      pfGo_step _ _ _ _ (isPrefixOf_cons_ne quoteCh _ ' ' _ (by decide)),
      pfGo_entry_match b d hb]


/-- Normal form of a mapping blob body: one `k:v ` group per pair. -/
def mrend : PyDict → String
  | [] => ""
  | (k, v) :: t => k ++ ":" ++ intStr v ++ " " ++ mrend t

/-- Normal form of the places blob body: one `p ` group per place. -/
def prend : List String → String
  | [] => ""
  | p :: t => p ++ " " ++ prend t

theorem mapBlob_foldl (d : PyDict) : ∀ acc : String,
    d.foldl (fun acc kv => acc ++ kv.1 ++ ":" ++ intStr kv.2 ++ " ") acc = acc ++ mrend d := by
  induction d with
  | nil => intro acc; simp [mrend]
  | cons kv t ih =>
    intro acc
    obtain ⟨k, v⟩ := kv
    rw [List.foldl_cons, ih]
    simp [mrend, String.append_assoc]

theorem mapBlob_eq (d : PyDict) : mapBlob d = " " ++ mrend d := mapBlob_foldl d " "

theorem placesBlob_foldl (l : List String) : ∀ acc : String,
    l.foldl (fun acc item => acc ++ item ++ " ") acc = acc ++ prend l := by
  induction l with
  | nil => intro acc; simp [prend]
  | cons p t ih =>
    intro acc
    rw [List.foldl_cons, ih]
    simp [prend, String.append_assoc]

theorem placesBlob_eq (g : Globals) : placesBlob g = " " ++ prend g.placesdiscovered :=
  placesBlob_foldl g.placesdiscovered " "

theorem str_mk_data (p : String) : (⟨p.data⟩ : String) = p := by
  cases p
  rfl

theorem swGo_word (w : List Char) (hw : w.all (fun c => !(isWs c)) = true) (hne : w ≠ [])
    (rest : List Char) : ∀ acc : List Char,
    swGo (w ++ ' ' :: rest) acc = (acc.reverse ++ w) :: swGo rest [] := by
  induction w generalizing rest with
  | nil => exact absurd rfl hne
  | cons c t ih =>
    intro acc
    simp only [List.all_cons, Bool.and_eq_true] at hw
    have hcw : isWs c = false := by
      have := hw.1
      simp only [Bool.not_eq_true'] at this
      exact this
    show swGo (c :: (t ++ ' ' :: rest)) acc = _
    rw [swGo, if_neg (by rw [hcw]; exact Bool.false_ne_true)]
    cases t with
    | nil =>
      show swGo (' ' :: rest) (c :: acc) = _
      rw [swGo, if_pos (by rfl)]
      rw [if_neg (by exact List.cons_ne_nil c acc)]
      simp
    | cons c2 t2 =>
      rw [ih hw.2 (List.cons_ne_nil _ _) rest (c :: acc)]
      simp

theorem pySplit_prend (l : List String)
    (hl : ∀ p ∈ l, p.data ≠ [] ∧ p.data.all (fun c => !(isWs c)) = true) :
    pySplit (prend l) = l := by
  induction l with
  | nil => rfl
  | cons p t ih =>
    have hp := hl p (List.mem_cons_self p t)
    have hdata : (prend (p :: t)).data = p.data ++ ' ' :: (prend t).data := by
      show (p ++ " " ++ prend t).data = _
      rw [String.data_append, String.data_append]
      simp
    unfold pySplit
    rw [hdata, swGo_word p.data hp.2 hp.1 (prend t).data []]
    simp only [List.reverse_nil, List.nil_append, List.map_cons, str_mk_data]
    congr 1
    exact ih (fun q hq => hl q (List.mem_cons_of_mem p hq))

theorem lFind_colon (k : String) (hk : k.data.all (fun c => !(c == ':')) = true)
    (z : List Char) : lFind (k.data ++ ':' :: z) [':'] = (k.data.length : Int) := by
  unfold lFind
  rw [pfGo_skip_run ':' [] k.data hk]
  rw [pfGo_here _ _ _ (by simp [List.isPrefixOf_cons₂])]
  simp

theorem pyIdx_natCast (len n : Nat) (h : n ≤ len) : pyIdx len ((n : Nat) : Int) = n := by
  unfold pyIdx
  rw [if_neg (by omega)]
  simp
  omega

theorem lSlice_seg (l x m y : List Char) (hl : l = x ++ (m ++ y)) (a b : Int)
    (ha : a = ((x.length : Nat) : Int)) (hb : b = ((x.length + m.length : Nat) : Int)) :
    lSlice l a b = m := by
  subst hl ha hb
  unfold lSlice
  rw [pyIdx_natCast _ _ (by simp), pyIdx_natCast _ _ (by simp)]
  show List.take (x.length + m.length - x.length) (List.drop x.length (x ++ (m ++ y))) = m
  rw [List.drop_left, show x.length + m.length - x.length = m.length by omega,
      List.take_left]

theorem pySlice_seg (s : String) (x m y : List Char) (hs : s.data = x ++ (m ++ y)) (a b : Int)
    (ha : a = ((x.length : Nat) : Int)) (hb : b = ((x.length + m.length : Nat) : Int)) :
    pySlice s a b = (⟨m⟩ : String) := by
  unfold pySlice
  rw [lSlice_seg s.data x m y hs a b ha hb]

theorem parseWord_token (k : String) (v : Int)
    (hk : k.data.all (fun c => !(c == ':')) = true) :
    parseWord (k ++ ":" ++ intStr v) = Except.ok (k, v) := by
  unfold parseWord
  have hdata : (k ++ ":" ++ intStr v).data = k.data ++ ':' :: (intStr v).data := by
    rw [String.data_append, String.data_append]
    simp
  have hfind : pyFind (k ++ ":" ++ intStr v) ":" = ((k.data.length : Nat) : Int) := by
    unfold pyFind
    rw [hdata]
    exact lFind_colon k hk _
  rw [hfind]
  have hslice : pySlice (k ++ ":" ++ intStr v) 0 ((k.data.length : Nat) : Int) = k := by
    rw [pySlice_seg (k ++ ":" ++ intStr v) [] k.data (':' :: (intStr v).data)
      (by rw [hdata]; simp) 0 _ (by simp) (by simp)]
  have hslice2 : pySliceFrom (k ++ ":" ++ intStr v) (((k.data.length : Nat) : Int) + 1) = intStr v := by
    unfold pySliceFrom
    rw [pySlice_seg (k ++ ":" ++ intStr v) (k.data ++ [':']) (intStr v).data []
      (by rw [hdata]; simp) _ _ (by simp) (by rw [hdata]; simp; omega)]
  show (do
    let v2 ← pyInt (pySliceFrom (k ++ ":" ++ intStr v) (((k.data.length : Nat) : Int) + 1))
    pure (pySlice (k ++ ":" ++ intStr v) 0 ((k.data.length : Nat) : Int), v2) :
      Except PyErr (String × Int)) = Except.ok (k, v)
  rw [hslice, hslice2, pyInt_intStr]
  rfl


/-- Characters allowed in a saved key or place name: anything except space,
colon and apostrophe. -/
def goodCh (c : Char) : Bool := !(c == ' ' || c == ':' || c == quoteCh)

/-- A good key/place name: non-empty and of good characters only. -/
def goodStr (s : String) : Bool := !s.data.isEmpty && s.data.all goodCh

def invKeys : List String :=
  ["cabin_key", "cabin_upstairs_bedroom_key", "water_bucket", "bucket", "unlit_torch",
   "lit_torch", "ladder", "portal_gun"]
def lockKeys : List String := ["cabin_front_door", "cabin_attic_hatch"]
def chgKeys : List String :=
  ["lit_cabin_fireplace", "cabin_upstairs_bedroom_key_on_table", "ladder_on_side_of_cabin",
   "cabin_attic_ladder_placed"]
def beenKeys : List String := ["grassy_field", "cavepart1", "cavepart2"]
def enemyKeys : List String := ["cavepart2_r1_imp"]
def npcKeys : List String :=
  ["health_cavepart2_r1_imp", "attack_cavepart2_r1_imp", "defence_cavepart2_r1_imp"]

/-- The world states the round-trip theorem quantifies over: the current part
and every discovered place are well-formed names, the first discovered place
is the start location, and each mapping field has exactly its fixed key set
(in insertion order) — the keys the program itself never changes.  Values are
arbitrary integers. -/
def GoodState (g : Globals) : Prop :=
  goodStr g.part = true ∧
  g.placesdiscovered.head? = some "grassy_field" ∧
  (∀ p ∈ g.placesdiscovered, goodStr p = true) ∧
  g.inventory.map Prod.fst = invKeys ∧
  g.lockeddoors.map Prod.fst = lockKeys ∧
  g.changableobjects.map Prod.fst = chgKeys ∧
  g.beento.map Prod.fst = beenKeys ∧
  g.enemiesalive.map Prod.fst = enemyKeys ∧
  g.npc_stats.map Prod.fst = npcKeys

theorem goodCh_not_colon (c : Char) (h : goodCh c = true) : (c == ':') = false := by
  unfold goodCh at h
  simp only [Bool.not_eq_true', Bool.or_eq_false_iff] at h
  exact h.1.2

theorem goodCh_not_quote (c : Char) (h : goodCh c = true) : (c == quoteCh) = false := by
  unfold goodCh at h
  simp only [Bool.not_eq_true', Bool.or_eq_false_iff] at h
  exact h.2

theorem goodCh_not_ws (c : Char) (h : goodCh c = true) : isWs c = false := by
  unfold goodCh at h
  simp only [Bool.not_eq_true', Bool.or_eq_false_iff] at h
  exact h.1.1

theorem intStr_chars (v : Int) : ∀ c ∈ (intStr v).data, c = '-' ∨ ∃ d, c = digCh d := by
  intro c hc
  unfold intStr at hc
  split_ifs at hc
  · rw [String.data_append] at hc
    rcases List.mem_append.mp hc with h | h
    · left
      simpa using h
    · right
      exact natDigsF_all_digits _ _ [] (by simp) c h
  · right
    exact natDigsF_all_digits _ _ [] (by simp) c hc

theorem digCh_not_quote (d : Nat) : (digCh d == quoteCh) = false := by
  unfold digCh
  split_ifs <;> decide

theorem intStr_no_quote (v : Int) : ∀ c ∈ (intStr v).data, (c == quoteCh) = false := by
  intro c hc
  rcases intStr_chars v c hc with h | ⟨d, h⟩
  · rw [h]; decide
  · rw [h]; exact digCh_not_quote d

theorem intStr_no_colon (v : Int) : ∀ c ∈ (intStr v).data, (c == ':') = false := by
  intro c hc
  rcases intStr_chars v c hc with h | ⟨d, h⟩
  · rw [h]; decide
  · rw [h]; unfold digCh; split_ifs <;> decide

theorem intStr_no_ws (v : Int) : ∀ c ∈ (intStr v).data, isWs c = false := by
  intro c hc
  rcases intStr_chars v c hc with h | ⟨d, h⟩
  · rw [h]; decide
  · rw [h]; exact digCh_not_ws d

theorem intStr_ne_empty (v : Int) : (intStr v).data ≠ [] := by
  unfold intStr
  split_ifs
  · rw [String.data_append]
    intro h
    rcases List.append_eq_nil.mp h with ⟨h1, _⟩
    exact absurd h1 (by decide)
  · exact natDigsF_ne_nil _ _ [] (by omega)

/-- The rendered token of one pair. -/
theorem token_chars (k : String) (v : Int) (hk : k.data.all goodCh = true) :
    (k ++ ":" ++ intStr v).data ≠ [] ∧
    ((k ++ ":" ++ intStr v).data.all fun c => !(isWs c)) = true := by
  have hdata : (k ++ ":" ++ intStr v).data = k.data ++ ':' :: (intStr v).data := by
    rw [String.data_append, String.data_append]
    simp
  constructor
  · rw [hdata]
    intro h
    rcases List.append_eq_nil.mp h with ⟨_, h2⟩
    simp at h2
  · rw [hdata, List.all_append]
    simp only [Bool.and_eq_true, List.all_cons]
    refine ⟨?_, ?_, ?_⟩
    · rw [List.all_eq_true]
      intro c hc
      simp only [Bool.not_eq_true']
      exact goodCh_not_ws c (List.all_eq_true.mp hk c hc)
    · decide
    · rw [List.all_eq_true]
      intro c hc
      simp only [Bool.not_eq_true']
      exact intStr_no_ws v c hc

theorem mrend_eq_prend (d : PyDict) :
    mrend d = prend (d.map fun kv => kv.1 ++ ":" ++ intStr kv.2) := by
  induction d with
  | nil => rfl
  | cons kv t ih =>
    obtain ⟨k, v⟩ := kv
    show k ++ ":" ++ intStr v ++ " " ++ mrend t = _
    rw [ih]
    show _ = (k ++ ":" ++ intStr v) ++ " " ++ prend (t.map fun kv => kv.1 ++ ":" ++ intStr kv.2)
    rw [String.append_assoc, String.append_assoc, String.append_assoc]

theorem dSet_append (acc : PyDict) (k : String) (v : Int)
    (h : ∀ kv ∈ acc, kv.1 ≠ k) : dSet acc k v = acc ++ [(k, v)] := by
  unfold dSet
  rw [if_neg (by
    simp only [List.any_eq_true, not_exists, not_and]
    intro kv hkv hc
    exact (h kv hkv) (beq_iff_eq.mp hc))]

theorem parse_rebuild (d : PyDict) : ∀ acc : PyDict,
    (∀ kv ∈ d, kv.1.data.all goodCh = true) →
    (∀ k ∈ d.map Prod.fst, ∀ kv ∈ acc, kv.1 ≠ k) →
    (d.map Prod.fst).Nodup →
    List.foldlM (fun d2 w => do
      let kv ← parseWord w
      pure (dSet d2 kv.1 kv.2)) acc (d.map fun kv => kv.1 ++ ":" ++ intStr kv.2) =
    Except.ok (acc ++ d) := by
  induction d with
  | nil => intro acc _ _ _; rw [List.map_nil]; simp only [List.foldlM_nil, List.append_nil]; rfl
  | cons kv t ih =>
    intro acc hkeys hdisj hnodup
    obtain ⟨k, v⟩ := kv
    have hk := hkeys (k, v) (List.mem_cons_self _ _)
    rw [List.map_cons, List.foldlM_cons,
        parseWord_token k v (by
          rw [List.all_eq_true]
          intro c hc
          simp only [Bool.not_eq_true']
          exact goodCh_not_colon c (List.all_eq_true.mp hk c hc))]
    show (do
      let d2 := dSet acc k v
      List.foldlM _ d2 (t.map fun kv => kv.1 ++ ":" ++ intStr kv.2) :
        Except PyErr PyDict) = _
    rw [show dSet acc k v = acc ++ [(k, v)] from
      dSet_append acc k v (fun kv hkv => hdisj k (by simp) kv hkv)]
    show List.foldlM _ (acc ++ [(k, v)]) (t.map fun kv => kv.1 ++ ":" ++ intStr kv.2) = _
    rw [ih (acc ++ [(k, v)])
      (fun kv2 h2 => hkeys kv2 (List.mem_cons_of_mem _ h2))
      (by
        intro k2 hk2 kv2 hkv2
        rcases List.mem_append.mp hkv2 with h2 | h2
        · exact hdisj k2 (List.mem_cons_of_mem _ hk2) kv2 h2
        · simp only [List.mem_singleton] at h2
          rw [h2]
          simp only [List.map_cons, List.nodup_cons] at hnodup
          intro hc
          have hc2 : k = k2 := hc
          exact hnodup.1 (hc2 ▸ hk2))
      (by
        simp only [List.map_cons, List.nodup_cons] at hnodup
        exact hnodup.2)]
    simp

theorem parseMap_mrend (d : PyDict)
    (hkeys : ∀ kv ∈ d, kv.1.data.all goodCh = true)
    (hnodup : (d.map Prod.fst).Nodup) :
    parseMap (mrend d) = Except.ok d := by
  unfold parseMap
  rw [mrend_eq_prend, pySplit_prend _ (by
    intro p hp
    simp only [List.mem_map] at hp
    obtain ⟨kv, hkv, rfl⟩ := hp
    exact token_chars kv.1 kv.2 (hkeys kv hkv))]
  have := parse_rebuild d [] hkeys (by simp) hnodup
  simpa using this

theorem foldl_setAdd_mem (l : List String) : ∀ acc : List String,
    (∀ p ∈ l, p ∈ acc) → l.foldl setAdd acc = acc := by
  induction l with
  | nil => intro acc _; rfl
  | cons p t ih =>
    intro acc h
    rw [List.foldl_cons, show setAdd acc p = acc from by
      unfold setAdd
      rw [if_pos (by
        rw [List.contains_iff_exists_mem_beq]
        exact ⟨p, h p (List.mem_cons_self _ _), by simp⟩)]]
    exact ih acc (fun q hq => h q (List.mem_cons_of_mem _ hq))

theorem pyDictPairs_go (l : List (String × Nat)) : ∀ acc : List (String × Nat),
    (∀ k ∈ l.map Prod.fst, ∀ kv ∈ acc, kv.1 ≠ k) →
    (l.map Prod.fst).Nodup →
    List.foldl (fun acc kv =>
      if acc.any (fun kv2 => kv2.1 == kv.1) then
        acc.map (fun kv2 => if kv2.1 == kv.1 then (kv2.1, kv.2) else kv2)
      else acc ++ [kv]) acc l = acc ++ l := by
  induction l with
  | nil => intro acc _ _; rw [List.foldl_nil, List.append_nil]
  | cons kv t ih =>
    intro acc hdisj hnodup
    obtain ⟨k, v⟩ := kv
    rw [List.foldl_cons, if_neg (by
      simp only [List.any_eq_true, not_exists, not_and]
      intro kv2 hkv2 hc
      exact (hdisj k (by simp) kv2 hkv2) (beq_iff_eq.mp hc))]
    rw [ih (acc ++ [(k, v)])
      (by
        intro k2 hk2 kv2 hkv2
        rcases List.mem_append.mp hkv2 with h2 | h2
        · exact hdisj k2 (List.mem_cons_of_mem _ hk2) kv2 h2
        · simp only [List.mem_singleton] at h2
          rw [h2]
          simp only [List.map_cons, List.nodup_cons] at hnodup
          intro hc
          have hc2 : k = k2 := hc
          exact hnodup.1 (hc2 ▸ hk2))
      (by
        simp only [List.map_cons, List.nodup_cons] at hnodup
        exact hnodup.2)]
    simp

theorem pyDictPairs_id (l : List (String × Nat)) (h : (l.map Prod.fst).Nodup) :
    pyDictPairs l = l := by
  unfold pyDictPairs
  have := pyDictPairs_go l [] (by simp) h
  simpa using this

/-! ### Distinctness of the nine savefile keys -/

theorem str_ne_of_get (a b : String) (i : Nat)
    (h : a.data.get? i ≠ b.data.get? i) : a ≠ b := by
  intro he
  exact h (by rw [he])

theorem first_key (d : PyDict) (K : String) (ks : List String)
    (h : d.map Prod.fst = K :: ks) : ∃ v t, d = (K, v) :: t ∧ t.map Prod.fst = ks := by
  cases d with
  | nil => simp at h
  | cons kv t =>
    obtain ⟨k, v⟩ := kv
    simp only [List.map_cons, List.cons.injEq] at h
    exact ⟨v, t, by rw [← h.1], h.2⟩

theorem dataSp : (" " : String).data = [' '] := rfl

theorem data12 : (":1 " : String).data = [':', '1', ' '] := rfl

theorem data22 : (":2 " : String).data = [':', '2', ' '] := rfl

theorem dataColon : (":" : String).data = [':'] := rfl

theorem mapBlob_data_cons (K : String) (v : Int) (t : PyDict) :
    (mapBlob ((K, v) :: t)).data =
    (' ' :: K.data ++ [':']) ++ ((intStr v).data ++ ' ' :: (mrend t).data) := by
  rw [mapBlob_eq]
  show (" " ++ (K ++ ":" ++ intStr v ++ " " ++ mrend t)).data = _
  simp [String.data_append, dataSp, dataColon]

theorem mapBlob_get_front (K : String) (v : Int) (t : PyDict) (i : Nat)
    (hi : i < K.data.length + 2) :
    (mapBlob ((K, v) :: t)).data.get? i = (' ' :: K.data ++ [':']).get? i := by
  rw [mapBlob_data_cons]
  exact List.get?_append (by simp only [List.length_cons, List.length_append, List.length_nil]; omega)

theorem placesBlob_data_cons (g : Globals) (P : String) (ps : List String)
    (h : g.placesdiscovered = P :: ps) :
    (placesBlob g).data = (' ' :: P.data ++ [' ']) ++ (prend ps).data := by
  rw [placesBlob_eq, h]
  show (" " ++ (P ++ " " ++ prend ps)).data = _
  simp [String.data_append, dataSp]

theorem placesBlob_get_front (g : Globals) (P : String) (ps : List String)
    (h : g.placesdiscovered = P :: ps) (i : Nat) (hi : i < P.data.length + 2) :
    (placesBlob g).data.get? i = (' ' :: P.data ++ [' ']).get? i := by
  rw [placesBlob_data_cons g P ps h]
  exact List.get?_append (by simp only [List.length_cons, List.length_append, List.length_nil]; omega)

theorem intStr_head_spec (v : Int) :
    ∃ c cs, (intStr v).data = c :: cs ∧ (c = '-' ∨ ∃ d, c = digCh d) := by
  unfold intStr
  split_ifs
  · refine ⟨'-', (natStr (-v).toNat).data, ?_, Or.inl rfl⟩
    rw [String.data_append]
    rfl
  · obtain ⟨d, rest, hEq⟩ := natDigsF_head (v.toNat + 1) v.toNat [] (by omega)
    exact ⟨digCh d, rest, hEq, Or.inr ⟨d, rfl⟩⟩

theorem settingsBlob_data (g : Globals) :
    (settingsBlob g).data =
    ' ' :: ((intStr g.paratype).data ++
      (':' :: '1' :: ' ' :: ((intStr g.developermode).data ++ [':', '2', ' ']))) := by
  show (" " ++ intStr g.paratype ++ ":1 " ++ intStr g.developermode ++ ":2 ").data = _
  simp [String.data_append, dataSp, data12, data22]

theorem settings_get1 (g : Globals) :
    ∃ c, (settingsBlob g).data.get? 1 = some c ∧ (c = '-' ∨ ∃ d, c = digCh d) := by
  obtain ⟨c, cs, hdata, hcase⟩ := intStr_head_spec g.paratype
  refine ⟨c, ?_, hcase⟩
  rw [settingsBlob_data, hdata]
  rfl

theorem digCh_ne_c (d : Nat) : digCh d ≠ 'c' := by
  unfold digCh
  split_ifs <;> decide

theorem digCh_ne_g (d : Nat) : digCh d ≠ 'g' := by
  unfold digCh
  split_ifs <;> decide

theorem digCh_ne_l (d : Nat) : digCh d ≠ 'l' := by
  unfold digCh
  split_ifs <;> decide

theorem digCh_ne_h (d : Nat) : digCh d ≠ 'h' := by
  unfold digCh
  split_ifs <;> decide

theorem settings_ne (g : Globals) (b : String) (L : Char)
    (hb : b.data.get? 1 = some L) (h1 : L ≠ '-') (h2 : ∀ d, digCh d ≠ L) :
    settingsBlob g ≠ b := by
  intro he
  obtain ⟨c, hc, hcase⟩ := settings_get1 g
  rw [he, hb] at hc
  injection hc with hc
  rcases hcase with h | ⟨d, h⟩
  · exact h1 (hc ▸ h ▸ rfl)
  · exact h2 d (by rw [← h, hc])

theorem part_ne (p : String) (hg : goodStr p = true) (b : String)
    (hb : b.data.get? 0 = some ' ') : p ≠ b := by
  intro he
  unfold goodStr at hg
  simp only [Bool.and_eq_true, Bool.not_eq_true'] at hg
  cases hp : p.data with
  | nil => rw [hp] at hg; simp at hg
  | cons c t =>
    have hget : p.data.get? 0 = some c := by rw [hp]; rfl
    rw [he, hb] at hget
    injection hget with hget
    have hgc : goodCh c = true := by
      have := hg.2
      rw [hp] at this
      exact List.all_eq_true.mp this c (List.mem_cons_self _ _)
    unfold goodCh at hgc
    rw [hget] at hgc
    simp at hgc

/-! ### The blobs scan cleanly: no apostrophe inside, no leading colon -/

theorem mrend_data_cons (k : String) (v : Int) (t : PyDict) :
    (mrend ((k, v) :: t)).data =
    k.data ++ (':' :: ((intStr v).data ++ (' ' :: (mrend t).data))) := by
  show (k ++ ":" ++ intStr v ++ " " ++ mrend t).data = _
  simp [String.data_append, dataSp, dataColon]

theorem mrend_no_quote (d : PyDict) (hkeys : ∀ kv ∈ d, kv.1.data.all goodCh = true) :
    ∀ c ∈ (mrend d).data, (c == quoteCh) = false := by
  induction d with
  | nil => intro c hc; simp [mrend] at hc
  | cons kv t ih =>
    obtain ⟨k, v⟩ := kv
    intro c hc
    rw [mrend_data_cons] at hc
    rcases List.mem_append.mp hc with h | h
    · exact goodCh_not_quote c
        (List.all_eq_true.mp (hkeys (k, v) (List.mem_cons_self _ _)) c h)
    · rcases List.mem_cons.mp h with h | h
      · rw [h]; decide
      · rcases List.mem_append.mp h with h | h
        · exact intStr_no_quote v c h
        · rcases List.mem_cons.mp h with h | h
          · rw [h]; decide
          · exact ih (fun kv2 h2 => hkeys kv2 (List.mem_cons_of_mem _ h2)) c h

theorem prend_no_quote (l : List String) (hl : ∀ p ∈ l, goodStr p = true) :
    ∀ c ∈ (prend l).data, (c == quoteCh) = false := by
  induction l with
  | nil => intro c hc; simp [prend] at hc
  | cons p t ih =>
    intro c hc
    have hdata : (prend (p :: t)).data = p.data ++ (' ' :: (prend t).data) := by
      show (p ++ " " ++ prend t).data = _
      simp [String.data_append, dataSp]
    rw [hdata] at hc
    rcases List.mem_append.mp hc with h | h
    · have hgood := hl p (List.mem_cons_self _ _)
      unfold goodStr at hgood
      simp only [Bool.and_eq_true] at hgood
      exact goodCh_not_quote c (List.all_eq_true.mp hgood.2 c h)
    · rcases List.mem_cons.mp h with h | h
      · rw [h]; decide
      · exact ih (fun q hq => hl q (List.mem_cons_of_mem _ hq)) c h

theorem scanKey_mapBlob (d : PyDict) (hkeys : ∀ kv ∈ d, kv.1.data.all goodCh = true) :
    scanKey (mapBlob d) := by
  have hdata : (mapBlob d).data = ' ' :: (mrend d).data := by
    rw [mapBlob_eq]
    show (" " ++ mrend d).data = _
    rw [String.data_append, dataSp]
    rfl
  constructor
  · rw [hdata, List.all_cons]
    simp only [Bool.and_eq_true]
    refine ⟨by decide, List.all_eq_true.mpr ?_⟩
    intro c hc
    simp only [Bool.not_eq_true']
    exact mrend_no_quote d hkeys c hc
  · rw [hdata]
    simp

theorem scanKey_placesBlob (g : Globals) (hl : ∀ p ∈ g.placesdiscovered, goodStr p = true) :
    scanKey (placesBlob g) := by
  have hdata : (placesBlob g).data = ' ' :: (prend g.placesdiscovered).data := by
    rw [placesBlob_eq]
    show (" " ++ prend g.placesdiscovered).data = _
    rw [String.data_append, dataSp]
    rfl
  constructor
  · rw [hdata, List.all_cons]
    simp only [Bool.and_eq_true]
    refine ⟨by decide, List.all_eq_true.mpr ?_⟩
    intro c hc
    simp only [Bool.not_eq_true']
    exact prend_no_quote g.placesdiscovered hl c hc
  · rw [hdata]
    simp

theorem scanKey_settingsBlob (g : Globals) : scanKey (settingsBlob g) := by
  constructor
  · rw [settingsBlob_data, List.all_cons]
    simp only [Bool.and_eq_true]
    refine ⟨by decide, List.all_eq_true.mpr ?_⟩
    intro c hc
    simp only [Bool.not_eq_true']
    rcases List.mem_append.mp hc with h | h
    · exact intStr_no_quote g.paratype c h
    · rcases List.mem_cons.mp h with h | h
      · rw [h]; decide
      · rcases List.mem_cons.mp h with h | h
        · rw [h]; decide
        · rcases List.mem_cons.mp h with h | h
          · rw [h]; decide
          · rcases List.mem_append.mp h with h | h
            · exact intStr_no_quote g.developermode c h
            · rcases List.mem_cons.mp h with h | h
              · rw [h]; decide
              · rcases List.mem_cons.mp h with h | h
                · rw [h]; decide
                · rcases List.mem_cons.mp h with h | h
                  · rw [h]; decide
                  · simp at h
  · rw [settingsBlob_data]
    simp

theorem scanKey_part (p : String) (hp : goodStr p = true) : scanKey p := by
  unfold goodStr at hp
  simp only [Bool.and_eq_true, Bool.not_eq_true'] at hp
  constructor
  · refine List.all_eq_true.mpr ?_
    intro c hc
    simp only [Bool.not_eq_true']
    exact goodCh_not_quote c (List.all_eq_true.mp hp.2 c hc)
  · cases hpd : p.data with
    | nil => rw [hpd] at hp; simp at hp
    | cons c t =>
      have hgc := List.all_eq_true.mp hp.2 c (by rw [hpd]; exact List.mem_cons_self _ _)
      have : (c == ':') = false := goodCh_not_colon c hgc
      simp only [List.head?_cons, ne_eq, Option.some.injEq]
      intro hcc
      rw [hcc] at this
      simp at this

theorem invKeys_good : ∀ k ∈ invKeys, k.data.all goodCh = true := by decide

theorem lockKeys_good : ∀ k ∈ lockKeys, k.data.all goodCh = true := by decide

theorem chgKeys_good : ∀ k ∈ chgKeys, k.data.all goodCh = true := by decide

theorem beenKeys_good : ∀ k ∈ beenKeys, k.data.all goodCh = true := by decide

theorem enemyKeys_good : ∀ k ∈ enemyKeys, k.data.all goodCh = true := by decide

theorem npcKeys_good : ∀ k ∈ npcKeys, k.data.all goodCh = true := by decide

theorem keys_good_of_map (d : PyDict) (ks : List String) (h : d.map Prod.fst = ks)
    (hks : ∀ k ∈ ks, k.data.all goodCh = true) :
    ∀ kv ∈ d, kv.1.data.all goodCh = true :=
  fun kv hkv => hks kv.1 (h ▸ List.mem_map_of_mem Prod.fst hkv)

/-! ### The nine savefile keys are pairwise distinct -/

theorem savefile_keys_nodup (g : Globals) (hg : GoodState g) :
    [settingsBlob g, g.part, placesBlob g, mapBlob g.inventory, mapBlob g.lockeddoors,
     mapBlob g.changableobjects, mapBlob g.beento, mapBlob g.enemiesalive,
     mapBlob g.npc_stats].Nodup := by
  obtain ⟨hpart, hhead, hplaces, hinv, hlock, hchg, hbeen, henemy, hnpc⟩ := hg
  obtain ⟨v3, t3, hd3, _⟩ := first_key g.inventory "cabin_key" _ hinv
  obtain ⟨v4, t4, hd4, _⟩ := first_key g.lockeddoors "cabin_front_door" _ hlock
  obtain ⟨v5, t5, hd5, _⟩ := first_key g.changableobjects "lit_cabin_fireplace" _ hchg
  obtain ⟨v6, t6, hd6, _⟩ := first_key g.beento "grassy_field" _ hbeen
  obtain ⟨v7, t7, hd7, _⟩ := first_key g.enemiesalive "cavepart2_r1_imp" _ henemy
  obtain ⟨v8, t8, hd8, _⟩ := first_key g.npc_stats "health_cavepart2_r1_imp" _ hnpc
  obtain ⟨ps, hps⟩ : ∃ ps, g.placesdiscovered = "grassy_field" :: ps := by
    cases hpd : g.placesdiscovered with
    | nil => rw [hpd] at hhead; simp at hhead
    | cons P ps =>
      rw [hpd] at hhead
      simp only [List.head?_cons, Option.some.injEq] at hhead
      exact ⟨ps, by rw [hhead]⟩
  have ge2 : ∀ i, i < 14 →
      (placesBlob g).data.get? i = (' ' :: "grassy_field".data ++ [' ']).get? i :=
    fun i hi => placesBlob_get_front g _ ps hps i
      (lt_of_lt_of_eq hi (by decide : (14 : Nat) = "grassy_field".data.length + 2))
  have ge3 : ∀ i, i < 11 →
      (mapBlob g.inventory).data.get? i = (' ' :: "cabin_key".data ++ [':']).get? i :=
    fun i hi => by
      rw [hd3]
      exact mapBlob_get_front _ _ _ i
        (lt_of_lt_of_eq hi (by decide : (11 : Nat) = "cabin_key".data.length + 2))
  have ge4 : ∀ i, i < 18 →
      (mapBlob g.lockeddoors).data.get? i = (' ' :: "cabin_front_door".data ++ [':']).get? i :=
    fun i hi => by
      rw [hd4]
      exact mapBlob_get_front _ _ _ i
        (lt_of_lt_of_eq hi (by decide : (18 : Nat) = "cabin_front_door".data.length + 2))
  have ge5 : ∀ i, i < 21 →
      (mapBlob g.changableobjects).data.get? i =
        (' ' :: "lit_cabin_fireplace".data ++ [':']).get? i :=
    fun i hi => by
      rw [hd5]
      exact mapBlob_get_front _ _ _ i
        (lt_of_lt_of_eq hi (by decide : (21 : Nat) = "lit_cabin_fireplace".data.length + 2))
  have ge6 : ∀ i, i < 14 →
      (mapBlob g.beento).data.get? i = (' ' :: "grassy_field".data ++ [':']).get? i :=
    fun i hi => by
      rw [hd6]
      exact mapBlob_get_front _ _ _ i
        (lt_of_lt_of_eq hi (by decide : (14 : Nat) = "grassy_field".data.length + 2))
  have ge7 : ∀ i, i < 18 →
      (mapBlob g.enemiesalive).data.get? i = (' ' :: "cavepart2_r1_imp".data ++ [':']).get? i :=
    fun i hi => by
      rw [hd7]
      exact mapBlob_get_front _ _ _ i
        (lt_of_lt_of_eq hi (by decide : (18 : Nat) = "cavepart2_r1_imp".data.length + 2))
  have ge8 : ∀ i, i < 25 →
      (mapBlob g.npc_stats).data.get? i =
        (' ' :: "health_cavepart2_r1_imp".data ++ [':']).get? i :=
    fun i hi => by
      rw [hd8]
      exact mapBlob_get_front _ _ _ i
        (lt_of_lt_of_eq hi (by decide : (25 : Nat) = "health_cavepart2_r1_imp".data.length + 2))
  have ge2_1 : (placesBlob g).data.get? 1 = some 'g' := by rw [ge2 1 (by decide)]; decide
  have ge3_1 : (mapBlob g.inventory).data.get? 1 = some 'c' := by rw [ge3 1 (by decide)]; decide
  have ge4_1 : (mapBlob g.lockeddoors).data.get? 1 = some 'c' := by
    rw [ge4 1 (by decide)]; decide
  have ge5_1 : (mapBlob g.changableobjects).data.get? 1 = some 'l' := by
    rw [ge5 1 (by decide)]; decide
  have ge6_1 : (mapBlob g.beento).data.get? 1 = some 'g' := by rw [ge6 1 (by decide)]; decide
  have ge7_1 : (mapBlob g.enemiesalive).data.get? 1 = some 'c' := by
    rw [ge7 1 (by decide)]; decide
  have ge8_1 : (mapBlob g.npc_stats).data.get? 1 = some 'h' := by
    rw [ge8 1 (by decide)]; decide
  have ge0_0 : (settingsBlob g).data.get? 0 = some ' ' := by rw [settingsBlob_data]; rfl
  have ge2_0 : (placesBlob g).data.get? 0 = some ' ' := by rw [ge2 0 (by decide)]; decide
  have ge3_0 : (mapBlob g.inventory).data.get? 0 = some ' ' := by rw [ge3 0 (by decide)]; decide
  have ge4_0 : (mapBlob g.lockeddoors).data.get? 0 = some ' ' := by
    rw [ge4 0 (by decide)]; decide
  have ge5_0 : (mapBlob g.changableobjects).data.get? 0 = some ' ' := by
    rw [ge5 0 (by decide)]; decide
  have ge6_0 : (mapBlob g.beento).data.get? 0 = some ' ' := by rw [ge6 0 (by decide)]; decide
  have ge7_0 : (mapBlob g.enemiesalive).data.get? 0 = some ' ' := by
    rw [ge7 0 (by decide)]; decide
  have ge8_0 : (mapBlob g.npc_stats).data.get? 0 = some ' ' := by
    rw [ge8 0 (by decide)]; decide
  have h02 : settingsBlob g ≠ placesBlob g := settings_ne g _ 'g' ge2_1 (by decide) digCh_ne_g
  have h03 : settingsBlob g ≠ mapBlob g.inventory :=
    settings_ne g _ 'c' ge3_1 (by decide) digCh_ne_c
  have h04 : settingsBlob g ≠ mapBlob g.lockeddoors :=
    settings_ne g _ 'c' ge4_1 (by decide) digCh_ne_c
  have h05 : settingsBlob g ≠ mapBlob g.changableobjects :=
    settings_ne g _ 'l' ge5_1 (by decide) digCh_ne_l
  have h06 : settingsBlob g ≠ mapBlob g.beento := settings_ne g _ 'g' ge6_1 (by decide) digCh_ne_g
  have h07 : settingsBlob g ≠ mapBlob g.enemiesalive :=
    settings_ne g _ 'c' ge7_1 (by decide) digCh_ne_c
  have h08 : settingsBlob g ≠ mapBlob g.npc_stats :=
    settings_ne g _ 'h' ge8_1 (by decide) digCh_ne_h
  have h10 : g.part ≠ settingsBlob g := part_ne _ hpart _ ge0_0
  have h12 : g.part ≠ placesBlob g := part_ne _ hpart _ ge2_0
  have h13 : g.part ≠ mapBlob g.inventory := part_ne _ hpart _ ge3_0
  have h14 : g.part ≠ mapBlob g.lockeddoors := part_ne _ hpart _ ge4_0
  have h15 : g.part ≠ mapBlob g.changableobjects := part_ne _ hpart _ ge5_0
  have h16 : g.part ≠ mapBlob g.beento := part_ne _ hpart _ ge6_0
  have h17 : g.part ≠ mapBlob g.enemiesalive := part_ne _ hpart _ ge7_0
  have h18 : g.part ≠ mapBlob g.npc_stats := part_ne _ hpart _ ge8_0
  have h23 : placesBlob g ≠ mapBlob g.inventory :=
    str_ne_of_get _ _ 1 (by rw [ge2_1, ge3_1]; decide)
  have h24 : placesBlob g ≠ mapBlob g.lockeddoors :=
    str_ne_of_get _ _ 1 (by rw [ge2_1, ge4_1]; decide)
  have h25 : placesBlob g ≠ mapBlob g.changableobjects :=
    str_ne_of_get _ _ 1 (by rw [ge2_1, ge5_1]; decide)
  have h26 : placesBlob g ≠ mapBlob g.beento :=
    str_ne_of_get _ _ 13 (by rw [ge2 13 (by decide), ge6 13 (by decide)]; decide)
  have h27 : placesBlob g ≠ mapBlob g.enemiesalive :=
    str_ne_of_get _ _ 1 (by rw [ge2_1, ge7_1]; decide)
  have h28 : placesBlob g ≠ mapBlob g.npc_stats :=
    str_ne_of_get _ _ 1 (by rw [ge2_1, ge8_1]; decide)
  have h34 : mapBlob g.inventory ≠ mapBlob g.lockeddoors :=
    str_ne_of_get _ _ 7 (by rw [ge3 7 (by decide), ge4 7 (by decide)]; decide)
  have h35 : mapBlob g.inventory ≠ mapBlob g.changableobjects :=
    str_ne_of_get _ _ 1 (by rw [ge3_1, ge5_1]; decide)
  have h36 : mapBlob g.inventory ≠ mapBlob g.beento :=
    str_ne_of_get _ _ 1 (by rw [ge3_1, ge6_1]; decide)
  have h37 : mapBlob g.inventory ≠ mapBlob g.enemiesalive :=
    str_ne_of_get _ _ 3 (by rw [ge3 3 (by decide), ge7 3 (by decide)]; decide)
  have h38 : mapBlob g.inventory ≠ mapBlob g.npc_stats :=
    str_ne_of_get _ _ 1 (by rw [ge3_1, ge8_1]; decide)
  have h45 : mapBlob g.lockeddoors ≠ mapBlob g.changableobjects :=
    str_ne_of_get _ _ 1 (by rw [ge4_1, ge5_1]; decide)
  have h46 : mapBlob g.lockeddoors ≠ mapBlob g.beento :=
    str_ne_of_get _ _ 1 (by rw [ge4_1, ge6_1]; decide)
  have h47 : mapBlob g.lockeddoors ≠ mapBlob g.enemiesalive :=
    str_ne_of_get _ _ 3 (by rw [ge4 3 (by decide), ge7 3 (by decide)]; decide)
  have h48 : mapBlob g.lockeddoors ≠ mapBlob g.npc_stats :=
    str_ne_of_get _ _ 1 (by rw [ge4_1, ge8_1]; decide)
  have h56 : mapBlob g.changableobjects ≠ mapBlob g.beento :=
    str_ne_of_get _ _ 1 (by rw [ge5_1, ge6_1]; decide)
  have h57 : mapBlob g.changableobjects ≠ mapBlob g.enemiesalive :=
    str_ne_of_get _ _ 1 (by rw [ge5_1, ge7_1]; decide)
  have h58 : mapBlob g.changableobjects ≠ mapBlob g.npc_stats :=
    str_ne_of_get _ _ 1 (by rw [ge5_1, ge8_1]; decide)
  have h67 : mapBlob g.beento ≠ mapBlob g.enemiesalive :=
    str_ne_of_get _ _ 1 (by rw [ge6_1, ge7_1]; decide)
  have h68 : mapBlob g.beento ≠ mapBlob g.npc_stats :=
    str_ne_of_get _ _ 1 (by rw [ge6_1, ge8_1]; decide)
  have h78 : mapBlob g.enemiesalive ≠ mapBlob g.npc_stats :=
    str_ne_of_get _ _ 1 (by rw [ge7_1, ge8_1]; decide)
  simp only [List.nodup_cons, List.mem_cons, List.mem_singleton, List.not_mem_nil,
    or_false, not_or, List.nodup_nil, and_true]
  exact ⟨⟨h10.symm, h02, h03, h04, h05, h06, h07, h08⟩,
    ⟨h12, h13, h14, h15, h16, h17, h18⟩,
    ⟨h23, h24, h25, h26, h27, h28⟩,
    ⟨h34, h35, h36, h37, h38⟩,
    ⟨h45, h46, h47, h48⟩,
    ⟨h56, h57, h58⟩,
    ⟨h67, h68⟩, ⟨h78, not_false⟩⟩

/-! ### The saved string in entry normal form -/

def lbrace : Char := Char.ofNat 123

def rbrace : Char := Char.ofNat 125

theorem dataLB : ("\x7b" : String).data = [lbrace] := rfl

theorem dataRB : ("\x7d" : String).data = [rbrace] := rfl

theorem dataQuote : ("'" : String).data = [quoteCh] := rfl

theorem dataQcs : ("': " : String).data = [quoteCh, ':', ' '] := rfl

theorem dataComma : (", " : String).data = [',', ' '] := rfl

theorem toString_digit (n : Nat) (h : n < 10) : toString n = (⟨[digCh n]⟩ : String) := by
  interval_cases n <;> rfl

theorem jcs_data (b : String) (n : Nat) (t : List (String × Nat))
    (h : ∀ kv ∈ (b, n) :: t, kv.2 < 10) :
    (joinCommaSp (((b, n) :: t).map fun kv => "'" ++ kv.1 ++ "': " ++ toString kv.2)).data
    = entryStr b (digCh n) ++ entriesSep (t.map fun kv => (kv.1, digCh kv.2)) := by
  induction t generalizing b n with
  | nil =>
    show (joinCommaSp ["'" ++ b ++ "': " ++ toString n]).data = _
    rw [toString_digit n (h (b, n) (List.mem_cons_self _ _))]
    show ("'" ++ b ++ "': " ++ (⟨[digCh n]⟩ : String)).data = _
    simp only [String.data_append, dataQuote, dataQcs, entryStr, entriesSep,
      List.append_assoc, List.cons_append, List.nil_append, List.append_nil]
    rfl
  | cons kv2 t2 ih =>
    obtain ⟨b2, n2⟩ := kv2
    show ("'" ++ b ++ "': " ++ toString n ++ ", " ++
      joinCommaSp (((b2, n2) :: t2).map fun kv => "'" ++ kv.1 ++ "': " ++ toString kv.2)).data = _
    rw [toString_digit n (h (b, n) (List.mem_cons_self _ _))]
    have hih := ih b2 n2 (fun kv hkv => h kv (List.mem_cons_of_mem _ hkv))
    rw [String.data_append, hih]
    show (("'" ++ b ++ "': " ++ (⟨[digCh n]⟩ : String)).data ++ [',', ' ']) ++ _ = _
    simp only [String.data_append, dataQuote, dataQcs, entryStr, entriesSep, List.map_cons,
      List.append_assoc, List.cons_append, List.nil_append, List.append_nil]
    rfl

theorem savefileStr_data (g : Globals) (hg : GoodState g) :
    (savefileStr g).data =
    lbrace :: (entryStr (settingsBlob g) '0' ++
      (entriesSep [(g.part, '1'), (placesBlob g, '2'), (mapBlob g.inventory, '3'),
        (mapBlob g.lockeddoors, '4'), (mapBlob g.changableobjects, '5'),
        (mapBlob g.beento, '6'), (mapBlob g.enemiesalive, '7'),
        (mapBlob g.npc_stats, '8')] ++ [rbrace])) := by
  have hnd : (([(settingsBlob g, (0 : Nat)), (g.part, 1), (placesBlob g, 2),
      (mapBlob g.inventory, 3), (mapBlob g.lockeddoors, 4), (mapBlob g.changableobjects, 5),
      (mapBlob g.beento, 6), (mapBlob g.enemiesalive, 7),
      (mapBlob g.npc_stats, 8)]).map Prod.fst).Nodup := by
    simp only [List.map_cons, List.map_nil]
    exact savefile_keys_nodup g hg
  show (pyDictStr _).data = _
  unfold pyDictStr
  rw [pyDictPairs_id _ hnd]
  rw [String.data_append, String.data_append, dataLB, dataRB]
  rw [jcs_data (settingsBlob g) 0
    [(g.part, 1), (placesBlob g, 2), (mapBlob g.inventory, 3), (mapBlob g.lockeddoors, 4),
     (mapBlob g.changableobjects, 5), (mapBlob g.beento, 6), (mapBlob g.enemiesalive, 7),
     (mapBlob g.npc_stats, 8)]
    (by simp)]
  simp only [List.map_cons, List.map_nil]
  show [lbrace] ++ (entryStr (settingsBlob g) (digCh 0) ++
    entriesSep [(g.part, digCh 1), (placesBlob g, digCh 2), (mapBlob g.inventory, digCh 3),
      (mapBlob g.lockeddoors, digCh 4), (mapBlob g.changableobjects, digCh 5),
      (mapBlob g.beento, digCh 6), (mapBlob g.enemiesalive, digCh 7),
      (mapBlob g.npc_stats, digCh 8)]) ++ [rbrace] = _
  rw [show digCh 0 = (Char.ofNat 48) from rfl]
  simp only [List.append_assoc, List.cons_append, List.nil_append]
  rfl

/-! ### Where the `': k` markers sit in the saved string -/

theorem entriesSep_length_cons (b : String) (c : Char) (t : List (String × Char)) :
    (entriesSep ((b, c) :: t)).length = b.data.length + 7 + (entriesSep t).length := by
  show (',' :: ' ' :: entryStr b c ++ entriesSep t).length = _
  simp [entryStr_length]
  omega

theorem lFind_marker0 (b0 : String) (hb0 : scanKey b0) (rest : List Char) :
    lFind (lbrace :: (entryStr b0 '0' ++ rest)) (quoteCh :: ':' :: ' ' :: ['0']) =
    ((b0.data.length + 2 : Nat) : Int) := by
  unfold lFind
  rw [pfGo_step _ _ _ _ (isPrefixOf_cons_ne quoteCh _ lbrace _ (by decide)),
      pfGo_entry_match b0 '0' hb0 rest 1]
  congr 1
  omega

theorem lFind_marker (b0 : String) (hb0 : scanKey b0) (d : Char) (hd : (d == '0') = false)
    (l1 : List (String × Char)) (b : String) (l2 : List (String × Char))
    (hl1 : scanList d l1) (hb : scanKey b) (rest : List Char) :
    lFind (lbrace :: (entryStr b0 '0' ++ (entriesSep (l1 ++ (b, d) :: l2) ++ rest)))
      (quoteCh :: ':' :: ' ' :: [d]) =
    ((b0.data.length + 6 + (entriesSep l1).length + 3 + b.data.length : Nat) : Int) := by
  unfold lFind
  rw [pfGo_step _ _ _ _ (isPrefixOf_cons_ne quoteCh _ lbrace _ (by decide)),
      pfGo_entry_skip b0 '0' d hb0 hd (by decide),
      pfGo_entriesSep_match d l1 b l2 hl1 hb rest]
  congr 1
  omega

/-! ### The bracket check on the saved string -/

theorem lSlice_last (l : List Char) (c : Char) :
    lSlice (l ++ [c]) (-1) (((l.length + 1 : Nat) : Int)) = [c] := by
  unfold lSlice pyIdx
  rw [if_pos (by omega), if_neg (by omega)]
  simp only [List.length_append, List.length_cons, List.length_nil]
  have ha : ((((l.length + 1 : Nat) : Int)) + (-1)).toNat = l.length := by omega
  have hb : min ((l.length + 1 : Nat) : Int).toNat (l.length + (0 + 1)) = l.length + 1 := by
    omega
  rw [ha, hb]
  rw [show l.length + 1 - l.length = 1 by omega]
  rw [List.drop_left]
  rfl

theorem pySliceFrom_last (S : String) (l : List Char) (c : Char) (h : S.data = l ++ [c]) :
    pySliceFrom S (-1) = (⟨[c]⟩ : String) := by
  unfold pySliceFrom pySlice
  rw [show (S.data.length : Int) = ((l.length + 1 : Nat) : Int) by rw [h]; simp]
  rw [h, lSlice_last]

theorem pySlice_first (S : String) (c : Char) (rest : List Char) (h : S.data = c :: rest) :
    pySlice S 0 1 = (⟨[c]⟩ : String) :=
  pySlice_seg S [] [c] rest (by rw [h]; rfl) 0 1 (by simp) (by simp)

/-! ### Evaluating the load stages on a saved string -/

theorem intStr_all_no_colon (v : Int) :
    ((intStr v).data.all fun c => !(c == ':')) = true :=
  List.all_eq_true.mpr fun c hc => by
    rw [Bool.not_eq_true']
    exact intStr_no_colon v c hc

theorem goodStr_token (p : String) (h : goodStr p = true) :
    p.data ≠ [] ∧ (p.data.all fun c => !(isWs c)) = true := by
  unfold goodStr at h
  simp only [Bool.and_eq_true, Bool.not_eq_true'] at h
  constructor
  · intro hc
    rw [hc] at h
    simp at h
  · refine List.all_eq_true.mpr fun c hc => ?_
    rw [Bool.not_eq_true']
    exact goodCh_not_ws c (List.all_eq_true.mp h.2 c hc)

theorem dataM0 : ("': 0" : String).data = quoteCh :: ':' :: ' ' :: ['0'] := rfl

theorem dataM1 : ("': 1" : String).data = quoteCh :: ':' :: ' ' :: ['1'] := rfl

theorem dataM2 : ("': 2" : String).data = quoteCh :: ':' :: ' ' :: ['2'] := rfl

theorem dataM3 : ("': 3" : String).data = quoteCh :: ':' :: ' ' :: ['3'] := rfl

theorem dataM4 : ("': 4" : String).data = quoteCh :: ':' :: ' ' :: ['4'] := rfl

theorem dataM5 : ("': 5" : String).data = quoteCh :: ':' :: ' ' :: ['5'] := rfl

theorem dataM6 : ("': 6" : String).data = quoteCh :: ':' :: ' ' :: ['6'] := rfl

theorem dataM7 : ("': 7" : String).data = quoteCh :: ':' :: ' ' :: ['7'] := rfl

theorem dataM8 : ("': 8" : String).data = quoteCh :: ':' :: ' ' :: ['8'] := rfl

theorem scanKeys_all (g : Globals) (hg : GoodState g) :
    scanKey (settingsBlob g) ∧ scanKey g.part ∧ scanKey (placesBlob g) ∧
    scanKey (mapBlob g.inventory) ∧ scanKey (mapBlob g.lockeddoors) ∧
    scanKey (mapBlob g.changableobjects) ∧ scanKey (mapBlob g.beento) ∧
    scanKey (mapBlob g.enemiesalive) ∧ scanKey (mapBlob g.npc_stats) := by
  obtain ⟨hpart, hhead, hplaces, hinv, hlock, hchg, hbeen, henemy, hnpc⟩ := hg
  exact ⟨scanKey_settingsBlob g, scanKey_part _ hpart, scanKey_placesBlob g hplaces,
    scanKey_mapBlob _ (keys_good_of_map _ _ hinv invKeys_good),
    scanKey_mapBlob _ (keys_good_of_map _ _ hlock lockKeys_good),
    scanKey_mapBlob _ (keys_good_of_map _ _ hchg chgKeys_good),
    scanKey_mapBlob _ (keys_good_of_map _ _ hbeen beenKeys_good),
    scanKey_mapBlob _ (keys_good_of_map _ _ henemy enemyKeys_good),
    scanKey_mapBlob _ (keys_good_of_map _ _ hnpc npcKeys_good)⟩

theorem findA0 (g : Globals) (hg : GoodState g) :
    pyFind (savefileStr g) "': 0" = (((settingsBlob g).data.length + 2 : Nat) : Int) := by
  show lFind (savefileStr g).data ("': 0" : String).data = _
  rw [savefileStr_data g hg, dataM0]
  exact lFind_marker0 _ (scanKey_settingsBlob g) _

theorem findA1 (g : Globals) (hg : GoodState g) :
    pyFind (savefileStr g) "': 1" =
    (((settingsBlob g).data.length + g.part.data.length + 9 : Nat) : Int) := by
  obtain ⟨hk0, hk1, hk2, hk3, hk4, hk5, hk6, hk7, hk8⟩ := scanKeys_all g hg
  show lFind (savefileStr g).data ("': 1" : String).data = _
  rw [savefileStr_data g hg, dataM1]
  rw [show [(g.part, '1'), (placesBlob g, '2'), (mapBlob g.inventory, '3'),
      (mapBlob g.lockeddoors, '4'), (mapBlob g.changableobjects, '5'),
      (mapBlob g.beento, '6'), (mapBlob g.enemiesalive, '7'), (mapBlob g.npc_stats, '8')] =
    [] ++ (g.part, '1') ::
      [(placesBlob g, '2'), (mapBlob g.inventory, '3'), (mapBlob g.lockeddoors, '4'),
       (mapBlob g.changableobjects, '5'), (mapBlob g.beento, '6'),
       (mapBlob g.enemiesalive, '7'), (mapBlob g.npc_stats, '8')] from rfl]
  rw [lFind_marker _ hk0 '1' (by decide) _ _ _ (by intro bc hbc; simp at hbc) hk1]
  congr 1
  simp only [show entriesSep ([] : List (String × Char)) = [] from rfl, List.length_nil]
  omega

theorem findA2 (g : Globals) (hg : GoodState g) :
    pyFind (savefileStr g) "': 2" =
    (((settingsBlob g).data.length + g.part.data.length + (placesBlob g).data.length +
      16 : Nat) : Int) := by
  obtain ⟨hk0, hk1, hk2, hk3, hk4, hk5, hk6, hk7, hk8⟩ := scanKeys_all g hg
  show lFind (savefileStr g).data ("': 2" : String).data = _
  rw [savefileStr_data g hg, dataM2]
  rw [show [(g.part, '1'), (placesBlob g, '2'), (mapBlob g.inventory, '3'),
      (mapBlob g.lockeddoors, '4'), (mapBlob g.changableobjects, '5'),
      (mapBlob g.beento, '6'), (mapBlob g.enemiesalive, '7'), (mapBlob g.npc_stats, '8')] =
    [(g.part, '1')] ++ (placesBlob g, '2') ::
      [(mapBlob g.inventory, '3'), (mapBlob g.lockeddoors, '4'),
       (mapBlob g.changableobjects, '5'), (mapBlob g.beento, '6'),
       (mapBlob g.enemiesalive, '7'), (mapBlob g.npc_stats, '8')] from rfl]
  rw [lFind_marker _ hk0 '2' (by decide) _ _ _
    (by
      intro bc hbc
      simp only [List.mem_singleton] at hbc
      rw [hbc]
      exact ⟨hk1, rfl, rfl⟩) hk2]
  congr 1
  simp only [entriesSep_length_cons,
    show entriesSep ([] : List (String × Char)) = [] from rfl, List.length_nil]
  omega

theorem findA3 (g : Globals) (hg : GoodState g) :
    pyFind (savefileStr g) "': 3" =
    (((settingsBlob g).data.length + g.part.data.length + (placesBlob g).data.length +
      (mapBlob g.inventory).data.length + 23 : Nat) : Int) := by
  obtain ⟨hk0, hk1, hk2, hk3, hk4, hk5, hk6, hk7, hk8⟩ := scanKeys_all g hg
  show lFind (savefileStr g).data ("': 3" : String).data = _
  rw [savefileStr_data g hg, dataM3]
  rw [show [(g.part, '1'), (placesBlob g, '2'), (mapBlob g.inventory, '3'),
      (mapBlob g.lockeddoors, '4'), (mapBlob g.changableobjects, '5'),
      (mapBlob g.beento, '6'), (mapBlob g.enemiesalive, '7'), (mapBlob g.npc_stats, '8')] =
    [(g.part, '1'), (placesBlob g, '2')] ++ (mapBlob g.inventory, '3') ::
      [(mapBlob g.lockeddoors, '4'), (mapBlob g.changableobjects, '5'),
       (mapBlob g.beento, '6'), (mapBlob g.enemiesalive, '7'),
       (mapBlob g.npc_stats, '8')] from rfl]
  rw [lFind_marker _ hk0 '3' (by decide) _ _ _
    (by
      intro bc hbc
      simp only [List.mem_cons, List.mem_singleton, List.not_mem_nil, or_false] at hbc
      rcases hbc with rfl | rfl
      · exact ⟨hk1, rfl, rfl⟩
      · exact ⟨hk2, rfl, rfl⟩) hk3]
  congr 1
  simp only [entriesSep_length_cons,
    show entriesSep ([] : List (String × Char)) = [] from rfl, List.length_nil]
  omega

theorem findA4 (g : Globals) (hg : GoodState g) :
    pyFind (savefileStr g) "': 4" =
    (((settingsBlob g).data.length + g.part.data.length + (placesBlob g).data.length +
      (mapBlob g.inventory).data.length + (mapBlob g.lockeddoors).data.length +
      30 : Nat) : Int) := by
  obtain ⟨hk0, hk1, hk2, hk3, hk4, hk5, hk6, hk7, hk8⟩ := scanKeys_all g hg
  show lFind (savefileStr g).data ("': 4" : String).data = _
  rw [savefileStr_data g hg, dataM4]
  rw [show [(g.part, '1'), (placesBlob g, '2'), (mapBlob g.inventory, '3'),
      (mapBlob g.lockeddoors, '4'), (mapBlob g.changableobjects, '5'),
      (mapBlob g.beento, '6'), (mapBlob g.enemiesalive, '7'), (mapBlob g.npc_stats, '8')] =
    [(g.part, '1'), (placesBlob g, '2'), (mapBlob g.inventory, '3')] ++
      (mapBlob g.lockeddoors, '4') ::
      [(mapBlob g.changableobjects, '5'), (mapBlob g.beento, '6'),
       (mapBlob g.enemiesalive, '7'), (mapBlob g.npc_stats, '8')] from rfl]
  rw [lFind_marker _ hk0 '4' (by decide) _ _ _
    (by
      intro bc hbc
      simp only [List.mem_cons, List.mem_singleton, List.not_mem_nil, or_false] at hbc
      rcases hbc with rfl | rfl | rfl
      · exact ⟨hk1, rfl, rfl⟩
      · exact ⟨hk2, rfl, rfl⟩
      · exact ⟨hk3, rfl, rfl⟩) hk4]
  congr 1
  simp only [entriesSep_length_cons,
    show entriesSep ([] : List (String × Char)) = [] from rfl, List.length_nil]
  omega

theorem findA5 (g : Globals) (hg : GoodState g) :
    pyFind (savefileStr g) "': 5" =
    (((settingsBlob g).data.length + g.part.data.length + (placesBlob g).data.length +
      (mapBlob g.inventory).data.length + (mapBlob g.lockeddoors).data.length +
      (mapBlob g.changableobjects).data.length + 37 : Nat) : Int) := by
  obtain ⟨hk0, hk1, hk2, hk3, hk4, hk5, hk6, hk7, hk8⟩ := scanKeys_all g hg
  show lFind (savefileStr g).data ("': 5" : String).data = _
  rw [savefileStr_data g hg, dataM5]
  rw [show [(g.part, '1'), (placesBlob g, '2'), (mapBlob g.inventory, '3'),
      (mapBlob g.lockeddoors, '4'), (mapBlob g.changableobjects, '5'),
      (mapBlob g.beento, '6'), (mapBlob g.enemiesalive, '7'), (mapBlob g.npc_stats, '8')] =
    [(g.part, '1'), (placesBlob g, '2'), (mapBlob g.inventory, '3'),
     (mapBlob g.lockeddoors, '4')] ++ (mapBlob g.changableobjects, '5') ::
      [(mapBlob g.beento, '6'), (mapBlob g.enemiesalive, '7'),
       (mapBlob g.npc_stats, '8')] from rfl]
  rw [lFind_marker _ hk0 '5' (by decide) _ _ _
    (by
      intro bc hbc
      simp only [List.mem_cons, List.mem_singleton, List.not_mem_nil, or_false] at hbc
      rcases hbc with rfl | rfl | rfl | rfl
      · exact ⟨hk1, rfl, rfl⟩
      · exact ⟨hk2, rfl, rfl⟩
      · exact ⟨hk3, rfl, rfl⟩
      · exact ⟨hk4, rfl, rfl⟩) hk5]
  congr 1
  simp only [entriesSep_length_cons,
    show entriesSep ([] : List (String × Char)) = [] from rfl, List.length_nil]
  omega

theorem findA6 (g : Globals) (hg : GoodState g) :
    pyFind (savefileStr g) "': 6" =
    (((settingsBlob g).data.length + g.part.data.length + (placesBlob g).data.length +
      (mapBlob g.inventory).data.length + (mapBlob g.lockeddoors).data.length +
      (mapBlob g.changableobjects).data.length + (mapBlob g.beento).data.length +
      44 : Nat) : Int) := by
  obtain ⟨hk0, hk1, hk2, hk3, hk4, hk5, hk6, hk7, hk8⟩ := scanKeys_all g hg
  show lFind (savefileStr g).data ("': 6" : String).data = _
  rw [savefileStr_data g hg, dataM6]
  rw [show [(g.part, '1'), (placesBlob g, '2'), (mapBlob g.inventory, '3'),
      (mapBlob g.lockeddoors, '4'), (mapBlob g.changableobjects, '5'),
      (mapBlob g.beento, '6'), (mapBlob g.enemiesalive, '7'), (mapBlob g.npc_stats, '8')] =
    [(g.part, '1'), (placesBlob g, '2'), (mapBlob g.inventory, '3'),
     (mapBlob g.lockeddoors, '4'), (mapBlob g.changableobjects, '5')] ++
      (mapBlob g.beento, '6') ::
      [(mapBlob g.enemiesalive, '7'), (mapBlob g.npc_stats, '8')] from rfl]
  rw [lFind_marker _ hk0 '6' (by decide) _ _ _
    (by
      intro bc hbc
      simp only [List.mem_cons, List.mem_singleton, List.not_mem_nil, or_false] at hbc
      rcases hbc with rfl | rfl | rfl | rfl | rfl
      · exact ⟨hk1, rfl, rfl⟩
      · exact ⟨hk2, rfl, rfl⟩
      · exact ⟨hk3, rfl, rfl⟩
      · exact ⟨hk4, rfl, rfl⟩
      · exact ⟨hk5, rfl, rfl⟩) hk6]
  congr 1
  simp only [entriesSep_length_cons,
    show entriesSep ([] : List (String × Char)) = [] from rfl, List.length_nil]
  omega

theorem findA7 (g : Globals) (hg : GoodState g) :
    pyFind (savefileStr g) "': 7" =
    (((settingsBlob g).data.length + g.part.data.length + (placesBlob g).data.length +
      (mapBlob g.inventory).data.length + (mapBlob g.lockeddoors).data.length +
      (mapBlob g.changableobjects).data.length + (mapBlob g.beento).data.length +
      (mapBlob g.enemiesalive).data.length + 51 : Nat) : Int) := by
  obtain ⟨hk0, hk1, hk2, hk3, hk4, hk5, hk6, hk7, hk8⟩ := scanKeys_all g hg
  show lFind (savefileStr g).data ("': 7" : String).data = _
  rw [savefileStr_data g hg, dataM7]
  rw [show [(g.part, '1'), (placesBlob g, '2'), (mapBlob g.inventory, '3'),
      (mapBlob g.lockeddoors, '4'), (mapBlob g.changableobjects, '5'),
      (mapBlob g.beento, '6'), (mapBlob g.enemiesalive, '7'), (mapBlob g.npc_stats, '8')] =
    [(g.part, '1'), (placesBlob g, '2'), (mapBlob g.inventory, '3'),
     (mapBlob g.lockeddoors, '4'), (mapBlob g.changableobjects, '5'),
     (mapBlob g.beento, '6')] ++ (mapBlob g.enemiesalive, '7') ::
      [(mapBlob g.npc_stats, '8')] from rfl]
  rw [lFind_marker _ hk0 '7' (by decide) _ _ _
    (by
      intro bc hbc
      simp only [List.mem_cons, List.mem_singleton, List.not_mem_nil, or_false] at hbc
      rcases hbc with rfl | rfl | rfl | rfl | rfl | rfl
      · exact ⟨hk1, rfl, rfl⟩
      · exact ⟨hk2, rfl, rfl⟩
      · exact ⟨hk3, rfl, rfl⟩
      · exact ⟨hk4, rfl, rfl⟩
      · exact ⟨hk5, rfl, rfl⟩
      · exact ⟨hk6, rfl, rfl⟩) hk7]
  congr 1
  simp only [entriesSep_length_cons,
    show entriesSep ([] : List (String × Char)) = [] from rfl, List.length_nil]
  omega

theorem findA8 (g : Globals) (hg : GoodState g) :
    pyFind (savefileStr g) "': 8" =
    (((settingsBlob g).data.length + g.part.data.length + (placesBlob g).data.length +
      (mapBlob g.inventory).data.length + (mapBlob g.lockeddoors).data.length +
      (mapBlob g.changableobjects).data.length + (mapBlob g.beento).data.length +
      (mapBlob g.enemiesalive).data.length + (mapBlob g.npc_stats).data.length +
      58 : Nat) : Int) := by
  obtain ⟨hk0, hk1, hk2, hk3, hk4, hk5, hk6, hk7, hk8⟩ := scanKeys_all g hg
  show lFind (savefileStr g).data ("': 8" : String).data = _
  rw [savefileStr_data g hg, dataM8]
  rw [show [(g.part, '1'), (placesBlob g, '2'), (mapBlob g.inventory, '3'),
      (mapBlob g.lockeddoors, '4'), (mapBlob g.changableobjects, '5'),
      (mapBlob g.beento, '6'), (mapBlob g.enemiesalive, '7'), (mapBlob g.npc_stats, '8')] =
    [(g.part, '1'), (placesBlob g, '2'), (mapBlob g.inventory, '3'),
     (mapBlob g.lockeddoors, '4'), (mapBlob g.changableobjects, '5'),
     (mapBlob g.beento, '6'), (mapBlob g.enemiesalive, '7')] ++
      (mapBlob g.npc_stats, '8') :: [] from rfl]
  rw [lFind_marker _ hk0 '8' (by decide) _ _ _
    (by
      intro bc hbc
      simp only [List.mem_cons, List.mem_singleton, List.not_mem_nil, or_false] at hbc
      rcases hbc with rfl | rfl | rfl | rfl | rfl | rfl | rfl
      · exact ⟨hk1, rfl, rfl⟩
      · exact ⟨hk2, rfl, rfl⟩
      · exact ⟨hk3, rfl, rfl⟩
      · exact ⟨hk4, rfl, rfl⟩
      · exact ⟨hk5, rfl, rfl⟩
      · exact ⟨hk6, rfl, rfl⟩
      · exact ⟨hk7, rfl, rfl⟩) hk8]
  congr 1
  simp only [entriesSep_length_cons,
    show entriesSep ([] : List (String × Char)) = [] from rfl, List.length_nil]
  omega

theorem loadPart_eval (g : Globals) (hg : GoodState g) :
    loadPart (savefileStr g) = g.part := by
  have hS := savefileStr_data g hg
  unfold loadPart
  rw [findA0 g hg, findA1 g hg]
  have hx : (savefileStr g).data =
      (lbrace :: (entryStr (settingsBlob g) '0' ++ [',', ' ', quoteCh])) ++
      (g.part.data ++ (quoteCh :: ':' :: ' ' :: '1' ::
        (entriesSep [(placesBlob g, '2'), (mapBlob g.inventory, '3'),
          (mapBlob g.lockeddoors, '4'), (mapBlob g.changableobjects, '5'),
          (mapBlob g.beento, '6'), (mapBlob g.enemiesalive, '7'),
          (mapBlob g.npc_stats, '8')] ++ [rbrace]))) := by
    rw [hS,
      show entriesSep [(g.part, '1'), (placesBlob g, '2'), (mapBlob g.inventory, '3'),
          (mapBlob g.lockeddoors, '4'), (mapBlob g.changableobjects, '5'),
          (mapBlob g.beento, '6'), (mapBlob g.enemiesalive, '7'),
          (mapBlob g.npc_stats, '8')] =
        ',' :: ' ' :: entryStr g.part '1' ++
          entriesSep [(placesBlob g, '2'), (mapBlob g.inventory, '3'),
            (mapBlob g.lockeddoors, '4'), (mapBlob g.changableobjects, '5'),
            (mapBlob g.beento, '6'), (mapBlob g.enemiesalive, '7'),
            (mapBlob g.npc_stats, '8')] from rfl,
      show entryStr g.part '1' =
        quoteCh :: (g.part.data ++ (quoteCh :: ':' :: ' ' :: ['1'])) from rfl]
    simp only [List.append_assoc, List.cons_append, List.nil_append]
  rw [(pySlice_seg _ _ _ _ hx _ _
    (by
      simp only [List.length_cons, List.length_append, List.length_nil, entryStr_length]
      omega)
    (by
      simp only [List.length_cons, List.length_append, List.length_nil, entryStr_length]
      omega)), str_mk_data]

theorem loadPlaces_eval (g : Globals) (hg : GoodState g) :
    loadPlaces (savefileStr g) g.placesdiscovered = g.placesdiscovered := by
  have hS := savefileStr_data g hg
  have hplaces := hg.2.2.1
  have hpl : (placesBlob g).data = ' ' :: (prend g.placesdiscovered).data := by
    rw [placesBlob_eq]
    show (" " ++ prend g.placesdiscovered).data = _
    rw [String.data_append, dataSp]
    rfl
  have hn : (placesBlob g).data.length = (prend g.placesdiscovered).data.length + 1 := by
    rw [hpl]
    rfl
  unfold loadPlaces
  rw [findA1 g hg, findA2 g hg]
  have hx : (savefileStr g).data =
      (lbrace :: (entryStr (settingsBlob g) '0' ++ (',' :: ' ' ::
        (entryStr g.part '1' ++ [',', ' ', quoteCh, ' '])))) ++
      ((prend g.placesdiscovered).data ++ (quoteCh :: ':' :: ' ' :: '2' ::
        (entriesSep [(mapBlob g.inventory, '3'),
          (mapBlob g.lockeddoors, '4'), (mapBlob g.changableobjects, '5'),
          (mapBlob g.beento, '6'), (mapBlob g.enemiesalive, '7'),
          (mapBlob g.npc_stats, '8')] ++ [rbrace]))) := by
    rw [hS,
      show entriesSep [(g.part, '1'), (placesBlob g, '2'), (mapBlob g.inventory, '3'),
          (mapBlob g.lockeddoors, '4'), (mapBlob g.changableobjects, '5'),
          (mapBlob g.beento, '6'), (mapBlob g.enemiesalive, '7'),
          (mapBlob g.npc_stats, '8')] =
        ',' :: ' ' :: entryStr g.part '1' ++
          entriesSep [(placesBlob g, '2'), (mapBlob g.inventory, '3'),
            (mapBlob g.lockeddoors, '4'), (mapBlob g.changableobjects, '5'),
            (mapBlob g.beento, '6'), (mapBlob g.enemiesalive, '7'),
            (mapBlob g.npc_stats, '8')] from rfl,
      show entriesSep [(placesBlob g, '2'), (mapBlob g.inventory, '3'),
          (mapBlob g.lockeddoors, '4'), (mapBlob g.changableobjects, '5'),
          (mapBlob g.beento, '6'), (mapBlob g.enemiesalive, '7'),
          (mapBlob g.npc_stats, '8')] =
        ',' :: ' ' :: entryStr (placesBlob g) '2' ++
          entriesSep [(mapBlob g.inventory, '3'),
            (mapBlob g.lockeddoors, '4'), (mapBlob g.changableobjects, '5'),
            (mapBlob g.beento, '6'), (mapBlob g.enemiesalive, '7'),
            (mapBlob g.npc_stats, '8')] from rfl,
      show entryStr (placesBlob g) '2' =
        quoteCh :: ((placesBlob g).data ++ (quoteCh :: ':' :: ' ' :: ['2'])) from rfl,
      hpl]
    simp only [List.append_assoc, List.cons_append, List.nil_append]
  rw [(pySlice_seg _ _ _ _ hx _ _
    (by
      simp only [List.length_cons, List.length_append, List.length_nil, entryStr_length]
      omega)
    (by
      simp only [List.length_cons, List.length_append, List.length_nil, entryStr_length]
      omega)), str_mk_data]
  rw [pySplit_prend _ (fun p hp => goodStr_token p (hplaces p hp))]
  exact foldl_setAdd_mem _ _ (fun p hp => hp)

theorem loadSettings_eval (g : Globals) (hg : GoodState g) :
    loadSettings (savefileStr g) = Except.ok (g.paratype, g.developermode) := by
  have hS := savefileStr_data g hg
  have hn0 : (settingsBlob g).data.length =
      ((intStr g.paratype).data ++ (':' :: '1' :: ' ' ::
        ((intStr g.developermode).data ++ [':', '2', ' ']))).length + 1 := by
    rw [settingsBlob_data]
    rfl
  unfold loadSettings
  rw [findA0 g hg]
  have hx0 : (savefileStr g).data =
      (lbrace :: quoteCh :: [' ']) ++
      (((intStr g.paratype).data ++ (':' :: '1' :: ' ' ::
        ((intStr g.developermode).data ++ [':', '2', ' ']))) ++
       (quoteCh :: ':' :: ' ' :: '0' ::
        (entriesSep [(g.part, '1'), (placesBlob g, '2'), (mapBlob g.inventory, '3'),
          (mapBlob g.lockeddoors, '4'), (mapBlob g.changableobjects, '5'),
          (mapBlob g.beento, '6'), (mapBlob g.enemiesalive, '7'),
          (mapBlob g.npc_stats, '8')] ++ [rbrace]))) := by
    rw [hS,
      show entryStr (settingsBlob g) '0' =
        quoteCh :: ((settingsBlob g).data ++ (quoteCh :: ':' :: ' ' :: ['0'])) from rfl,
      settingsBlob_data]
    simp only [List.append_assoc, List.cons_append, List.nil_append]
  have hsl : pySlice (savefileStr g) 3 (((settingsBlob g).data.length + 2 : Nat) : Int) =
      (⟨(intStr g.paratype).data ++ (':' :: '1' :: ' ' ::
        ((intStr g.developermode).data ++ [':', '2', ' ']))⟩ : String) :=
    pySlice_seg _ _ _ _ hx0 _ _ (by simp)
      (by
        simp only [List.length_cons, List.length_nil]
        omega)
  rw [hsl]
  have hf1 : pyFind (⟨(intStr g.paratype).data ++ (':' :: '1' :: ' ' ::
      ((intStr g.developermode).data ++ [':', '2', ' ']))⟩ : String) ":1 " =
      (((intStr g.paratype).data.length : Nat) : Int) := by
    show lFind ((intStr g.paratype).data ++ (':' :: '1' :: ' ' ::
      ((intStr g.developermode).data ++ [':', '2', ' ']))) [':', '1', ' '] = _
    unfold lFind
    rw [pfGo_skip_run ':' ['1', ' '] _ (intStr_all_no_colon g.paratype)]
    rw [pfGo_here _ _ _ (by simp [List.isPrefixOf_cons₂, List.isPrefixOf])]
    omega
  rw [hf1]
  have hf2 : pyFind (⟨(intStr g.paratype).data ++ (':' :: '1' :: ' ' ::
      ((intStr g.developermode).data ++ [':', '2', ' ']))⟩ : String) ":2 " =
      (((intStr g.paratype).data.length + 3 + (intStr g.developermode).data.length : Nat) :
        Int) := by
    show lFind ((intStr g.paratype).data ++ (':' :: '1' :: ' ' ::
      ((intStr g.developermode).data ++ [':', '2', ' ']))) [':', '2', ' '] = _
    unfold lFind
    rw [pfGo_skip_run ':' ['2', ' '] (intStr g.paratype).data (intStr_all_no_colon g.paratype)]
    rw [pfGo_step [':', '2', ' '] ':'
      ('1' :: ' ' :: ((intStr g.developermode).data ++ [':', '2', ' '])) _ (by
      simp only [List.isPrefixOf_cons₂, beq_self_eq_true, Bool.true_and]
      exact isPrefixOf_cons_ne '2' [' '] '1'
        (' ' :: ((intStr g.developermode).data ++ [':', '2', ' '])) (by decide))]
    rw [show ('1' :: ' ' :: ((intStr g.developermode).data ++ [':', '2', ' '])) =
      (('1' :: ' ' :: (intStr g.developermode).data) ++ [':', '2', ' ']) from rfl]
    rw [pfGo_skip_run ':' ['2', ' '] ('1' :: ' ' :: (intStr g.developermode).data) (by
      simp only [List.all_cons, Bool.and_eq_true]
      exact ⟨by decide, by decide, intStr_all_no_colon g.developermode⟩)]
    rw [pfGo_here [':', '2', ' '] [':', '2', ' '] _ (by decide)]
    simp only [List.length_cons]
    omega
  rw [hf2]
  have hpa : pySlice (⟨(intStr g.paratype).data ++ (':' :: '1' :: ' ' ::
      ((intStr g.developermode).data ++ [':', '2', ' ']))⟩ : String) 0
      (((intStr g.paratype).data.length : Nat) : Int) = intStr g.paratype :=
    (pySlice_seg _ [] (intStr g.paratype).data _ rfl _ _ (by simp) (by simp)).trans
      (str_mk_data _)
  rw [hpa, pyInt_intStr g.paratype]
  have hdev : pySlice (⟨(intStr g.paratype).data ++ (':' :: '1' :: ' ' ::
      ((intStr g.developermode).data ++ [':', '2', ' ']))⟩ : String)
      ((((intStr g.paratype).data.length : Nat) : Int) + 3)
      (((intStr g.paratype).data.length + 3 + (intStr g.developermode).data.length : Nat) :
        Int) = intStr g.developermode :=
    (pySlice_seg _ ((intStr g.paratype).data ++ [':', '1', ' '])
      (intStr g.developermode).data [':', '2', ' ']
      (by simp only [List.append_assoc, List.cons_append, List.nil_append])
      _ _
      (by
        simp only [List.length_append, List.length_cons, List.length_nil]
        try omega)
      (by
        simp only [List.length_append, List.length_cons, List.length_nil]
        try omega)).trans (str_mk_data _)
  rw [hdev, pyInt_intStr g.developermode]
  simp only [Bind.bind, Except.bind]
  rfl


theorem loadInv_eval (g : Globals) (hg : GoodState g) :
    loadMapSeg (savefileStr g) "': 2" "': 3" = Except.ok g.inventory := by
  have hS := savefileStr_data g hg
  obtain ⟨hpart, hhead, hplaces, hinv, hlock, hchg, hbeen, henemy, hnpc⟩ := hg
  have hmb : (mapBlob g.inventory).data = ' ' :: (mrend g.inventory).data := by
    rw [mapBlob_eq]
    show (" " ++ mrend g.inventory).data = _
    rw [String.data_append, dataSp]
    rfl
  have hn : (mapBlob g.inventory).data.length = (mrend g.inventory).data.length + 1 := by
    rw [hmb]
    rfl
  unfold loadMapSeg
  rw [findA2 g ⟨hpart, hhead, hplaces, hinv, hlock, hchg, hbeen, henemy, hnpc⟩,
      findA3 g ⟨hpart, hhead, hplaces, hinv, hlock, hchg, hbeen, henemy, hnpc⟩]
  have hx : (savefileStr g).data =
      (lbrace :: (entryStr (settingsBlob g) '0' ++ (',' :: ' ' :: (entryStr (g.part) '1' ++ (',' :: ' ' :: (entryStr (placesBlob g) '2' ++ [',', ' ', quoteCh, ' '])))))) ++
      ((mrend g.inventory).data ++ (quoteCh :: ':' :: ' ' :: '3' :: (entriesSep [(mapBlob g.lockeddoors, '4'), (mapBlob g.changableobjects, '5'), (mapBlob g.beento, '6'), (mapBlob g.enemiesalive, '7'), (mapBlob g.npc_stats, '8')] ++ [rbrace]))) := by
    rw [hS,
      show entriesSep [(g.part, '1'), (placesBlob g, '2'), (mapBlob g.inventory, '3'), (mapBlob g.lockeddoors, '4'), (mapBlob g.changableobjects, '5'), (mapBlob g.beento, '6'), (mapBlob g.enemiesalive, '7'), (mapBlob g.npc_stats, '8')] = ',' :: ' ' :: entryStr (g.part) '1' ++ entriesSep [(placesBlob g, '2'), (mapBlob g.inventory, '3'), (mapBlob g.lockeddoors, '4'), (mapBlob g.changableobjects, '5'), (mapBlob g.beento, '6'), (mapBlob g.enemiesalive, '7'), (mapBlob g.npc_stats, '8')] from rfl,
      show entriesSep [(placesBlob g, '2'), (mapBlob g.inventory, '3'), (mapBlob g.lockeddoors, '4'), (mapBlob g.changableobjects, '5'), (mapBlob g.beento, '6'), (mapBlob g.enemiesalive, '7'), (mapBlob g.npc_stats, '8')] = ',' :: ' ' :: entryStr (placesBlob g) '2' ++ entriesSep [(mapBlob g.inventory, '3'), (mapBlob g.lockeddoors, '4'), (mapBlob g.changableobjects, '5'), (mapBlob g.beento, '6'), (mapBlob g.enemiesalive, '7'), (mapBlob g.npc_stats, '8')] from rfl,
      show entriesSep [(mapBlob g.inventory, '3'), (mapBlob g.lockeddoors, '4'), (mapBlob g.changableobjects, '5'), (mapBlob g.beento, '6'), (mapBlob g.enemiesalive, '7'), (mapBlob g.npc_stats, '8')] = ',' :: ' ' :: entryStr (mapBlob g.inventory) '3' ++ entriesSep [(mapBlob g.lockeddoors, '4'), (mapBlob g.changableobjects, '5'), (mapBlob g.beento, '6'), (mapBlob g.enemiesalive, '7'), (mapBlob g.npc_stats, '8')] from rfl,
      show entryStr (mapBlob g.inventory) '3' = quoteCh :: ((mapBlob g.inventory).data ++ (quoteCh :: ':' :: ' ' :: ['3'])) from rfl,
      hmb]
    simp only [List.append_assoc, List.cons_append, List.nil_append]
  rw [(pySlice_seg _ _ _ _ hx _ _
    (by
      simp only [List.length_cons, List.length_append, List.length_nil, entryStr_length]
      omega)
    (by
      simp only [List.length_cons, List.length_append, List.length_nil, entryStr_length]
      omega)), str_mk_data]
  exact parseMap_mrend g.inventory (keys_good_of_map _ _ hinv invKeys_good)
    (by rw [hinv]; decide)

theorem loadLock_eval (g : Globals) (hg : GoodState g) :
    loadMapSeg (savefileStr g) "': 3" "': 4" = Except.ok g.lockeddoors := by
  have hS := savefileStr_data g hg
  obtain ⟨hpart, hhead, hplaces, hinv, hlock, hchg, hbeen, henemy, hnpc⟩ := hg
  have hmb : (mapBlob g.lockeddoors).data = ' ' :: (mrend g.lockeddoors).data := by
    rw [mapBlob_eq]
    show (" " ++ mrend g.lockeddoors).data = _
    rw [String.data_append, dataSp]
    rfl
  have hn : (mapBlob g.lockeddoors).data.length = (mrend g.lockeddoors).data.length + 1 := by
    rw [hmb]
    rfl
  unfold loadMapSeg
  rw [findA3 g ⟨hpart, hhead, hplaces, hinv, hlock, hchg, hbeen, henemy, hnpc⟩,
      findA4 g ⟨hpart, hhead, hplaces, hinv, hlock, hchg, hbeen, henemy, hnpc⟩]
  have hx : (savefileStr g).data =
      (lbrace :: (entryStr (settingsBlob g) '0' ++ (',' :: ' ' :: (entryStr (g.part) '1' ++ (',' :: ' ' :: (entryStr (placesBlob g) '2' ++ (',' :: ' ' :: (entryStr (mapBlob g.inventory) '3' ++ [',', ' ', quoteCh, ' '])))))))) ++
      ((mrend g.lockeddoors).data ++ (quoteCh :: ':' :: ' ' :: '4' :: (entriesSep [(mapBlob g.changableobjects, '5'), (mapBlob g.beento, '6'), (mapBlob g.enemiesalive, '7'), (mapBlob g.npc_stats, '8')] ++ [rbrace]))) := by
    rw [hS,
      show entriesSep [(g.part, '1'), (placesBlob g, '2'), (mapBlob g.inventory, '3'), (mapBlob g.lockeddoors, '4'), (mapBlob g.changableobjects, '5'), (mapBlob g.beento, '6'), (mapBlob g.enemiesalive, '7'), (mapBlob g.npc_stats, '8')] = ',' :: ' ' :: entryStr (g.part) '1' ++ entriesSep [(placesBlob g, '2'), (mapBlob g.inventory, '3'), (mapBlob g.lockeddoors, '4'), (mapBlob g.changableobjects, '5'), (mapBlob g.beento, '6'), (mapBlob g.enemiesalive, '7'), (mapBlob g.npc_stats, '8')] from rfl,
      show entriesSep [(placesBlob g, '2'), (mapBlob g.inventory, '3'), (mapBlob g.lockeddoors, '4'), (mapBlob g.changableobjects, '5'), (mapBlob g.beento, '6'), (mapBlob g.enemiesalive, '7'), (mapBlob g.npc_stats, '8')] = ',' :: ' ' :: entryStr (placesBlob g) '2' ++ entriesSep [(mapBlob g.inventory, '3'), (mapBlob g.lockeddoors, '4'), (mapBlob g.changableobjects, '5'), (mapBlob g.beento, '6'), (mapBlob g.enemiesalive, '7'), (mapBlob g.npc_stats, '8')] from rfl,
      show entriesSep [(mapBlob g.inventory, '3'), (mapBlob g.lockeddoors, '4'), (mapBlob g.changableobjects, '5'), (mapBlob g.beento, '6'), (mapBlob g.enemiesalive, '7'), (mapBlob g.npc_stats, '8')] = ',' :: ' ' :: entryStr (mapBlob g.inventory) '3' ++ entriesSep [(mapBlob g.lockeddoors, '4'), (mapBlob g.changableobjects, '5'), (mapBlob g.beento, '6'), (mapBlob g.enemiesalive, '7'), (mapBlob g.npc_stats, '8')] from rfl,
      show entriesSep [(mapBlob g.lockeddoors, '4'), (mapBlob g.changableobjects, '5'), (mapBlob g.beento, '6'), (mapBlob g.enemiesalive, '7'), (mapBlob g.npc_stats, '8')] = ',' :: ' ' :: entryStr (mapBlob g.lockeddoors) '4' ++ entriesSep [(mapBlob g.changableobjects, '5'), (mapBlob g.beento, '6'), (mapBlob g.enemiesalive, '7'), (mapBlob g.npc_stats, '8')] from rfl,
      show entryStr (mapBlob g.lockeddoors) '4' = quoteCh :: ((mapBlob g.lockeddoors).data ++ (quoteCh :: ':' :: ' ' :: ['4'])) from rfl,
      hmb]
    simp only [List.append_assoc, List.cons_append, List.nil_append]
  rw [(pySlice_seg _ _ _ _ hx _ _
    (by
      simp only [List.length_cons, List.length_append, List.length_nil, entryStr_length]
      omega)
    (by
      simp only [List.length_cons, List.length_append, List.length_nil, entryStr_length]
      omega)), str_mk_data]
  exact parseMap_mrend g.lockeddoors (keys_good_of_map _ _ hlock lockKeys_good)
    (by rw [hlock]; decide)

theorem loadChg_eval (g : Globals) (hg : GoodState g) :
    loadMapSeg (savefileStr g) "': 4" "': 5" = Except.ok g.changableobjects := by
  have hS := savefileStr_data g hg
  obtain ⟨hpart, hhead, hplaces, hinv, hlock, hchg, hbeen, henemy, hnpc⟩ := hg
  have hmb : (mapBlob g.changableobjects).data = ' ' :: (mrend g.changableobjects).data := by
    rw [mapBlob_eq]
    show (" " ++ mrend g.changableobjects).data = _
    rw [String.data_append, dataSp]
    rfl
  have hn : (mapBlob g.changableobjects).data.length = (mrend g.changableobjects).data.length + 1 := by
    rw [hmb]
    rfl
  unfold loadMapSeg
  rw [findA4 g ⟨hpart, hhead, hplaces, hinv, hlock, hchg, hbeen, henemy, hnpc⟩,
      findA5 g ⟨hpart, hhead, hplaces, hinv, hlock, hchg, hbeen, henemy, hnpc⟩]
  have hx : (savefileStr g).data =
      (lbrace :: (entryStr (settingsBlob g) '0' ++ (',' :: ' ' :: (entryStr (g.part) '1' ++ (',' :: ' ' :: (entryStr (placesBlob g) '2' ++ (',' :: ' ' :: (entryStr (mapBlob g.inventory) '3' ++ (',' :: ' ' :: (entryStr (mapBlob g.lockeddoors) '4' ++ [',', ' ', quoteCh, ' '])))))))))) ++
      ((mrend g.changableobjects).data ++ (quoteCh :: ':' :: ' ' :: '5' :: (entriesSep [(mapBlob g.beento, '6'), (mapBlob g.enemiesalive, '7'), (mapBlob g.npc_stats, '8')] ++ [rbrace]))) := by
    rw [hS,
      show entriesSep [(g.part, '1'), (placesBlob g, '2'), (mapBlob g.inventory, '3'), (mapBlob g.lockeddoors, '4'), (mapBlob g.changableobjects, '5'), (mapBlob g.beento, '6'), (mapBlob g.enemiesalive, '7'), (mapBlob g.npc_stats, '8')] = ',' :: ' ' :: entryStr (g.part) '1' ++ entriesSep [(placesBlob g, '2'), (mapBlob g.inventory, '3'), (mapBlob g.lockeddoors, '4'), (mapBlob g.changableobjects, '5'), (mapBlob g.beento, '6'), (mapBlob g.enemiesalive, '7'), (mapBlob g.npc_stats, '8')] from rfl,
      show entriesSep [(placesBlob g, '2'), (mapBlob g.inventory, '3'), (mapBlob g.lockeddoors, '4'), (mapBlob g.changableobjects, '5'), (mapBlob g.beento, '6'), (mapBlob g.enemiesalive, '7'), (mapBlob g.npc_stats, '8')] = ',' :: ' ' :: entryStr (placesBlob g) '2' ++ entriesSep [(mapBlob g.inventory, '3'), (mapBlob g.lockeddoors, '4'), (mapBlob g.changableobjects, '5'), (mapBlob g.beento, '6'), (mapBlob g.enemiesalive, '7'), (mapBlob g.npc_stats, '8')] from rfl,
      show entriesSep [(mapBlob g.inventory, '3'), (mapBlob g.lockeddoors, '4'), (mapBlob g.changableobjects, '5'), (mapBlob g.beento, '6'), (mapBlob g.enemiesalive, '7'), (mapBlob g.npc_stats, '8')] = ',' :: ' ' :: entryStr (mapBlob g.inventory) '3' ++ entriesSep [(mapBlob g.lockeddoors, '4'), (mapBlob g.changableobjects, '5'), (mapBlob g.beento, '6'), (mapBlob g.enemiesalive, '7'), (mapBlob g.npc_stats, '8')] from rfl,
      show entriesSep [(mapBlob g.lockeddoors, '4'), (mapBlob g.changableobjects, '5'), (mapBlob g.beento, '6'), (mapBlob g.enemiesalive, '7'), (mapBlob g.npc_stats, '8')] = ',' :: ' ' :: entryStr (mapBlob g.lockeddoors) '4' ++ entriesSep [(mapBlob g.changableobjects, '5'), (mapBlob g.beento, '6'), (mapBlob g.enemiesalive, '7'), (mapBlob g.npc_stats, '8')] from rfl,
      show entriesSep [(mapBlob g.changableobjects, '5'), (mapBlob g.beento, '6'), (mapBlob g.enemiesalive, '7'), (mapBlob g.npc_stats, '8')] = ',' :: ' ' :: entryStr (mapBlob g.changableobjects) '5' ++ entriesSep [(mapBlob g.beento, '6'), (mapBlob g.enemiesalive, '7'), (mapBlob g.npc_stats, '8')] from rfl,
      show entryStr (mapBlob g.changableobjects) '5' = quoteCh :: ((mapBlob g.changableobjects).data ++ (quoteCh :: ':' :: ' ' :: ['5'])) from rfl,
      hmb]
    simp only [List.append_assoc, List.cons_append, List.nil_append]
  rw [(pySlice_seg _ _ _ _ hx _ _
    (by
      simp only [List.length_cons, List.length_append, List.length_nil, entryStr_length]
      omega)
    (by
      simp only [List.length_cons, List.length_append, List.length_nil, entryStr_length]
      omega)), str_mk_data]
  exact parseMap_mrend g.changableobjects (keys_good_of_map _ _ hchg chgKeys_good)
    (by rw [hchg]; decide)

theorem loadBeen_eval (g : Globals) (hg : GoodState g) :
    loadMapSeg (savefileStr g) "': 5" "': 6" = Except.ok g.beento := by
  have hS := savefileStr_data g hg
  obtain ⟨hpart, hhead, hplaces, hinv, hlock, hchg, hbeen, henemy, hnpc⟩ := hg
  have hmb : (mapBlob g.beento).data = ' ' :: (mrend g.beento).data := by
    rw [mapBlob_eq]
    show (" " ++ mrend g.beento).data = _
    rw [String.data_append, dataSp]
    rfl
  have hn : (mapBlob g.beento).data.length = (mrend g.beento).data.length + 1 := by
    rw [hmb]
    rfl
  unfold loadMapSeg
  rw [findA5 g ⟨hpart, hhead, hplaces, hinv, hlock, hchg, hbeen, henemy, hnpc⟩,
      findA6 g ⟨hpart, hhead, hplaces, hinv, hlock, hchg, hbeen, henemy, hnpc⟩]
  have hx : (savefileStr g).data =
      (lbrace :: (entryStr (settingsBlob g) '0' ++ (',' :: ' ' :: (entryStr (g.part) '1' ++ (',' :: ' ' :: (entryStr (placesBlob g) '2' ++ (',' :: ' ' :: (entryStr (mapBlob g.inventory) '3' ++ (',' :: ' ' :: (entryStr (mapBlob g.lockeddoors) '4' ++ (',' :: ' ' :: (entryStr (mapBlob g.changableobjects) '5' ++ [',', ' ', quoteCh, ' '])))))))))))) ++
      ((mrend g.beento).data ++ (quoteCh :: ':' :: ' ' :: '6' :: (entriesSep [(mapBlob g.enemiesalive, '7'), (mapBlob g.npc_stats, '8')] ++ [rbrace]))) := by
    rw [hS,
      show entriesSep [(g.part, '1'), (placesBlob g, '2'), (mapBlob g.inventory, '3'), (mapBlob g.lockeddoors, '4'), (mapBlob g.changableobjects, '5'), (mapBlob g.beento, '6'), (mapBlob g.enemiesalive, '7'), (mapBlob g.npc_stats, '8')] = ',' :: ' ' :: entryStr (g.part) '1' ++ entriesSep [(placesBlob g, '2'), (mapBlob g.inventory, '3'), (mapBlob g.lockeddoors, '4'), (mapBlob g.changableobjects, '5'), (mapBlob g.beento, '6'), (mapBlob g.enemiesalive, '7'), (mapBlob g.npc_stats, '8')] from rfl,
      show entriesSep [(placesBlob g, '2'), (mapBlob g.inventory, '3'), (mapBlob g.lockeddoors, '4'), (mapBlob g.changableobjects, '5'), (mapBlob g.beento, '6'), (mapBlob g.enemiesalive, '7'), (mapBlob g.npc_stats, '8')] = ',' :: ' ' :: entryStr (placesBlob g) '2' ++ entriesSep [(mapBlob g.inventory, '3'), (mapBlob g.lockeddoors, '4'), (mapBlob g.changableobjects, '5'), (mapBlob g.beento, '6'), (mapBlob g.enemiesalive, '7'), (mapBlob g.npc_stats, '8')] from rfl,
      show entriesSep [(mapBlob g.inventory, '3'), (mapBlob g.lockeddoors, '4'), (mapBlob g.changableobjects, '5'), (mapBlob g.beento, '6'), (mapBlob g.enemiesalive, '7'), (mapBlob g.npc_stats, '8')] = ',' :: ' ' :: entryStr (mapBlob g.inventory) '3' ++ entriesSep [(mapBlob g.lockeddoors, '4'), (mapBlob g.changableobjects, '5'), (mapBlob g.beento, '6'), (mapBlob g.enemiesalive, '7'), (mapBlob g.npc_stats, '8')] from rfl,
      show entriesSep [(mapBlob g.lockeddoors, '4'), (mapBlob g.changableobjects, '5'), (mapBlob g.beento, '6'), (mapBlob g.enemiesalive, '7'), (mapBlob g.npc_stats, '8')] = ',' :: ' ' :: entryStr (mapBlob g.lockeddoors) '4' ++ entriesSep [(mapBlob g.changableobjects, '5'), (mapBlob g.beento, '6'), (mapBlob g.enemiesalive, '7'), (mapBlob g.npc_stats, '8')] from rfl,
      show entriesSep [(mapBlob g.changableobjects, '5'), (mapBlob g.beento, '6'), (mapBlob g.enemiesalive, '7'), (mapBlob g.npc_stats, '8')] = ',' :: ' ' :: entryStr (mapBlob g.changableobjects) '5' ++ entriesSep [(mapBlob g.beento, '6'), (mapBlob g.enemiesalive, '7'), (mapBlob g.npc_stats, '8')] from rfl,
      show entriesSep [(mapBlob g.beento, '6'), (mapBlob g.enemiesalive, '7'), (mapBlob g.npc_stats, '8')] = ',' :: ' ' :: entryStr (mapBlob g.beento) '6' ++ entriesSep [(mapBlob g.enemiesalive, '7'), (mapBlob g.npc_stats, '8')] from rfl,
      show entryStr (mapBlob g.beento) '6' = quoteCh :: ((mapBlob g.beento).data ++ (quoteCh :: ':' :: ' ' :: ['6'])) from rfl,
      hmb]
    simp only [List.append_assoc, List.cons_append, List.nil_append]
  rw [(pySlice_seg _ _ _ _ hx _ _
    (by
      simp only [List.length_cons, List.length_append, List.length_nil, entryStr_length]
      omega)
    (by
      simp only [List.length_cons, List.length_append, List.length_nil, entryStr_length]
      omega)), str_mk_data]
  exact parseMap_mrend g.beento (keys_good_of_map _ _ hbeen beenKeys_good)
    (by rw [hbeen]; decide)

theorem loadEnemy_eval (g : Globals) (hg : GoodState g) :
    loadMapSeg (savefileStr g) "': 6" "': 7" = Except.ok g.enemiesalive := by
  have hS := savefileStr_data g hg
  obtain ⟨hpart, hhead, hplaces, hinv, hlock, hchg, hbeen, henemy, hnpc⟩ := hg
  have hmb : (mapBlob g.enemiesalive).data = ' ' :: (mrend g.enemiesalive).data := by
    rw [mapBlob_eq]
    show (" " ++ mrend g.enemiesalive).data = _
    rw [String.data_append, dataSp]
    rfl
  have hn : (mapBlob g.enemiesalive).data.length = (mrend g.enemiesalive).data.length + 1 := by
    rw [hmb]
    rfl
  unfold loadMapSeg
  rw [findA6 g ⟨hpart, hhead, hplaces, hinv, hlock, hchg, hbeen, henemy, hnpc⟩,
      findA7 g ⟨hpart, hhead, hplaces, hinv, hlock, hchg, hbeen, henemy, hnpc⟩]
  have hx : (savefileStr g).data =
      (lbrace :: (entryStr (settingsBlob g) '0' ++ (',' :: ' ' :: (entryStr (g.part) '1' ++ (',' :: ' ' :: (entryStr (placesBlob g) '2' ++ (',' :: ' ' :: (entryStr (mapBlob g.inventory) '3' ++ (',' :: ' ' :: (entryStr (mapBlob g.lockeddoors) '4' ++ (',' :: ' ' :: (entryStr (mapBlob g.changableobjects) '5' ++ (',' :: ' ' :: (entryStr (mapBlob g.beento) '6' ++ [',', ' ', quoteCh, ' '])))))))))))))) ++
      ((mrend g.enemiesalive).data ++ (quoteCh :: ':' :: ' ' :: '7' :: (entriesSep [(mapBlob g.npc_stats, '8')] ++ [rbrace]))) := by
    rw [hS,
      show entriesSep [(g.part, '1'), (placesBlob g, '2'), (mapBlob g.inventory, '3'), (mapBlob g.lockeddoors, '4'), (mapBlob g.changableobjects, '5'), (mapBlob g.beento, '6'), (mapBlob g.enemiesalive, '7'), (mapBlob g.npc_stats, '8')] = ',' :: ' ' :: entryStr (g.part) '1' ++ entriesSep [(placesBlob g, '2'), (mapBlob g.inventory, '3'), (mapBlob g.lockeddoors, '4'), (mapBlob g.changableobjects, '5'), (mapBlob g.beento, '6'), (mapBlob g.enemiesalive, '7'), (mapBlob g.npc_stats, '8')] from rfl,
      show entriesSep [(placesBlob g, '2'), (mapBlob g.inventory, '3'), (mapBlob g.lockeddoors, '4'), (mapBlob g.changableobjects, '5'), (mapBlob g.beento, '6'), (mapBlob g.enemiesalive, '7'), (mapBlob g.npc_stats, '8')] = ',' :: ' ' :: entryStr (placesBlob g) '2' ++ entriesSep [(mapBlob g.inventory, '3'), (mapBlob g.lockeddoors, '4'), (mapBlob g.changableobjects, '5'), (mapBlob g.beento, '6'), (mapBlob g.enemiesalive, '7'), (mapBlob g.npc_stats, '8')] from rfl,
      show entriesSep [(mapBlob g.inventory, '3'), (mapBlob g.lockeddoors, '4'), (mapBlob g.changableobjects, '5'), (mapBlob g.beento, '6'), (mapBlob g.enemiesalive, '7'), (mapBlob g.npc_stats, '8')] = ',' :: ' ' :: entryStr (mapBlob g.inventory) '3' ++ entriesSep [(mapBlob g.lockeddoors, '4'), (mapBlob g.changableobjects, '5'), (mapBlob g.beento, '6'), (mapBlob g.enemiesalive, '7'), (mapBlob g.npc_stats, '8')] from rfl,
      show entriesSep [(mapBlob g.lockeddoors, '4'), (mapBlob g.changableobjects, '5'), (mapBlob g.beento, '6'), (mapBlob g.enemiesalive, '7'), (mapBlob g.npc_stats, '8')] = ',' :: ' ' :: entryStr (mapBlob g.lockeddoors) '4' ++ entriesSep [(mapBlob g.changableobjects, '5'), (mapBlob g.beento, '6'), (mapBlob g.enemiesalive, '7'), (mapBlob g.npc_stats, '8')] from rfl,
      show entriesSep [(mapBlob g.changableobjects, '5'), (mapBlob g.beento, '6'), (mapBlob g.enemiesalive, '7'), (mapBlob g.npc_stats, '8')] = ',' :: ' ' :: entryStr (mapBlob g.changableobjects) '5' ++ entriesSep [(mapBlob g.beento, '6'), (mapBlob g.enemiesalive, '7'), (mapBlob g.npc_stats, '8')] from rfl,
      show entriesSep [(mapBlob g.beento, '6'), (mapBlob g.enemiesalive, '7'), (mapBlob g.npc_stats, '8')] = ',' :: ' ' :: entryStr (mapBlob g.beento) '6' ++ entriesSep [(mapBlob g.enemiesalive, '7'), (mapBlob g.npc_stats, '8')] from rfl,
      show entriesSep [(mapBlob g.enemiesalive, '7'), (mapBlob g.npc_stats, '8')] = ',' :: ' ' :: entryStr (mapBlob g.enemiesalive) '7' ++ entriesSep [(mapBlob g.npc_stats, '8')] from rfl,
      show entryStr (mapBlob g.enemiesalive) '7' = quoteCh :: ((mapBlob g.enemiesalive).data ++ (quoteCh :: ':' :: ' ' :: ['7'])) from rfl,
      hmb]
    simp only [List.append_assoc, List.cons_append, List.nil_append]
  rw [(pySlice_seg _ _ _ _ hx _ _
    (by
      simp only [List.length_cons, List.length_append, List.length_nil, entryStr_length]
      omega)
    (by
      simp only [List.length_cons, List.length_append, List.length_nil, entryStr_length]
      omega)), str_mk_data]
  exact parseMap_mrend g.enemiesalive (keys_good_of_map _ _ henemy enemyKeys_good)
    (by rw [henemy]; decide)

theorem loadNpc_eval (g : Globals) (hg : GoodState g) :
    loadMapSeg (savefileStr g) "': 7" "': 8" = Except.ok g.npc_stats := by
  have hS := savefileStr_data g hg
  obtain ⟨hpart, hhead, hplaces, hinv, hlock, hchg, hbeen, henemy, hnpc⟩ := hg
  have hmb : (mapBlob g.npc_stats).data = ' ' :: (mrend g.npc_stats).data := by
    rw [mapBlob_eq]
    show (" " ++ mrend g.npc_stats).data = _
    rw [String.data_append, dataSp]
    rfl
  have hn : (mapBlob g.npc_stats).data.length = (mrend g.npc_stats).data.length + 1 := by
    rw [hmb]
    rfl
  unfold loadMapSeg
  rw [findA7 g ⟨hpart, hhead, hplaces, hinv, hlock, hchg, hbeen, henemy, hnpc⟩,
      findA8 g ⟨hpart, hhead, hplaces, hinv, hlock, hchg, hbeen, henemy, hnpc⟩]
  have hx : (savefileStr g).data =
      (lbrace :: (entryStr (settingsBlob g) '0' ++ (',' :: ' ' :: (entryStr (g.part) '1' ++ (',' :: ' ' :: (entryStr (placesBlob g) '2' ++ (',' :: ' ' :: (entryStr (mapBlob g.inventory) '3' ++ (',' :: ' ' :: (entryStr (mapBlob g.lockeddoors) '4' ++ (',' :: ' ' :: (entryStr (mapBlob g.changableobjects) '5' ++ (',' :: ' ' :: (entryStr (mapBlob g.beento) '6' ++ (',' :: ' ' :: (entryStr (mapBlob g.enemiesalive) '7' ++ [',', ' ', quoteCh, ' '])))))))))))))))) ++
      ((mrend g.npc_stats).data ++ (quoteCh :: ':' :: ' ' :: '8' :: (entriesSep [] ++ [rbrace]))) := by
    rw [hS,
      show entriesSep [(g.part, '1'), (placesBlob g, '2'), (mapBlob g.inventory, '3'), (mapBlob g.lockeddoors, '4'), (mapBlob g.changableobjects, '5'), (mapBlob g.beento, '6'), (mapBlob g.enemiesalive, '7'), (mapBlob g.npc_stats, '8')] = ',' :: ' ' :: entryStr (g.part) '1' ++ entriesSep [(placesBlob g, '2'), (mapBlob g.inventory, '3'), (mapBlob g.lockeddoors, '4'), (mapBlob g.changableobjects, '5'), (mapBlob g.beento, '6'), (mapBlob g.enemiesalive, '7'), (mapBlob g.npc_stats, '8')] from rfl,
      show entriesSep [(placesBlob g, '2'), (mapBlob g.inventory, '3'), (mapBlob g.lockeddoors, '4'), (mapBlob g.changableobjects, '5'), (mapBlob g.beento, '6'), (mapBlob g.enemiesalive, '7'), (mapBlob g.npc_stats, '8')] = ',' :: ' ' :: entryStr (placesBlob g) '2' ++ entriesSep [(mapBlob g.inventory, '3'), (mapBlob g.lockeddoors, '4'), (mapBlob g.changableobjects, '5'), (mapBlob g.beento, '6'), (mapBlob g.enemiesalive, '7'), (mapBlob g.npc_stats, '8')] from rfl,
      show entriesSep [(mapBlob g.inventory, '3'), (mapBlob g.lockeddoors, '4'), (mapBlob g.changableobjects, '5'), (mapBlob g.beento, '6'), (mapBlob g.enemiesalive, '7'), (mapBlob g.npc_stats, '8')] = ',' :: ' ' :: entryStr (mapBlob g.inventory) '3' ++ entriesSep [(mapBlob g.lockeddoors, '4'), (mapBlob g.changableobjects, '5'), (mapBlob g.beento, '6'), (mapBlob g.enemiesalive, '7'), (mapBlob g.npc_stats, '8')] from rfl,
      show entriesSep [(mapBlob g.lockeddoors, '4'), (mapBlob g.changableobjects, '5'), (mapBlob g.beento, '6'), (mapBlob g.enemiesalive, '7'), (mapBlob g.npc_stats, '8')] = ',' :: ' ' :: entryStr (mapBlob g.lockeddoors) '4' ++ entriesSep [(mapBlob g.changableobjects, '5'), (mapBlob g.beento, '6'), (mapBlob g.enemiesalive, '7'), (mapBlob g.npc_stats, '8')] from rfl,
      show entriesSep [(mapBlob g.changableobjects, '5'), (mapBlob g.beento, '6'), (mapBlob g.enemiesalive, '7'), (mapBlob g.npc_stats, '8')] = ',' :: ' ' :: entryStr (mapBlob g.changableobjects) '5' ++ entriesSep [(mapBlob g.beento, '6'), (mapBlob g.enemiesalive, '7'), (mapBlob g.npc_stats, '8')] from rfl,
      show entriesSep [(mapBlob g.beento, '6'), (mapBlob g.enemiesalive, '7'), (mapBlob g.npc_stats, '8')] = ',' :: ' ' :: entryStr (mapBlob g.beento) '6' ++ entriesSep [(mapBlob g.enemiesalive, '7'), (mapBlob g.npc_stats, '8')] from rfl,
      show entriesSep [(mapBlob g.enemiesalive, '7'), (mapBlob g.npc_stats, '8')] = ',' :: ' ' :: entryStr (mapBlob g.enemiesalive) '7' ++ entriesSep [(mapBlob g.npc_stats, '8')] from rfl,
      show entriesSep [(mapBlob g.npc_stats, '8')] = ',' :: ' ' :: entryStr (mapBlob g.npc_stats) '8' ++ entriesSep [] from rfl,
      show entryStr (mapBlob g.npc_stats) '8' = quoteCh :: ((mapBlob g.npc_stats).data ++ (quoteCh :: ':' :: ' ' :: ['8'])) from rfl,
      hmb]
    simp only [List.append_assoc, List.cons_append, List.nil_append]
  rw [(pySlice_seg _ _ _ _ hx _ _
    (by
      simp only [List.length_cons, List.length_append, List.length_nil, entryStr_length]
      omega)
    (by
      simp only [List.length_cons, List.length_append, List.length_nil, entryStr_length]
      omega)), str_mk_data]
  exact parseMap_mrend g.npc_stats (keys_good_of_map _ _ hnpc npcKeys_good)
    (by rw [hnpc]; decide)

/-! ### The round trip itself -/

theorem emit_action (g : Globals) (s : String) : (emit g s).action = g.action := rfl

theorem load_eval_abstract (G : Globals)
    (hl : G.actiontype.contains "load" = true)
    (hbr : (pySlice G.action 0 1 == "\x7b" && pySliceFrom G.action (-1) == "\x7d") = true)
    (pd : Int × Int) (hpd : loadSettings G.action = Except.ok pd)
    (inv ld co bt ea ns : PyDict)
    (hinvS : loadMapSeg G.action "': 2" "': 3" = Except.ok inv)
    (hldd : loadMapSeg G.action "': 3" "': 4" = Except.ok ld)
    (hco : loadMapSeg G.action "': 4" "': 5" = Except.ok co)
    (hbt : loadMapSeg G.action "': 5" "': 6" = Except.ok bt)
    (hea : loadMapSeg G.action "': 6" "': 7" = Except.ok ea)
    (hns : loadMapSeg G.action "': 7" "': 8" = Except.ok ns) :
    (load G).map
      (fun g2 => (g2.paratype, g2.developermode, g2.part, g2.placesdiscovered, g2.inventory,
        g2.lockeddoors, g2.changableobjects, g2.beento, g2.enemiesalive, g2.npc_stats)) =
    Except.ok (pd.1, pd.2, loadPart G.action, loadPlaces G.action G.placesdiscovered,
      inv, ld, co, bt, ea, ns) := by
  have hact : (emit G "").action = G.action := rfl
  unfold load
  rw [if_pos hl]
  simp only [Bind.bind, Except.bind]
  rw [hact, if_pos hbr]
  rw [hpd, hinvS, hldd, hco, hbt, hea, hns]
  simp only [Except.map]
  rfl

/-- C1: saving and then loading the produced save string in the same session
restores the state field-for-field.  `GoodState` captures the shape the
persisted fields have in every reachable state: a well-formed current part,
discovered places led by the start location, and the six mapping fields'
fixed key sets.  For any such state, `load` run on `str(savefile)` succeeds
and returns the same current location, discovered places, inventory, locked
doors, changeable objects, visited flags, enemies alive, npc stats, and the
two settings. -/
theorem save_load_round_trip (g : Globals) (hg : GoodState g) :
    (load {g with action := savefileStr g, actiontype := ["load"]}).map
      (fun g2 => (g2.paratype, g2.developermode, g2.part, g2.placesdiscovered, g2.inventory,
        g2.lockeddoors, g2.changableobjects, g2.beento, g2.enemiesalive, g2.npc_stats)) =
    Except.ok (g.paratype, g.developermode, g.part, g.placesdiscovered, g.inventory,
      g.lockeddoors, g.changableobjects, g.beento, g.enemiesalive, g.npc_stats) := by
  have hS := savefileStr_data g hg
  have hbr1 : pySlice (savefileStr g) 0 1 = ("\x7b" : String) :=
    (pySlice_first _ lbrace _ hS).trans rfl
  have hbr2 : pySliceFrom (savefileStr g) (-1) = ("\x7d" : String) :=
    (pySliceFrom_last _ (lbrace :: (entryStr (settingsBlob g) '0' ++
      entriesSep [(g.part, '1'), (placesBlob g, '2'), (mapBlob g.inventory, '3'),
        (mapBlob g.lockeddoors, '4'), (mapBlob g.changableobjects, '5'),
        (mapBlob g.beento, '6'), (mapBlob g.enemiesalive, '7'),
        (mapBlob g.npc_stats, '8')])) rbrace (by
      rw [hS]
      simp only [List.append_assoc, List.cons_append, List.nil_append])).trans rfl
  have hGact : ({g with action := savefileStr g, actiontype := ["load"]}).action =
      savefileStr g := rfl
  have hGpla : ({g with action := savefileStr g, actiontype := ["load"]}).placesdiscovered = g.placesdiscovered := rfl
  have h := load_eval_abstract {g with action := savefileStr g, actiontype := ["load"]}
    rfl
    (by rw [hGact, hbr1, hbr2]; decide)
    (g.paratype, g.developermode) (by rw [hGact]; exact loadSettings_eval g hg)
    g.inventory g.lockeddoors g.changableobjects g.beento g.enemiesalive g.npc_stats
    (by rw [hGact]; exact loadInv_eval g hg)
    (by rw [hGact]; exact loadLock_eval g hg)
    (by rw [hGact]; exact loadChg_eval g hg)
    (by rw [hGact]; exact loadBeen_eval g hg)
    (by rw [hGact]; exact loadEnemy_eval g hg)
    (by rw [hGact]; exact loadNpc_eval g hg)
  rw [hGact, hGpla, loadPart_eval g hg, loadPlaces_eval g hg] at h
  exact h

theorem save_load_round_trip_witness :
    GoodState initialGlobals ∧
    (load {initialGlobals with action := savefileStr initialGlobals, actiontype := ["load"]}).map
      (fun g2 => (g2.paratype, g2.developermode, g2.part, g2.placesdiscovered, g2.inventory,
        g2.lockeddoors, g2.changableobjects, g2.beento, g2.enemiesalive, g2.npc_stats)) =
    Except.ok (initialGlobals.paratype, initialGlobals.developermode, initialGlobals.part,
      initialGlobals.placesdiscovered, initialGlobals.inventory, initialGlobals.lockeddoors,
      initialGlobals.changableobjects, initialGlobals.beento, initialGlobals.enemiesalive,
      initialGlobals.npc_stats) := by
  have hGS : GoodState initialGlobals :=
    ⟨by decide, by decide, by decide, by decide, by decide, by decide, by decide, by decide,
     by decide⟩
  exact ⟨hGS, save_load_round_trip initialGlobals hGS⟩

end MAFG
